import Mathlib

/-!
Verification development for a TypeScript SNES emulator.

The definitions below are a shallow embedding of the emulator's core
classes (`Input`, `APU`, `PPU`, `Memory`, `CPU65816`, and the scheduler's
per-scanline CPU loop).  JavaScript numbers are modelled as `Nat` with the
masks and moduli the source applies written out explicitly; typed arrays
(`Uint8Array`, `Uint16Array`) are modelled as total functions `Nat → Nat`
whose stores truncate to the element width and ignore out-of-bounds
indices, matching typed-array semantics.  Code that can throw at runtime
(the DMA engine calls `ppu.readRegister`, a method the `PPU` class does
not define) is modelled with `Option`.
-/

/-- Pointwise update of a function-modelled array. -/
def setFn {α : Type} (f : Nat → α) (i : Nat) (v : α) : Nat → α :=
  fun j => if j = i then v else f j

/-- Byte store into a `Uint8Array` of the given length: the value is
truncated to 8 bits and out-of-bounds stores are ignored. -/
def u8Store (arr : Nat → Nat) (len i v : Nat) : Nat → Nat :=
  if i < len then setFn arr i (v % 256) else arr

/-! ## Input (src/src/core/Input.ts) -/

/-- Controller state of the `Input` class: live 16-bit masks (active low),
latched snapshots and shift indices. -/
structure Input where
  controller1State : Nat
  controller2State : Nat
  controller1Latch : Nat
  controller2Latch : Nat
  controller1Index : Nat
  controller2Index : Nat
deriving Repr, DecidableEq

/-- Initial `Input` state (field initializers of the class). -/
def Input.init : Input :=
  { controller1State := 0xFFFF, controller2State := 0xFFFF
    controller1Latch := 0, controller2Latch := 0
    controller1Index := 0, controller2Index := 0 }

/-- `Input.pressButton`: clears the button bit in the live mask (active low);
`state &= ~button` on a 16-bit mask. -/
def Input.pressButton (inp : Input) (controller button : Nat) : Input :=
  if controller = 1 then
    { inp with controller1State := inp.controller1State &&& (0xFFFF ^^^ (button &&& 0xFFFF)) }
  else if controller = 2 then
    { inp with controller2State := inp.controller2State &&& (0xFFFF ^^^ (button &&& 0xFFFF)) }
  else inp

/-- `Input.releaseButton`: sets the button bit in the live mask. -/
def Input.releaseButton (inp : Input) (controller button : Nat) : Input :=
  if controller = 1 then
    { inp with controller1State := inp.controller1State ||| button }
  else if controller = 2 then
    { inp with controller2State := inp.controller2State ||| button }
  else inp

/-- `Input.latchControllers` (write to $4016): snapshots both live masks and
resets both shift indices. -/
def Input.latchControllers (inp : Input) : Input :=
  { inp with
    controller1Latch := inp.controller1State
    controller2Latch := inp.controller2State
    controller1Index := 0
    controller2Index := 0 }

/-- `Input.readController` (read of $4016/$4017): returns the next latched
bit, most-significant first, and advances the shift index modulo 16. -/
def Input.readController (inp : Input) (controller : Nat) : Nat × Input :=
  if controller = 1 then
    let bit := (inp.controller1Latch >>> (15 - inp.controller1Index)) &&& 1
    (bit, { inp with controller1Index := (inp.controller1Index + 1) % 16 })
  else if controller = 2 then
    let bit := (inp.controller2Latch >>> (15 - inp.controller2Index)) &&& 1
    (bit, { inp with controller2Index := (inp.controller2Index + 1) % 16 })
  else (1, inp)

/-- State after `n` consecutive reads of controller 1. -/
def Input.readTimes (inp : Input) : Nat → Input
  | 0 => inp
  | n + 1 => ((inp.readTimes n).readController 1).2

/-- Value returned by the `(n+1)`-th read of controller 1 (0-indexed `n`). -/
def Input.nthRead (inp : Input) (n : Nat) : Nat :=
  ((inp.readTimes n).readController 1).1

/-! ## APU (APU.ts): only the CPU-visible 4-byte mailbox is relevant. -/

/-- The APU's I/O ports (`ioPorts : Uint8Array(4)`). -/
structure APU where
  ioPorts : Nat → Nat

/-- Initial APU state: ports zeroed. -/
def APU.init : APU := ⟨fun _ => 0⟩

/-- `APU.writePort`: stores `value & 0xFF` when `0 ≤ port < 4`. -/
def APU.writePort (apu : APU) (port value : Nat) : APU :=
  if port < 4 then { apu with ioPorts := setFn apu.ioPorts port (value &&& 0xFF) } else apu

/-- `APU.readPort`: returns the port byte when `0 ≤ port < 4`, else 0. -/
def APU.readPort (apu : APU) (port : Nat) : Nat :=
  if port < 4 then apu.ioPorts port else 0

/-! ## PPU (src/src/core/PPU.ts)

Register-protocol state and the VRAM/CGRAM/OAM/palette access paths.  The
scanline rasterizer (`renderScanline` and the per-mode/tile/sprite helpers)
and its framebuffer/priority scratch buffers are not modelled: no claim
concerns them.  `vram` is the `Uint16Array` word view (32768 words) the PPU
constructor builds over the shared VRAM buffer. -/

structure PPU where
  vram : Nat → Nat
  cgram : Nat → Nat
  oam : Nat → Nat
  brightness : Nat
  vmain : Nat
  vramAddress : Nat
  cgramAddress : Nat
  oamAddress : Nat
  cgramFirstWrite : Bool
  oamFirstWrite : Bool
  bgMode : Nat
  bg3Priority : Bool
  bgTileSize : Nat → Nat
  bgTilemapAddr : Nat → Nat
  bgCharAddr : Nat → Nat
  bgHScroll : Nat → Nat
  bgVScroll : Nat → Nat
  bgScrollPrev : Nat → Nat
  mainScreenDesignation : Nat
  subScreenDesignation : Nat
  mosaicSize : Nat
  mosaicEnable : Nat
  scanline : Nat
  frameCounter : Nat
  vblank : Bool

/-- PPU state after the constructor and `reset()` (zeroed buffers, default
register values from the field initializers). -/
def PPU.init : PPU :=
  { vram := fun _ => 0, cgram := fun _ => 0, oam := fun _ => 0
    brightness := 0x0F, vmain := 0, vramAddress := 0
    cgramAddress := 0, oamAddress := 0
    cgramFirstWrite := true, oamFirstWrite := true
    bgMode := 0, bg3Priority := false
    bgTileSize := fun _ => 0, bgTilemapAddr := fun _ => 0
    bgCharAddr := fun _ => 0, bgHScroll := fun _ => 0
    bgVScroll := fun _ => 0, bgScrollPrev := fun _ => 0
    mainScreenDesignation := 0x1F, subScreenDesignation := 0
    mosaicSize := 1, mosaicEnable := 0
    scanline := 0, frameCounter := 0, vblank := false }

/-- VRAM increment steps selected by VMAIN bits 0-1 (`steps` array in
`vramWrite`; the source uses `{1, 32, 128, 128}`). -/
def vramSteps : List Nat := [1, 32, 128, 128]

/-- `PPU.vramWrite(byteSel, value)`: merges `value` into the low
(`byteSel = 0`) or high (`byteSel = 1`) byte of the word at
`vramAddress & 0x7FFF`, then post-increments `vramAddress` by the
configured step when VMAIN bit 7 matches `byteSel`. -/
def PPU.vramWrite (ppu : PPU) (byteSel value : Nat) : PPU :=
  let addr := ppu.vramAddress &&& 0x7FFF
  let current := ppu.vram addr
  let current :=
    if byteSel = 0 then (current &&& 0xFF00) ||| value
    else (current &&& 0x00FF) ||| (value <<< 8)
  let ppu := { ppu with vram := setFn ppu.vram addr (current % 65536) }
  let incMode := (ppu.vmain &&& 0x80) >>> 7
  if incMode = byteSel then
    let step := vramSteps.getD (ppu.vmain &&& 0x03) 0
    { ppu with vramAddress := (ppu.vramAddress + step) &&& 0xFFFF }
  else ppu

/-- `PPU.writeRegister(address, value)`: the PPU register write dispatch
($2100-$213F).  Cases the source leaves empty (OBSEL, Mode 7, windows)
leave the state unchanged. -/
def PPU.writeRegister (ppu : PPU) (address value : Nat) : PPU :=
  let reg := address &&& 0xFFFF
  match reg with
  | 0x2100 => { ppu with brightness := value &&& 0x0F }
  | 0x2105 =>
    let ts := setFn ppu.bgTileSize 0 (if (value &&& 0x10) != 0 then 16 else 8)
    let ts := setFn ts 1 (if (value &&& 0x20) != 0 then 16 else 8)
    let ts := setFn ts 2 (if (value &&& 0x40) != 0 then 16 else 8)
    let ts := setFn ts 3 (if (value &&& 0x80) != 0 then 16 else 8)
    { ppu with
      bgMode := value &&& 0x07
      bg3Priority := (value &&& 0x08) != 0
      bgTileSize := ts }
  | 0x2106 =>
    { ppu with
      mosaicSize := ((value >>> 4) &&& 0x0F) + 1
      mosaicEnable := value &&& 0x0F }
  | 0x2107 => { ppu with bgTilemapAddr := setFn ppu.bgTilemapAddr 0 ((value &&& 0xFC) <<< 8) }
  | 0x2108 => { ppu with bgTilemapAddr := setFn ppu.bgTilemapAddr 1 ((value &&& 0xFC) <<< 8) }
  | 0x2109 => { ppu with bgTilemapAddr := setFn ppu.bgTilemapAddr 2 ((value &&& 0xFC) <<< 8) }
  | 0x210A => { ppu with bgTilemapAddr := setFn ppu.bgTilemapAddr 3 ((value &&& 0xFC) <<< 8) }
  | 0x210B =>
    let ca := setFn ppu.bgCharAddr 0 ((value &&& 0x0F) <<< 12)
    let ca := setFn ca 1 ((value &&& 0xF0) <<< 8)
    { ppu with bgCharAddr := ca }
  | 0x210C =>
    let ca := setFn ppu.bgCharAddr 2 ((value &&& 0x0F) <<< 12)
    let ca := setFn ca 3 ((value &&& 0xF0) <<< 8)
    { ppu with bgCharAddr := ca }
  | 0x210D =>
    { ppu with
      bgHScroll := setFn ppu.bgHScroll 0 (((value <<< 8) ||| ppu.bgScrollPrev 0) &&& 0x3FF)
      bgScrollPrev := setFn ppu.bgScrollPrev 0 value }
  | 0x210E =>
    { ppu with
      bgVScroll := setFn ppu.bgVScroll 0 (((value <<< 8) ||| ppu.bgScrollPrev 0) &&& 0x3FF)
      bgScrollPrev := setFn ppu.bgScrollPrev 0 value }
  | 0x210F =>
    { ppu with
      bgHScroll := setFn ppu.bgHScroll 1 (((value <<< 8) ||| ppu.bgScrollPrev 1) &&& 0x3FF)
      bgScrollPrev := setFn ppu.bgScrollPrev 1 value }
  | 0x2110 =>
    { ppu with
      bgVScroll := setFn ppu.bgVScroll 1 (((value <<< 8) ||| ppu.bgScrollPrev 1) &&& 0x3FF)
      bgScrollPrev := setFn ppu.bgScrollPrev 1 value }
  | 0x2111 =>
    { ppu with
      bgHScroll := setFn ppu.bgHScroll 2 (((value <<< 8) ||| ppu.bgScrollPrev 2) &&& 0x3FF)
      bgScrollPrev := setFn ppu.bgScrollPrev 2 value }
  | 0x2112 =>
    { ppu with
      bgVScroll := setFn ppu.bgVScroll 2 (((value <<< 8) ||| ppu.bgScrollPrev 2) &&& 0x3FF)
      bgScrollPrev := setFn ppu.bgScrollPrev 2 value }
  | 0x2113 =>
    { ppu with
      bgHScroll := setFn ppu.bgHScroll 3 (((value <<< 8) ||| ppu.bgScrollPrev 3) &&& 0x3FF)
      bgScrollPrev := setFn ppu.bgScrollPrev 3 value }
  | 0x2114 =>
    { ppu with
      bgVScroll := setFn ppu.bgVScroll 3 (((value <<< 8) ||| ppu.bgScrollPrev 3) &&& 0x3FF)
      bgScrollPrev := setFn ppu.bgScrollPrev 3 value }
  | 0x2115 => { ppu with vmain := value }
  | 0x2116 => { ppu with vramAddress := (ppu.vramAddress &&& 0xFF00) ||| value }
  | 0x2117 => { ppu with vramAddress := ((value &&& 0xFF) <<< 8) ||| (ppu.vramAddress &&& 0x00FF) }
  | 0x2118 => ppu.vramWrite 0 value
  | 0x2119 => ppu.vramWrite 1 value
  | 0x2121 => { ppu with cgramAddress := value, cgramFirstWrite := true }
  | 0x2122 =>
    let addr := (ppu.cgramAddress <<< 1) &&& 0x1FF
    if ppu.cgramFirstWrite then
      { ppu with cgram := u8Store ppu.cgram 512 addr value, cgramFirstWrite := false }
    else
      { ppu with
        cgram := u8Store ppu.cgram 512 (addr + 1) value
        cgramFirstWrite := true
        cgramAddress := (ppu.cgramAddress + 1) &&& 0xFF }
  | 0x2102 =>
    { ppu with oamAddress := (ppu.oamAddress &&& 0x0200) ||| value, oamFirstWrite := true }
  | 0x2103 =>
    { ppu with
      oamAddress := ((value &&& 0x01) <<< 9) ||| (ppu.oamAddress &&& 0x01FF)
      oamFirstWrite := true }
  | 0x2104 =>
    { ppu with
      oam := u8Store ppu.oam 544 ppu.oamAddress value
      oamAddress := (ppu.oamAddress + 1) &&& 0x21F }
  | 0x212C => { ppu with mainScreenDesignation := value }
  | 0x212D => { ppu with subScreenDesignation := value }
  | _ => ppu

/-- Byte address `getColor` reads its low palette byte from:
`(index * 2) & 0x1FF`. -/
def PPU.getColorAddr (index : Nat) : Nat :=
  (index * 2) &&& 0x1FF

/-- `PPU.getColor(index)`: reads the BGR555 word at byte offset
`(index*2) & 0x1FF` of CGRAM and expands each 5-bit channel to 8 bits. -/
def PPU.getColor (ppu : PPU) (index : Nat) : Nat × Nat × Nat :=
  let addr := PPU.getColorAddr index
  let low := ppu.cgram addr
  let high := ppu.cgram (addr + 1)
  let word := low ||| (high <<< 8)
  ((word &&& 0x1F) <<< 3, ((word >>> 5) &&& 0x1F) <<< 3, ((word >>> 10) &&& 0x1F) <<< 3)

/-! ## Memory (src/src/core/Memory.ts, the full multi-channel version)

The `Memory` class owns WRAM, the I/O register shadow, the ROM image and
the eight DMA channels, and holds references to the `PPU`, `APU` and
`Input` instances it dispatches to (wired by the `SNES` constructor).  The
VRAM/CGRAM/OAM backing buffers are shared with the PPU through its
constructor and are only ever accessed through the PPU, so they live in
the `PPU` embedding.  `Memory.write` is `Option`-valued: firing a DMA
channel whose direction bit is 1 calls `this.ppu.readRegister`, a method
the `PPU` class does not define, so that path throws a `TypeError`
(modelled as `none`; the post-throw state is not tracked, no claim
observes it). -/

/-- One DMA channel register file entry. -/
structure DMAChannel where
  params : Nat
  bAddress : Nat
  aAddress : Nat
  aBank : Nat
  size : Nat
  hdmaBank : Nat
deriving Repr, DecidableEq

/-- Zero-initialised DMA channel (the `Memory` constructor). -/
def DMAChannel.init : DMAChannel :=
  { params := 0, bAddress := 0, aAddress := 0, aBank := 0, size := 0, hdmaBank := 0 }

/-- ROM mapping mode. -/
inductive ROMType where
  | loROM : ROMType
  | hiROM : ROMType
deriving Repr, DecidableEq

structure Memory where
  wram : Nat → Nat
  ioRegisters : Nat → Nat
  rom : Option (Nat → Nat)
  romSize : Nat
  romType : ROMType
  dmaChannels : Nat → DMAChannel
  ppu : PPU
  apu : APU
  input : Input

/-- Memory state after the constructors (no ROM loaded). -/
def Memory.init : Memory :=
  { wram := fun _ => 0, ioRegisters := fun _ => 0
    rom := none, romSize := 0, romType := ROMType.loROM
    dmaChannels := fun _ => DMAChannel.init
    ppu := PPU.init, apu := APU.init, input := Input.init }

/-- `Memory.parseHeaderAt(offset)`: the header at `offset` is valid iff
`checksum XOR complement == 0xFFFF` (little-endian 16-bit fields at
`+0x2E/+0x2F` and `+0x2C/+0x2D`). -/
def Memory.parseHeaderAt (m : Memory) (offset : Nat) : Bool :=
  match m.rom with
  | none => false
  | some r =>
    if offset + 0x30 > m.romSize then false
    else
      let checksum := r (offset + 0x2E) ||| (r (offset + 0x2F) <<< 8)
      let checksumComplement := r (offset + 0x2C) ||| (r (offset + 0x2D) <<< 8)
      (checksum ^^^ checksumComplement) == 0xFFFF

/-- `Memory.detectROMType`: prefer the side whose header validates; if both
or neither validate, pick HiROM for images over 2 MiB, else LoROM. -/
def Memory.detectROMType (m : Memory) : Memory :=
  match m.rom with
  | none => m
  | some _ =>
    let lo := m.parseHeaderAt 0x7FC0
    let hi := m.parseHeaderAt 0xFFC0
    if lo && !hi then { m with romType := ROMType.loROM }
    else if hi && !lo then { m with romType := ROMType.hiROM }
    else { m with romType := if m.romSize > 0x200000 then ROMType.hiROM else ROMType.loROM }

/-- `Memory.loadROM(data)`: strips a 512-byte copier header when
`length % 1024 == 512`, stores the byte image and runs detection.  `data`
is the host byte array (bytes, hence the `% 256`), `len` its length. -/
def Memory.loadROM (m : Memory) (data : Nat → Nat) (len : Nat) : Memory :=
  let strip := len % 1024 == 512
  let romData : Nat → Nat := if strip then fun i => data (i + 512) % 256 else fun i => data i % 256
  let size := if strip then len - 512 else len
  Memory.detectROMType { m with rom := some romData, romSize := size }

/-- `Memory.readROM(bank, offset)`: LoROM/HiROM effective-address mapping.
When no mapping case applies, `addr` keeps its initial value 0, so a
loaded ROM answers with its byte 0 (reduced modulo the ROM size); only a
missing ROM yields 0xFF. -/
def Memory.readROM (m : Memory) (bank offset : Nat) : Nat :=
  match m.rom with
  | none => 0xFF
  | some r =>
    let addr : Nat :=
      match m.romType with
      | ROMType.loROM =>
        if bank ≤ 0x7D ∧ offset ≥ 0x8000 then ((bank &&& 0x7F) <<< 15) ||| (offset &&& 0x7FFF)
        else if bank ≥ 0x80 ∧ bank ≤ 0xFD ∧ offset ≥ 0x8000 then
          ((bank &&& 0x7F) <<< 15) ||| (offset &&& 0x7FFF)
        else if bank ≥ 0xFE ∧ offset ≥ 0x8000 then ((bank &&& 0x7F) <<< 15) ||| (offset &&& 0x7FFF)
        else 0
      | ROMType.hiROM =>
        if bank ≥ 0xC0 ∨ (bank ≥ 0x40 ∧ bank < 0x80) then ((bank &&& 0x3F) <<< 16) ||| offset
        else 0
    r (addr % m.romSize)

/-- `Memory.readIO(offset)`: controller ports (stateful shift reads), APU
mailbox, the PPU status stubs, then the passive register shadow. -/
def Memory.readIo (m : Memory) (offset : Nat) : Nat × Memory :=
  if offset = 0x4016 then
    let r := m.input.readController 1
    (r.1, { m with input := r.2 })
  else if offset = 0x4017 then
    let r := m.input.readController 2
    (r.1, { m with input := r.2 })
  else if 0x2140 ≤ offset ∧ offset ≤ 0x2143 then (m.apu.readPort (offset - 0x2140), m)
  else if offset = 0x2137 then (0, m)
  else if offset = 0x213C then (0, m)
  else if offset = 0x213D then (0, m)
  else if offset = 0x213E then (0x01, m)
  else if offset = 0x213F then (0x02, m)
  else (m.ioRegisters (offset - 0x2000), m)

/-- `Memory.read(address)`: bank 0x7E/0x7F ⇒ WRAM; `offset < 0x2000` ⇒
WRAM mirror; `0x2000 ≤ offset < 0x6000` ⇒ I/O; otherwise ROM.  Reading
can mutate state (controller shift registers), hence the returned pair. -/
def Memory.read (m : Memory) (address : Nat) : Nat × Memory :=
  let bank := (address >>> 16) &&& 0xFF
  let offset := address &&& 0xFFFF
  if bank = 0x7E ∨ bank = 0x7F then (m.wram (((bank - 0x7E) <<< 16) ||| offset), m)
  else if offset < 0x2000 then (m.wram offset, m)
  else if 0x2000 ≤ offset ∧ offset < 0x6000 then m.readIo offset
  else (m.readROM bank offset, m)

/-- Effective DMA transfer length of a channel: a size register of 0 is
treated as 0x10000 (`dma.size || 0x10000`). -/
def Memory.dmaSizeEff (m : Memory) (channel : Nat) : Nat :=
  if (m.dmaChannels channel).size = 0 then 0x10000 else (m.dmaChannels channel).size

/-- The CPU→PPU DMA copy loop: `count` remaining iterations, reading
`srcAddr + i` on the A-bus and writing the byte to B-bus port
`0x2100 + bAddr`. -/
def Memory.dmaLoop (m : Memory) (bAddr srcAddr i : Nat) : Nat → Memory
  | 0 => m
  | count + 1 =>
    let r := m.read (srcAddr + i)
    let m := { r.2 with ppu := r.2.ppu.writeRegister (0x2100 + bAddr) r.1 }
    m.dmaLoop bAddr srcAddr (i + 1) count

/-- `Memory.executeDMA(channel)`: runs one channel.  Direction bit 1
(PPU→CPU) calls the non-existent `ppu.readRegister` and throws (`none`);
direction 0 copies `dmaSizeEff` bytes to the B-bus port and then zeroes
the channel's size register. -/
def Memory.executeDMA (m : Memory) (channel : Nat) : Option Memory :=
  let dma := m.dmaChannels channel
  let direction := (dma.params &&& 0x80) != 0
  let srcAddr := (dma.aBank <<< 16) ||| dma.aAddress
  let size := m.dmaSizeEff channel
  if direction then none
  else
    let m := m.dmaLoop dma.bAddress srcAddr 0 size
    some { m with
      dmaChannels := setFn m.dmaChannels channel { m.dmaChannels channel with size := 0 } }

/-- `Memory.handleDMA(offset, value)`: the DMA register file
($4300-$437F) and the $420B enable register, which fires the set
channels in ascending index order. -/
def Memory.handleDMA (m : Memory) (offset value : Nat) : Option Memory :=
  let m :=
    if 0x4300 ≤ offset ∧ offset < 0x4380 then
      let channel := (offset - 0x4300) / 16
      let reg := offset &&& 0x0F
      let dma := m.dmaChannels channel
      let upd : DMAChannel :=
        match reg with
        | 0x00 => { dma with params := value }
        | 0x01 => { dma with bAddress := value }
        | 0x02 => { dma with aAddress := (dma.aAddress &&& 0xFF00) ||| value }
        | 0x03 => { dma with aAddress := (value <<< 8) ||| (dma.aAddress &&& 0x00FF) }
        | 0x04 => { dma with aBank := value }
        | 0x05 => { dma with size := (dma.size &&& 0xFF00) ||| value }
        | 0x06 => { dma with size := (value <<< 8) ||| (dma.size &&& 0x00FF) }
        | _ => dma
      { m with dmaChannels := setFn m.dmaChannels channel upd }
    else m
  if offset = 0x420B then
    (List.range 8).foldl
      (fun om i => om.bind fun mm =>
        if value &&& (1 <<< i) != 0 then mm.executeDMA i else some mm)
      (some m)
  else some m

/-- `Memory.writeIO(offset, value)`: shadow store, then dispatch to PPU
registers ($2100-$2133), APU ports, input latch and the DMA engine. -/
def Memory.writeIo (m : Memory) (offset value : Nat) : Option Memory :=
  let m := { m with ioRegisters := u8Store m.ioRegisters 0x4380 (offset - 0x2000) value }
  let m :=
    if 0x2100 ≤ offset ∧ offset ≤ 0x2133 then { m with ppu := m.ppu.writeRegister offset value }
    else m
  let m :=
    if 0x2140 ≤ offset ∧ offset ≤ 0x2143 then
      { m with apu := m.apu.writePort (offset - 0x2140) value }
    else m
  let m := if offset = 0x4016 then { m with input := m.input.latchControllers } else m
  m.handleDMA offset value

/-- `Memory.write(address, value)`: WRAM banks and mirror, then the I/O
window; writes elsewhere (ROM) are discarded. -/
def Memory.write (m : Memory) (address value : Nat) : Option Memory :=
  let bank := (address >>> 16) &&& 0xFF
  let offset := address &&& 0xFFFF
  if bank = 0x7E ∨ bank = 0x7F then
    some { m with wram := u8Store m.wram 0x20000 (((bank - 0x7E) <<< 16) ||| offset) value }
  else if offset < 0x2000 then
    some { m with wram := u8Store m.wram 0x20000 offset value }
  else if 0x2000 ≤ offset ∧ offset < 0x6000 then m.writeIo offset value
  else some m

/-! ## CPU 65816 (src/src/core/CPU65816.ts)

The CPU receives its memory through constructor injection
(`private memory: any`), so the embedding is parameterised by a bus
interface.  `Bus.write` is `Option`-valued because the concrete
`Memory.write` can throw (DMA direction bit 1); a `none` from the bus
propagates out of the instruction, modelling the exception the scheduler
catches.  The machine bundles the register file, the flag record and the
cycle counter of the `CPU65816` class together with the bus state. -/

/-- Memory interface injected into the CPU. -/
structure Bus (M : Type) where
  read : M → Nat → Nat × M
  write : M → Nat → Nat → Option M

/-- Full CPU state (registers, flags, cycle counter) plus the bus state. -/
structure Machine (M : Type) where
  rA : Nat
  rX : Nat
  rY : Nat
  rSP : Nat
  rPC : Nat
  rD : Nat
  rDB : Nat
  rPB : Nat
  rP : Nat
  fN : Bool
  fV : Bool
  fM : Bool
  fX : Bool
  fD : Bool
  fI : Bool
  fZ : Bool
  fC : Bool
  fE : Bool
  cycles : Nat
  mem : M

/-- CPU state after the `CPU65816` constructor. -/
def initMachine {M : Type} (mem : M) : Machine M :=
  { rA := 0, rX := 0, rY := 0, rSP := 0x01FF, rPC := 0, rD := 0, rDB := 0, rPB := 0
    rP := 0x34
    fN := false, fV := false, fM := true, fX := true, fD := false, fI := true
    fZ := false, fC := false, fE := true
    cycles := 0, mem := mem }

/-- `fetchByte`: read `(PB<<16)|PC`, post-increment PC modulo 0x10000, one
cycle. -/
def fetchByte {M : Type} (b : Bus M) (m : Machine M) : Nat × Machine M :=
  let address := (m.rPB <<< 16) ||| m.rPC
  let r := b.read m.mem address
  (r.1, { m with mem := r.2, rPC := (m.rPC + 1) &&& 0xFFFF, cycles := m.cycles + 1 })

/-- `fetchWord`: two fetches, little endian. -/
def fetchWord {M : Type} (b : Bus M) (m : Machine M) : Nat × Machine M :=
  let lo := fetchByte b m
  let hi := fetchByte b lo.2
  ((hi.1 <<< 8) ||| lo.1, hi.2)

/-- `push8`: write at SP then decrement; in emulation mode the high byte of
SP is forced to 0x01.  `(SP - 1) & 0xFFFF` on a JS number is
`(SP + 0xFFFF) % 0x10000` on `Nat`. -/
def push8 {M : Type} (b : Bus M) (m : Machine M) (value : Nat) : Option (Machine M) :=
  match b.write m.mem m.rSP (value &&& 0xFF) with
  | none => none
  | some mm =>
    some { m with mem := mm
                  rSP := ((m.rSP + 0xFFFF) % 0x10000) ||| (if m.fE then 0x0100 else 0) }

/-- `push16`: high byte then low byte. -/
def push16 {M : Type} (b : Bus M) (m : Machine M) (value : Nat) : Option (Machine M) :=
  match push8 b m ((value >>> 8) &&& 0xFF) with
  | none => none
  | some m1 => push8 b m1 (value &&& 0xFF)

/-- `pop8`: pre-increment SP (with the emulation-mode forcing) then read. -/
def pop8 {M : Type} (b : Bus M) (m : Machine M) : Nat × Machine M :=
  let sp := ((m.rSP + 1) &&& 0xFFFF) ||| (if m.fE then 0x0100 else 0)
  let r := b.read m.mem sp
  (r.1, { m with rSP := sp, mem := r.2 })

/-- `pop16`: low byte then high byte. -/
def pop16 {M : Type} (b : Bus M) (m : Machine M) : Nat × Machine M :=
  let lo := pop8 b m
  let hi := pop8 b lo.2
  ((hi.1 <<< 8) ||| lo.1, hi.2)

/-- `updateNZ8`. -/
def updateNZ8 {M : Type} (m : Machine M) (value : Nat) : Machine M :=
  { m with fN := (value &&& 0x80) != 0, fZ := (value &&& 0xFF) == 0 }

/-- `updateNZ16`. -/
def updateNZ16 {M : Type} (m : Machine M) (value : Nat) : Machine M :=
  { m with fN := (value &&& 0x8000) != 0, fZ := (value &&& 0xFFFF) == 0 }

/-- `getStatusRegister`: N=0x80 V=0x40 M=0x20 X=0x10 D=0x08 I=0x04 Z=0x02
C=0x01 (E is kept outside P). -/
def getStatusRegister {M : Type} (m : Machine M) : Nat :=
  (if m.fN then 0x80 else 0) ||| (if m.fV then 0x40 else 0) |||
  (if m.fM then 0x20 else 0) ||| (if m.fX then 0x10 else 0) |||
  (if m.fD then 0x08 else 0) ||| (if m.fI then 0x04 else 0) |||
  (if m.fZ then 0x02 else 0) ||| (if m.fC then 0x01 else 0)

/-- `setStatusRegister`: unpacks the P byte into the flag record.  Note
that it touches only flags, not the X/Y register contents. -/
def setStatusRegister {M : Type} (m : Machine M) (value : Nat) : Machine M :=
  { m with
    fN := (value &&& 0x80) != 0, fV := (value &&& 0x40) != 0
    fM := (value &&& 0x20) != 0, fX := (value &&& 0x10) != 0
    fD := (value &&& 0x08) != 0, fI := (value &&& 0x04) != 0
    fZ := (value &&& 0x02) != 0, fC := (value &&& 0x01) != 0 }

/-- The branch-target expression
`(PC + (offset > 127 ? offset - 256 : offset)) & 0xFFFF`; the possibly
negative JS sum is shifted by 0x10000 before the mask. -/
def relBranch (pc offset : Nat) : Nat :=
  if offset > 127 then (pc + offset + 0x10000 - 256) &&& 0xFFFF
  else (pc + offset) &&& 0xFFFF

/-! The opcode handlers.  The source's `executeInstruction` is one switch
with inline bodies; here each case body is a small named handler and
`executeInstruction` is the dispatch (the design §9 "fixed-size dispatch
table; each entry a small handler").  Several opcodes share a body in the
source (operand-skip stubs, the ORA direct-page family); they share a
handler here.  Doc comments name the opcodes served. -/

/-- Operand-decode-only stub: one operand byte fetched, no effect. -/
def execSkipByte {M : Type} (b : Bus M) (m : Machine M) : Option (Machine M) :=
  some (fetchByte b m).2

/-- Operand-decode-only stub: one operand word fetched, no effect. -/
def execSkipWord {M : Type} (b : Bus M) (m : Machine M) : Option (Machine M) :=
  some (fetchWord b m).2

/-- Operand-decode-only stub for long addressing: bank byte then word. -/
def execSkipLong {M : Type} (b : Bus M) (m : Machine M) : Option (Machine M) :=
  some (fetchWord b (fetchByte b m).2).2

/-- MVP (0x44): two operand bytes fetched, no effect. -/
def execSkipTwoBytes {M : Type} (b : Bus M) (m : Machine M) : Option (Machine M) :=
  some (fetchByte b (fetchByte b m).2).2

/-- Immediate-operand stub whose width tracks M (EOR/BIT/CMP/SBC imm). -/
def execSkipImmM {M : Type} (b : Bus M) (m : Machine M) : Option (Machine M) :=
  if m.fM then some (fetchByte b m).2 else some (fetchWord b m).2

/-- Immediate-operand stub whose width tracks X (CPY/CPX imm). -/
def execSkipImmX {M : Type} (b : Bus M) (m : Machine M) : Option (Machine M) :=
  if m.fX then some (fetchByte b m).2 else some (fetchWord b m).2

/-- BRK (0x00): push PC+1 and P, set I, vector through $FFEE. -/
def execBRK {M : Type} (b : Bus M) (m : Machine M) : Option (Machine M) :=
  match push16 b m (m.rPC + 1) with
  | none => none
  | some m =>
    match push8 b m (getStatusRegister m) with
    | none => none
    | some m =>
      let m := { m with fI := true }
      let r1 := b.read m.mem 0xFFEE
      let r2 := b.read r1.2 0xFFEF
      some { m with mem := r2.2, rPC := r1.1 ||| (r2.1 <<< 8) }

/-- ORA (dp,X)/dp,S/dp/[dp] (0x01/0x03/0x05/0x07): the operand byte is
OR-ed straight into A, NZ from the 8-bit result. -/
def execORAdp {M : Type} (b : Bus M) (m : Machine M) : Option (Machine M) :=
  let r := fetchByte b m
  let m := { r.2 with rA := r.2.rA ||| r.1 }
  some (updateNZ8 m m.rA)

/-- PHP (0x08). -/
def execPHP {M : Type} (b : Bus M) (m : Machine M) : Option (Machine M) :=
  push8 b m (getStatusRegister m)

/-- ORA Immediate (0x09). -/
def execORAimm {M : Type} (b : Bus M) (m : Machine M) : Option (Machine M) :=
  if m.fM then
    let r := fetchByte b m
    let m := { r.2 with rA := r.2.rA ||| r.1 }
    some (updateNZ8 m m.rA)
  else
    let r := fetchWord b m
    let m := { r.2 with rA := r.2.rA ||| r.1 }
    some (updateNZ16 m m.rA)

/-- ASL A (0x0A). -/
def execASLA {M : Type} (m : Machine M) : Option (Machine M) :=
  let m := { m with fC := (m.rA &&& 0x80) != 0 }
  let m := { m with rA := (m.rA <<< 1) &&& 0xFF }
  some (updateNZ8 m m.rA)

/-- PHD (0x0B). -/
def execPHD {M : Type} (b : Bus M) (m : Machine M) : Option (Machine M) :=
  push16 b m m.rD

/-- ORA abs (0x0D). -/
def execORAabs {M : Type} (b : Bus M) (m : Machine M) : Option (Machine M) :=
  let r := fetchWord b m
  let rv := b.read r.2.mem r.1
  let m := { r.2 with mem := rv.2, rA := r.2.rA ||| rv.1 }
  some (updateNZ8 m m.rA)

/-- BPL (0x10). -/
def execBPL {M : Type} (b : Bus M) (m : Machine M) : Option (Machine M) :=
  let r := fetchByte b m
  some (if !r.2.fN then { r.2 with rPC := relBranch r.2.rPC r.1 } else r.2)

/-- CLC (0x18). -/
def execCLC {M : Type} (m : Machine M) : Option (Machine M) :=
  some { m with fC := false }

/-- INC A (0x1A). -/
def execINCA {M : Type} (m : Machine M) : Option (Machine M) :=
  let m := { m with rA := (m.rA + 1) &&& 0xFF }
  some (updateNZ8 m m.rA)

/-- TCS (0x1B): `SP = A`, with no emulation-mode clamp of the high byte. -/
def execTCS {M : Type} (m : Machine M) : Option (Machine M) :=
  some { m with rSP := m.rA }

/-- JSR (0x20): push PC-1, then jump. -/
def execJSR {M : Type} (b : Bus M) (m : Machine M) : Option (Machine M) :=
  let r := fetchWord b m
  match push16 b r.2 ((r.2.rPC + 0xFFFF) % 0x10000) with
  | none => none
  | some m => some { m with rPC := r.1 }

/-- PLP (0x28). -/
def execPLP {M : Type} (b : Bus M) (m : Machine M) : Option (Machine M) :=
  let r := pop8 b m
  some (setStatusRegister r.2 r.1)

/-- AND Immediate (0x29). -/
def execANDimm {M : Type} (b : Bus M) (m : Machine M) : Option (Machine M) :=
  if m.fM then
    let r := fetchByte b m
    let m := { r.2 with rA := r.2.rA &&& r.1 }
    some (updateNZ8 m m.rA)
  else
    let r := fetchWord b m
    let m := { r.2 with rA := r.2.rA &&& r.1 }
    some (updateNZ16 m m.rA)

/-- ROL A (0x2A). -/
def execROLA {M : Type} (m : Machine M) : Option (Machine M) :=
  let oldC := if m.fC then 1 else 0
  let m := { m with fC := (m.rA &&& 0x80) != 0 }
  let m := { m with rA := ((m.rA <<< 1) ||| oldC) &&& 0xFF }
  some (updateNZ8 m m.rA)

/-- PLD (0x2B). -/
def execPLD {M : Type} (b : Bus M) (m : Machine M) : Option (Machine M) :=
  let r := pop16 b m
  some { r.2 with rD := r.1 }

/-- BMI (0x30). -/
def execBMI {M : Type} (b : Bus M) (m : Machine M) : Option (Machine M) :=
  let r := fetchByte b m
  some (if r.2.fN then { r.2 with rPC := relBranch r.2.rPC r.1 } else r.2)

/-- SEC (0x38). -/
def execSEC {M : Type} (m : Machine M) : Option (Machine M) :=
  some { m with fC := true }

/-- RTI (0x40): pop P then PC. -/
def execRTI {M : Type} (b : Bus M) (m : Machine M) : Option (Machine M) :=
  let r := pop8 b m
  let m := setStatusRegister r.2 r.1
  let r2 := pop16 b m
  some { r2.2 with rPC := r2.1 }

/-- PHA (0x48). -/
def execPHA {M : Type} (b : Bus M) (m : Machine M) : Option (Machine M) :=
  if m.fM then push8 b m m.rA else push16 b m m.rA

/-- LSR A (0x4A). -/
def execLSRA {M : Type} (m : Machine M) : Option (Machine M) :=
  let m := { m with fC := (m.rA &&& 0x01) != 0 }
  let m := { m with rA := (m.rA >>> 1) &&& 0xFF }
  some (updateNZ8 m m.rA)

/-- PHK (0x4B). -/
def execPHK {M : Type} (b : Bus M) (m : Machine M) : Option (Machine M) :=
  push8 b m m.rPB

/-- JMP abs (0x4C). -/
def execJMPabs {M : Type} (b : Bus M) (m : Machine M) : Option (Machine M) :=
  let r := fetchWord b m
  some { r.2 with rPC := r.1 }

/-- BVC (0x50). -/
def execBVC {M : Type} (b : Bus M) (m : Machine M) : Option (Machine M) :=
  let r := fetchByte b m
  some (if !r.2.fV then { r.2 with rPC := relBranch r.2.rPC r.1 } else r.2)

/-- CLI (0x58). -/
def execCLI {M : Type} (m : Machine M) : Option (Machine M) :=
  some { m with fI := false }

/-- PHY (0x5A). -/
def execPHY {M : Type} (b : Bus M) (m : Machine M) : Option (Machine M) :=
  if m.fX then push8 b m m.rY else push16 b m m.rY

/-- TCD (0x5B). -/
def execTCD {M : Type} (m : Machine M) : Option (Machine M) :=
  some { m with rD := m.rA }

/-- JMP long (0x5C): operands skipped, PC taken from a further word fetch. -/
def execJMPlong {M : Type} (b : Bus M) (m : Machine M) : Option (Machine M) :=
  let r1 := fetchByte b m
  let r2 := fetchWord b r1.2
  let r3 := fetchWord b r2.2
  some { r3.2 with rPC := r3.1 }

/-- RTS (0x60). -/
def execRTS {M : Type} (b : Bus M) (m : Machine M) : Option (Machine M) :=
  let r := pop16 b m
  some { r.2 with rPC := r.1 + 1 }

/-- STZ dp (0x64). -/
def execSTZdp {M : Type} (b : Bus M) (m : Machine M) : Option (Machine M) :=
  let r := fetchByte b m
  match b.write r.2.mem r.1 0 with
  | none => none
  | some mm => some { r.2 with mem := mm }

/-- PLA (0x68). -/
def execPLA {M : Type} (b : Bus M) (m : Machine M) : Option (Machine M) :=
  if m.fM then
    let r := pop8 b m
    let m := { r.2 with rA := r.1 }
    some (updateNZ8 m m.rA)
  else
    let r := pop16 b m
    let m := { r.2 with rA := r.1 }
    some (updateNZ16 m m.rA)

/-- ADC Immediate (0x69). -/
def execADCimm {M : Type} (b : Bus M) (m : Machine M) : Option (Machine M) :=
  if m.fM then
    let r := fetchByte b m
    let result := r.2.rA + r.1 + (if r.2.fC then 1 else 0)
    let m := { r.2 with fC := decide (result > 0xFF), rA := result &&& 0xFF }
    some (updateNZ8 m m.rA)
  else
    let r := fetchWord b m
    let result := r.2.rA + r.1 + (if r.2.fC then 1 else 0)
    let m := { r.2 with fC := decide (result > 0xFFFF), rA := result &&& 0xFFFF }
    some (updateNZ16 m m.rA)

/-- ROR A (0x6A). -/
def execRORA {M : Type} (m : Machine M) : Option (Machine M) :=
  let oldC := if m.fC then 0x80 else 0
  let m := { m with fC := (m.rA &&& 0x01) != 0 }
  let m := { m with rA := ((m.rA >>> 1) ||| oldC) &&& 0xFF }
  some (updateNZ8 m m.rA)

/-- RTL (0x6B). -/
def execRTL {M : Type} (b : Bus M) (m : Machine M) : Option (Machine M) :=
  let r := pop16 b m
  let m := { r.2 with rPC := r.1 + 1 }
  let r2 := pop8 b m
  some { r2.2 with rPB := r2.1 }

/-- BVS (0x70). -/
def execBVS {M : Type} (b : Bus M) (m : Machine M) : Option (Machine M) :=
  let r := fetchByte b m
  some (if r.2.fV then { r.2 with rPC := relBranch r.2.rPC r.1 } else r.2)

/-- SEI (0x78). -/
def execSEI {M : Type} (m : Machine M) : Option (Machine M) :=
  some { m with fI := true }

/-- PLY (0x7A). -/
def execPLY {M : Type} (b : Bus M) (m : Machine M) : Option (Machine M) :=
  if m.fX then
    let r := pop8 b m
    let m := { r.2 with rY := r.1 }
    some (updateNZ8 m m.rY)
  else
    let r := pop16 b m
    let m := { r.2 with rY := r.1 }
    some (updateNZ16 m m.rY)

/-- TDC (0x7B). -/
def execTDC {M : Type} (m : Machine M) : Option (Machine M) :=
  some { m with rA := m.rD }

/-- BRA (0x80). -/
def execBRA {M : Type} (b : Bus M) (m : Machine M) : Option (Machine M) :=
  let r := fetchByte b m
  some { r.2 with rPC := relBranch r.2.rPC r.1 }

/-- STA dp (0x85). -/
def execSTAdp {M : Type} (b : Bus M) (m : Machine M) : Option (Machine M) :=
  let r := fetchByte b m
  match b.write r.2.mem r.1 (r.2.rA &&& 0xFF) with
  | none => none
  | some mm => some { r.2 with mem := mm }

/-- DEY (0x88): `(Y - 1) & (X ? 0xFF : 0xFFFF)`. -/
def execDEY {M : Type} (m : Machine M) : Option (Machine M) :=
  let m := { m with rY := if m.fX then (m.rY + 0xFF) % 0x100 else (m.rY + 0xFFFF) % 0x10000 }
  some (if m.fX then updateNZ8 m m.rY else updateNZ16 m m.rY)

/-- TXA (0x8A). -/
def execTXA {M : Type} (m : Machine M) : Option (Machine M) :=
  let m := { m with rA := m.rX }
  some (if m.fM then updateNZ8 m m.rA else updateNZ16 m m.rA)

/-- PHB (0x8B). -/
def execPHB {M : Type} (b : Bus M) (m : Machine M) : Option (Machine M) :=
  push8 b m m.rDB

/-- STA abs (0x8D): one byte in 8-bit mode, two bytes in 16-bit mode. -/
def execSTAabs {M : Type} (b : Bus M) (m : Machine M) : Option (Machine M) :=
  let r := fetchWord b m
  if r.2.fM then
    match b.write r.2.mem r.1 (r.2.rA &&& 0xFF) with
    | none => none
    | some mm => some { r.2 with mem := mm }
  else
    match b.write r.2.mem r.1 (r.2.rA &&& 0xFF) with
    | none => none
    | some mm =>
      match b.write mm (r.1 + 1) ((r.2.rA >>> 8) &&& 0xFF) with
      | none => none
      | some mm2 => some { r.2 with mem := mm2 }

/-- STA long (0x8F). -/
def execSTAlong {M : Type} (b : Bus M) (m : Machine M) : Option (Machine M) :=
  let r1 := fetchByte b m
  let r2 := fetchWord b r1.2
  match b.write r2.2.mem ((r1.1 <<< 16) ||| r2.1) (r2.2.rA &&& 0xFF) with
  | none => none
  | some mm => some { r2.2 with mem := mm }

/-- BCC (0x90). -/
def execBCC {M : Type} (b : Bus M) (m : Machine M) : Option (Machine M) :=
  let r := fetchByte b m
  some (if !r.2.fC then { r.2 with rPC := relBranch r.2.rPC r.1 } else r.2)

/-- TYA (0x98). -/
def execTYA {M : Type} (m : Machine M) : Option (Machine M) :=
  let m := { m with rA := m.rY }
  some (if m.fM then updateNZ8 m m.rA else updateNZ16 m m.rA)

/-- TXS (0x9A): `SP = X`, with no emulation-mode clamp of the high byte. -/
def execTXS {M : Type} (m : Machine M) : Option (Machine M) :=
  some { m with rSP := m.rX }

/-- TXY (0x9B). -/
def execTXY {M : Type} (m : Machine M) : Option (Machine M) :=
  let m := { m with rY := m.rX }
  some (if m.fX then updateNZ8 m m.rY else updateNZ16 m m.rY)

/-- STZ abs (0x9C). -/
def execSTZabs {M : Type} (b : Bus M) (m : Machine M) : Option (Machine M) :=
  let r := fetchWord b m
  match b.write r.2.mem r.1 0 with
  | none => none
  | some mm => some { r.2 with mem := mm }

/-- STA abs,X (0x9D): the source writes the low byte at the unindexed
address. -/
def execSTAabsX {M : Type} (b : Bus M) (m : Machine M) : Option (Machine M) :=
  let r := fetchWord b m
  match b.write r.2.mem r.1 (r.2.rA &&& 0xFF) with
  | none => none
  | some mm => some { r.2 with mem := mm }

/-- LDY Immediate (0xA0). -/
def execLDYimm {M : Type} (b : Bus M) (m : Machine M) : Option (Machine M) :=
  if m.fX then
    let r := fetchByte b m
    let m := { r.2 with rY := r.1 }
    some (updateNZ8 m m.rY)
  else
    let r := fetchWord b m
    let m := { r.2 with rY := r.1 }
    some (updateNZ16 m m.rY)

/-- LDX Immediate (0xA2). -/
def execLDXimm {M : Type} (b : Bus M) (m : Machine M) : Option (Machine M) :=
  if m.fX then
    let r := fetchByte b m
    let m := { r.2 with rX := r.1 }
    some (updateNZ8 m m.rX)
  else
    let r := fetchWord b m
    let m := { r.2 with rX := r.1 }
    some (updateNZ16 m m.rX)

/-- LDA dp (0xA5). -/
def execLDAdp {M : Type} (b : Bus M) (m : Machine M) : Option (Machine M) :=
  let r := fetchByte b m
  let rv := b.read r.2.mem r.1
  let m := { r.2 with mem := rv.2, rA := rv.1 }
  some (updateNZ8 m m.rA)

/-- TAY (0xA8). -/
def execTAY {M : Type} (m : Machine M) : Option (Machine M) :=
  let m := { m with rY := m.rA }
  some (if m.fX then updateNZ8 m m.rY else updateNZ16 m m.rY)

/-- LDA Immediate (0xA9). -/
def execLDAimm {M : Type} (b : Bus M) (m : Machine M) : Option (Machine M) :=
  if m.fM then
    let r := fetchByte b m
    let m := { r.2 with rA := r.1 }
    some (updateNZ8 m m.rA)
  else
    let r := fetchWord b m
    let m := { r.2 with rA := r.1 }
    some (updateNZ16 m m.rA)

/-- TAX (0xAA). -/
def execTAX {M : Type} (m : Machine M) : Option (Machine M) :=
  let m := { m with rX := m.rA }
  some (if m.fX then updateNZ8 m m.rX else updateNZ16 m m.rX)

/-- PLB (0xAB). -/
def execPLB {M : Type} (b : Bus M) (m : Machine M) : Option (Machine M) :=
  let r := pop8 b m
  some { r.2 with rDB := r.1 }

/-- BCS (0xB0). -/
def execBCS {M : Type} (b : Bus M) (m : Machine M) : Option (Machine M) :=
  let r := fetchByte b m
  some (if r.2.fC then { r.2 with rPC := relBranch r.2.rPC r.1 } else r.2)

/-- CLV (0xB8). -/
def execCLV {M : Type} (m : Machine M) : Option (Machine M) :=
  some { m with fV := false }

/-- TSX (0xBA). -/
def execTSX {M : Type} (m : Machine M) : Option (Machine M) :=
  let m := { m with rX := m.rSP }
  some (if m.fX then updateNZ8 m m.rX else updateNZ16 m m.rX)

/-- TYX (0xBB). -/
def execTYX {M : Type} (m : Machine M) : Option (Machine M) :=
  let m := { m with rX := m.rY }
  some (if m.fX then updateNZ8 m m.rX else updateNZ16 m m.rX)

/-- REP (0xC2): clear the P bits in the operand mask (`p & ~mask`, on the
8-bit P this is `p &&& (0xFF ^^^ (mask &&& 0xFF))`). -/
def execREP {M : Type} (b : Bus M) (m : Machine M) : Option (Machine M) :=
  let r := fetchByte b m
  some (setStatusRegister r.2 (getStatusRegister r.2 &&& (0xFF ^^^ (r.1 &&& 0xFF))))

/-- INY (0xC8). -/
def execINY {M : Type} (m : Machine M) : Option (Machine M) :=
  let m := { m with rY := (m.rY + 1) &&& (if m.fX then 0xFF else 0xFFFF) }
  some (if m.fX then updateNZ8 m m.rY else updateNZ16 m m.rY)

/-- DEX (0xCA). -/
def execDEX {M : Type} (m : Machine M) : Option (Machine M) :=
  let m := { m with rX := if m.fX then (m.rX + 0xFF) % 0x100 else (m.rX + 0xFFFF) % 0x10000 }
  some (if m.fX then updateNZ8 m m.rX else updateNZ16 m m.rX)

/-- SEP (0xE2): set the P bits in the operand mask.  Only flags change;
the X and Y register contents are untouched. -/
def execSEP {M : Type} (b : Bus M) (m : Machine M) : Option (Machine M) :=
  let r := fetchByte b m
  some (setStatusRegister r.2 (getStatusRegister r.2 ||| r.1))

/-- INX (0xE8). -/
def execINX {M : Type} (m : Machine M) : Option (Machine M) :=
  let m := { m with rX := (m.rX + 1) &&& (if m.fX then 0xFF else 0xFFFF) }
  some (if m.fX then updateNZ8 m m.rX else updateNZ16 m m.rX)

/-- XBA (0xEB): swap the bytes of A, NZ from the old high byte. -/
def execXBA {M : Type} (m : Machine M) : Option (Machine M) :=
  let low := m.rA &&& 0xFF
  let high := (m.rA >>> 8) &&& 0xFF
  let m := { m with rA := (low <<< 8) ||| high }
  some (updateNZ8 m high)

/-- BNE (0xD0). -/
def execBNE {M : Type} (b : Bus M) (m : Machine M) : Option (Machine M) :=
  let r := fetchByte b m
  some (if !r.2.fZ then { r.2 with rPC := relBranch r.2.rPC r.1 } else r.2)

/-- CLD (0xD8). -/
def execCLD {M : Type} (m : Machine M) : Option (Machine M) :=
  some { m with fD := false }

/-- PHX (0xDA). -/
def execPHX {M : Type} (b : Bus M) (m : Machine M) : Option (Machine M) :=
  if m.fX then push8 b m m.rX else push16 b m m.rX

/-- BEQ (0xF0). -/
def execBEQ {M : Type} (b : Bus M) (m : Machine M) : Option (Machine M) :=
  let r := fetchByte b m
  some (if r.2.fZ then { r.2 with rPC := relBranch r.2.rPC r.1 } else r.2)

/-- SED (0xF8). -/
def execSED {M : Type} (m : Machine M) : Option (Machine M) :=
  some { m with fD := true }

/-- PLX (0xFA). -/
def execPLX {M : Type} (b : Bus M) (m : Machine M) : Option (Machine M) :=
  if m.fX then
    let r := pop8 b m
    let m := { r.2 with rX := r.1 }
    some (updateNZ8 m m.rX)
  else
    let r := pop16 b m
    let m := { r.2 with rX := r.1 }
    some (updateNZ16 m m.rX)

/-- XCE (0xFB): exchange C and E; entering emulation forces M=X=1 and SP's
high byte to 0x01. -/
def execXCE {M : Type} (m : Machine M) : Option (Machine M) :=
  let temp := m.fC
  let m := { m with fC := m.fE, fE := temp }
  if m.fE then
    some { m with fM := true, fX := true, rSP := (m.rSP &&& 0xFF) ||| 0x0100 }
  else some m

set_option maxHeartbeats 4000000 in
/-- `executeInstruction(opcode)`: the 256-entry dispatch switch of the
source, with each case body factored into the handler above.  Opcodes
absent from the switch fall into the silent default. -/
def executeInstruction {M : Type} (b : Bus M) (opcode : Nat) (m : Machine M) :
    Option (Machine M) :=
  match opcode with
  | 0x00 => execBRK b m
  | 0x01 => execORAdp b m
  | 0x02 => execSkipByte b m
  | 0x03 => execORAdp b m
  | 0x04 => execSkipByte b m
  | 0x05 => execORAdp b m
  | 0x06 => execSkipByte b m
  | 0x07 => execORAdp b m
  | 0x08 => execPHP b m
  | 0x09 => execORAimm b m
  | 0x0A => execASLA m
  | 0x0B => execPHD b m
  | 0x0C => execSkipWord b m
  | 0x0D => execORAabs b m
  | 0x0E => execSkipWord b m
  | 0x0F => execSkipLong b m
  | 0x10 => execBPL b m
  | 0x11 => execSkipByte b m
  | 0x12 => execSkipByte b m
  | 0x13 => execSkipByte b m
  | 0x14 => execSkipByte b m
  | 0x15 => execSkipByte b m
  | 0x16 => execSkipByte b m
  | 0x17 => execSkipByte b m
  | 0x18 => execCLC m
  | 0x19 => execSkipWord b m
  | 0x1A => execINCA m
  | 0x1B => execTCS m
  | 0x1C => execSkipWord b m
  | 0x1D => execSkipWord b m
  | 0x1E => execSkipWord b m
  | 0x1F => execSkipLong b m
  | 0x20 => execJSR b m
  | 0x21 => execSkipByte b m
  | 0x22 => execSkipLong b m
  | 0x23 => execSkipByte b m
  | 0x24 => execSkipByte b m
  | 0x25 => execSkipByte b m
  | 0x26 => execSkipByte b m
  | 0x27 => execSkipByte b m
  | 0x28 => execPLP b m
  | 0x29 => execANDimm b m
  | 0x2A => execROLA m
  | 0x2B => execPLD b m
  | 0x2C => execSkipWord b m
  | 0x2D => execSkipWord b m
  | 0x2E => execSkipWord b m
  | 0x2F => execSkipLong b m
  | 0x30 => execBMI b m
  | 0x38 => execSEC m
  | 0x40 => execRTI b m
  | 0x41 => execSkipByte b m
  | 0x42 => execSkipByte b m
  | 0x43 => execSkipByte b m
  | 0x44 => execSkipTwoBytes b m
  | 0x45 => execSkipByte b m
  | 0x46 => execSkipByte b m
  | 0x47 => execSkipByte b m
  | 0x48 => execPHA b m
  | 0x49 => execSkipImmM b m
  | 0x4A => execLSRA m
  | 0x4B => execPHK b m
  | 0x4C => execJMPabs b m
  | 0x4D => execSkipWord b m
  | 0x4E => execSkipWord b m
  | 0x4F => execSkipLong b m
  | 0x50 => execBVC b m
  | 0x58 => execCLI m
  | 0x5A => execPHY b m
  | 0x5B => execTCD m
  | 0x5C => execJMPlong b m
  | 0x5D => execSkipWord b m
  | 0x5E => execSkipWord b m
  | 0x5F => execSkipLong b m
  | 0x60 => execRTS b m
  | 0x61 => execSkipByte b m
  | 0x62 => execSkipWord b m
  | 0x63 => execSkipByte b m
  | 0x64 => execSTZdp b m
  | 0x65 => execSkipByte b m
  | 0x66 => execSkipByte b m
  | 0x67 => execSkipByte b m
  | 0x68 => execPLA b m
  | 0x69 => execADCimm b m
  | 0x6A => execRORA m
  | 0x6B => execRTL b m
  | 0x6C => execSkipWord b m
  | 0x6D => execSkipWord b m
  | 0x6E => execSkipWord b m
  | 0x6F => execSkipLong b m
  | 0x70 => execBVS b m
  | 0x78 => execSEI m
  | 0x7A => execPLY b m
  | 0x7B => execTDC m
  | 0x7C => execSkipWord b m
  | 0x7D => execSkipWord b m
  | 0x7E => execSkipWord b m
  | 0x7F => execSkipLong b m
  | 0x80 => execBRA b m
  | 0x81 => execSkipByte b m
  | 0x82 => execSkipWord b m
  | 0x83 => execSkipByte b m
  | 0x84 => execSkipByte b m
  | 0x85 => execSTAdp b m
  | 0x86 => execSkipByte b m
  | 0x87 => execSkipByte b m
  | 0x88 => execDEY m
  | 0x89 => execSkipImmM b m
  | 0x8A => execTXA m
  | 0x8B => execPHB b m
  | 0x8C => execSkipWord b m
  | 0x8D => execSTAabs b m
  | 0x8E => execSkipWord b m
  | 0x8F => execSTAlong b m
  | 0x90 => execBCC b m
  | 0x91 => execSkipByte b m
  | 0x92 => execSkipByte b m
  | 0x93 => execSkipByte b m
  | 0x94 => execSkipByte b m
  | 0x95 => execSkipByte b m
  | 0x96 => execSkipByte b m
  | 0x97 => execSkipByte b m
  | 0x98 => execTYA m
  | 0x99 => execSkipWord b m
  | 0x9A => execTXS m
  | 0x9B => execTXY m
  | 0x9C => execSTZabs b m
  | 0x9D => execSTAabsX b m
  | 0x9E => execSkipWord b m
  | 0x9F => execSkipLong b m
  | 0xA0 => execLDYimm b m
  | 0xA1 => execSkipByte b m
  | 0xA2 => execLDXimm b m
  | 0xA3 => execSkipByte b m
  | 0xA4 => execSkipByte b m
  | 0xA5 => execLDAdp b m
  | 0xA6 => execSkipByte b m
  | 0xA7 => execSkipByte b m
  | 0xA8 => execTAY m
  | 0xA9 => execLDAimm b m
  | 0xAA => execTAX m
  | 0xAB => execPLB b m
  | 0xAC => execSkipWord b m
  | 0xAD => execSkipWord b m
  | 0xAE => execSkipWord b m
  | 0xAF => execSkipLong b m
  | 0xB0 => execBCS b m
  | 0xB1 => execSkipByte b m
  | 0xB2 => execSkipByte b m
  | 0xB3 => execSkipByte b m
  | 0xB4 => execSkipByte b m
  | 0xB5 => execSkipByte b m
  | 0xB6 => execSkipByte b m
  | 0xB7 => execSkipByte b m
  | 0xB8 => execCLV m
  | 0xB9 => execSkipWord b m
  | 0xBA => execTSX m
  | 0xBB => execTYX m
  | 0xBC => execSkipWord b m
  | 0xBD => execSkipWord b m
  | 0xBE => execSkipWord b m
  | 0xBF => execSkipLong b m
  | 0xC0 => execSkipImmX b m
  | 0xC1 => execSkipByte b m
  | 0xC2 => execREP b m
  | 0xC3 => execSkipByte b m
  | 0xC4 => execSkipByte b m
  | 0xC5 => execSkipByte b m
  | 0xC6 => execSkipByte b m
  | 0xC7 => execSkipByte b m
  | 0xC8 => execINY m
  | 0xC9 => execSkipImmM b m
  | 0xCA => execDEX m
  | 0xCB => some m -- WAI
  | 0xCC => execSkipWord b m
  | 0xCD => execSkipWord b m
  | 0xCE => execSkipWord b m
  | 0xCF => execSkipLong b m
  | 0xD0 => execBNE b m
  | 0xD1 => execSkipByte b m
  | 0xD2 => execSkipByte b m
  | 0xD3 => execSkipByte b m
  | 0xD4 => execSkipByte b m
  | 0xD5 => execSkipByte b m
  | 0xD6 => execSkipByte b m
  | 0xD7 => execSkipByte b m
  | 0xD8 => execCLD m
  | 0xD9 => execSkipWord b m
  | 0xDA => execPHX b m
  | 0xDB => some m -- STP
  | 0xDC => execSkipWord b m
  | 0xDD => execSkipWord b m
  | 0xDE => execSkipWord b m
  | 0xDF => execSkipLong b m
  | 0xE0 => execSkipImmX b m
  | 0xE1 => execSkipByte b m
  | 0xE2 => execSEP b m
  | 0xE3 => execSkipByte b m
  | 0xE4 => execSkipByte b m
  | 0xE5 => execSkipByte b m
  | 0xE6 => execSkipByte b m
  | 0xE7 => execSkipByte b m
  | 0xE8 => execINX m
  | 0xE9 => execSkipImmM b m
  | 0xEA => some m -- NOP
  | 0xEB => execXBA m
  | 0xEC => execSkipWord b m
  | 0xED => execSkipWord b m
  | 0xEE => execSkipWord b m
  | 0xEF => execSkipLong b m
  | 0xF0 => execBEQ b m
  | 0xF1 => execSkipByte b m
  | 0xF2 => execSkipByte b m
  | 0xF3 => execSkipByte b m
  | 0xF4 => execSkipWord b m
  | 0xF5 => execSkipByte b m
  | 0xF6 => execSkipByte b m
  | 0xF7 => execSkipByte b m
  | 0xF8 => execSED m
  | 0xF9 => execSkipWord b m
  | 0xFA => execPLX b m
  | 0xFB => execXCE m
  | 0xFC => execSkipWord b m
  | 0xFD => execSkipWord b m
  | 0xFE => execSkipWord b m
  | 0xFF => execSkipLong b m
  | _ => some m -- unknown opcodes silently ignored

/-- `step()`: fetch one opcode, execute it, return the consumed cycles
(difference of the cycle counter).  A `none` is the exception the
scheduler's try/catch swallows. -/
def step {M : Type} (b : Bus M) (m : Machine M) : Option (Nat × Machine M) :=
  let startCycles := m.cycles
  let r := fetchByte b m
  match executeInstruction b r.1 r.2 with
  | none => none
  | some m2 => some (m2.cycles - startCycles, m2)

/-- `reset()`: load PC from the reset vector at $00FFFC (with the $8000
fallback when the vector reads 0), dump $8000-$800F for the debug log
(threading the reads through the bus state), and force the documented
register/flag values. -/
def cpuReset {M : Type} (b : Bus M) (m : Machine M) : Machine M :=
  let r1 := b.read m.mem 0xFFFC
  let r2 := b.read r1.2 0xFFFD
  let m := { m with mem := r2.2, rPC := (r2.1 <<< 8) ||| r1.1, rPB := 0 }
  let m := (List.range 16).foldl
    (fun (mm : Machine M) (i : Nat) => { mm with mem := (b.read mm.mem (0x8000 + i)).2 }) m
  let m := if m.rPC = 0 then { m with rPC := 0x8000 } else m
  { m with fE := true, fM := true, fX := true, fI := true, rSP := 0x01FF, rD := 0, cycles := 0 }

/-! ## Cycle accounting

Only `fetchByte` touches the cycle counter (one cycle per fetched byte,
as documented in the source); every other primitive preserves it.  These
lemmas drive the proof that `step()` always bills at least one cycle. -/

theorem fetchByte_cycles {M : Type} (b : Bus M) (m : Machine M) :
    (fetchByte b m).2.cycles = m.cycles + 1 := rfl

theorem fetchWord_cycles {M : Type} (b : Bus M) (m : Machine M) :
    (fetchWord b m).2.cycles = m.cycles + 2 := rfl

theorem pop8_cycles {M : Type} (b : Bus M) (m : Machine M) :
    (pop8 b m).2.cycles = m.cycles := rfl

theorem pop16_cycles {M : Type} (b : Bus M) (m : Machine M) :
    (pop16 b m).2.cycles = m.cycles := rfl

theorem updateNZ8_cycles {M : Type} (m : Machine M) (v : Nat) :
    (updateNZ8 m v).cycles = m.cycles := rfl

theorem updateNZ16_cycles {M : Type} (m : Machine M) (v : Nat) :
    (updateNZ16 m v).cycles = m.cycles := rfl

theorem setStatusRegister_cycles {M : Type} (m : Machine M) (v : Nat) :
    (setStatusRegister m v).cycles = m.cycles := rfl

theorem push8_cycles {M : Type} (b : Bus M) (m : Machine M) (v : Nat) (m2 : Machine M)
    (h : push8 b m v = some m2) : m2.cycles = m.cycles := by
  unfold push8 at h
  split at h
  · cases h
  · injection h with h
    subst h
    rfl

theorem push16_cycles {M : Type} (b : Bus M) (m : Machine M) (v : Nat) (m2 : Machine M)
    (h : push16 b m v = some m2) : m2.cycles = m.cycles := by
  unfold push16 at h
  split at h
  · cases h
  · rename_i m1 hpush
    have h1 := push8_cycles _ _ _ _ hpush
    have h2 := push8_cycles _ _ _ _ h
    omega

/-! Per-handler cycle monotonicity: no handler decreases the cycle
counter (the only counter mutation anywhere is the +1 in `fetchByte`). -/

theorem cyclesLe_execSkipByte {M : Type} (b : Bus M) (m m2 : Machine M)
    (h : execSkipByte b m = some m2) : m.cycles ≤ m2.cycles := by
  unfold execSkipByte at h
  (try simp only [] at h)
  (try (repeat split at h))
  all_goals
    first
      | exact Option.noConfusion h
      | (have hc := push8_cycles _ _ _ _ h; omega)
      | (have hc := push16_cycles _ _ _ _ h; omega)
      | (injection h with h <;> subst h <;> (try split) <;>
          ((try simp only [fetchByte_cycles, fetchWord_cycles, pop8_cycles, pop16_cycles,
             updateNZ8_cycles, updateNZ16_cycles, setStatusRegister_cycles]) <;> omega))

theorem cyclesLe_execSkipWord {M : Type} (b : Bus M) (m m2 : Machine M)
    (h : execSkipWord b m = some m2) : m.cycles ≤ m2.cycles := by
  unfold execSkipWord at h
  (try simp only [] at h)
  (try (repeat split at h))
  all_goals
    first
      | exact Option.noConfusion h
      | (have hc := push8_cycles _ _ _ _ h; omega)
      | (have hc := push16_cycles _ _ _ _ h; omega)
      | (injection h with h <;> subst h <;> (try split) <;>
          ((try simp only [fetchByte_cycles, fetchWord_cycles, pop8_cycles, pop16_cycles,
             updateNZ8_cycles, updateNZ16_cycles, setStatusRegister_cycles]) <;> omega))

theorem cyclesLe_execSkipLong {M : Type} (b : Bus M) (m m2 : Machine M)
    (h : execSkipLong b m = some m2) : m.cycles ≤ m2.cycles := by
  unfold execSkipLong at h
  (try simp only [] at h)
  (try (repeat split at h))
  all_goals
    first
      | exact Option.noConfusion h
      | (have hc := push8_cycles _ _ _ _ h; omega)
      | (have hc := push16_cycles _ _ _ _ h; omega)
      | (injection h with h <;> subst h <;> (try split) <;>
          ((try simp only [fetchByte_cycles, fetchWord_cycles, pop8_cycles, pop16_cycles,
             updateNZ8_cycles, updateNZ16_cycles, setStatusRegister_cycles]) <;> omega))

theorem cyclesLe_execSkipTwoBytes {M : Type} (b : Bus M) (m m2 : Machine M)
    (h : execSkipTwoBytes b m = some m2) : m.cycles ≤ m2.cycles := by
  unfold execSkipTwoBytes at h
  (try simp only [] at h)
  (try (repeat split at h))
  all_goals
    first
      | exact Option.noConfusion h
      | (have hc := push8_cycles _ _ _ _ h; omega)
      | (have hc := push16_cycles _ _ _ _ h; omega)
      | (injection h with h <;> subst h <;> (try split) <;>
          ((try simp only [fetchByte_cycles, fetchWord_cycles, pop8_cycles, pop16_cycles,
             updateNZ8_cycles, updateNZ16_cycles, setStatusRegister_cycles]) <;> omega))

theorem cyclesLe_execSkipImmM {M : Type} (b : Bus M) (m m2 : Machine M)
    (h : execSkipImmM b m = some m2) : m.cycles ≤ m2.cycles := by
  unfold execSkipImmM at h
  (try simp only [] at h)
  (try (repeat split at h))
  all_goals
    first
      | exact Option.noConfusion h
      | (have hc := push8_cycles _ _ _ _ h; omega)
      | (have hc := push16_cycles _ _ _ _ h; omega)
      | (injection h with h <;> subst h <;> (try split) <;>
          ((try simp only [fetchByte_cycles, fetchWord_cycles, pop8_cycles, pop16_cycles,
             updateNZ8_cycles, updateNZ16_cycles, setStatusRegister_cycles]) <;> omega))

theorem cyclesLe_execSkipImmX {M : Type} (b : Bus M) (m m2 : Machine M)
    (h : execSkipImmX b m = some m2) : m.cycles ≤ m2.cycles := by
  unfold execSkipImmX at h
  (try simp only [] at h)
  (try (repeat split at h))
  all_goals
    first
      | exact Option.noConfusion h
      | (have hc := push8_cycles _ _ _ _ h; omega)
      | (have hc := push16_cycles _ _ _ _ h; omega)
      | (injection h with h <;> subst h <;> (try split) <;>
          ((try simp only [fetchByte_cycles, fetchWord_cycles, pop8_cycles, pop16_cycles,
             updateNZ8_cycles, updateNZ16_cycles, setStatusRegister_cycles]) <;> omega))

theorem cyclesLe_execORAdp {M : Type} (b : Bus M) (m m2 : Machine M)
    (h : execORAdp b m = some m2) : m.cycles ≤ m2.cycles := by
  unfold execORAdp at h
  (try simp only [] at h)
  (try (repeat split at h))
  all_goals
    first
      | exact Option.noConfusion h
      | (have hc := push8_cycles _ _ _ _ h; omega)
      | (have hc := push16_cycles _ _ _ _ h; omega)
      | (injection h with h <;> subst h <;> (try split) <;>
          ((try simp only [fetchByte_cycles, fetchWord_cycles, pop8_cycles, pop16_cycles,
             updateNZ8_cycles, updateNZ16_cycles, setStatusRegister_cycles]) <;> omega))

theorem cyclesLe_execPHP {M : Type} (b : Bus M) (m m2 : Machine M)
    (h : execPHP b m = some m2) : m.cycles ≤ m2.cycles := by
  unfold execPHP at h
  (try simp only [] at h)
  (try (repeat split at h))
  all_goals
    first
      | exact Option.noConfusion h
      | (have hc := push8_cycles _ _ _ _ h; omega)
      | (have hc := push16_cycles _ _ _ _ h; omega)
      | (injection h with h <;> subst h <;> (try split) <;>
          ((try simp only [fetchByte_cycles, fetchWord_cycles, pop8_cycles, pop16_cycles,
             updateNZ8_cycles, updateNZ16_cycles, setStatusRegister_cycles]) <;> omega))

theorem cyclesLe_execORAimm {M : Type} (b : Bus M) (m m2 : Machine M)
    (h : execORAimm b m = some m2) : m.cycles ≤ m2.cycles := by
  unfold execORAimm at h
  (try simp only [] at h)
  (try (repeat split at h))
  all_goals
    first
      | exact Option.noConfusion h
      | (have hc := push8_cycles _ _ _ _ h; omega)
      | (have hc := push16_cycles _ _ _ _ h; omega)
      | (injection h with h <;> subst h <;> (try split) <;>
          ((try simp only [fetchByte_cycles, fetchWord_cycles, pop8_cycles, pop16_cycles,
             updateNZ8_cycles, updateNZ16_cycles, setStatusRegister_cycles]) <;> omega))

theorem cyclesLe_execASLA {M : Type} (m m2 : Machine M)
    (h : execASLA m = some m2) : m.cycles ≤ m2.cycles := by
  unfold execASLA at h
  (try simp only [] at h)
  (try (repeat split at h))
  all_goals
    first
      | exact Option.noConfusion h
      | (have hc := push8_cycles _ _ _ _ h; omega)
      | (have hc := push16_cycles _ _ _ _ h; omega)
      | (injection h with h <;> subst h <;> (try split) <;>
          ((try simp only [fetchByte_cycles, fetchWord_cycles, pop8_cycles, pop16_cycles,
             updateNZ8_cycles, updateNZ16_cycles, setStatusRegister_cycles]) <;> omega))

theorem cyclesLe_execPHD {M : Type} (b : Bus M) (m m2 : Machine M)
    (h : execPHD b m = some m2) : m.cycles ≤ m2.cycles := by
  unfold execPHD at h
  (try simp only [] at h)
  (try (repeat split at h))
  all_goals
    first
      | exact Option.noConfusion h
      | (have hc := push8_cycles _ _ _ _ h; omega)
      | (have hc := push16_cycles _ _ _ _ h; omega)
      | (injection h with h <;> subst h <;> (try split) <;>
          ((try simp only [fetchByte_cycles, fetchWord_cycles, pop8_cycles, pop16_cycles,
             updateNZ8_cycles, updateNZ16_cycles, setStatusRegister_cycles]) <;> omega))

theorem cyclesLe_execORAabs {M : Type} (b : Bus M) (m m2 : Machine M)
    (h : execORAabs b m = some m2) : m.cycles ≤ m2.cycles := by
  unfold execORAabs at h
  (try simp only [] at h)
  (try (repeat split at h))
  all_goals
    first
      | exact Option.noConfusion h
      | (have hc := push8_cycles _ _ _ _ h; omega)
      | (have hc := push16_cycles _ _ _ _ h; omega)
      | (injection h with h <;> subst h <;> (try split) <;>
          ((try simp only [fetchByte_cycles, fetchWord_cycles, pop8_cycles, pop16_cycles,
             updateNZ8_cycles, updateNZ16_cycles, setStatusRegister_cycles]) <;> omega))

theorem cyclesLe_execBPL {M : Type} (b : Bus M) (m m2 : Machine M)
    (h : execBPL b m = some m2) : m.cycles ≤ m2.cycles := by
  unfold execBPL at h
  (try simp only [] at h)
  (try (repeat split at h))
  all_goals
    first
      | exact Option.noConfusion h
      | (have hc := push8_cycles _ _ _ _ h; omega)
      | (have hc := push16_cycles _ _ _ _ h; omega)
      | (injection h with h <;> subst h <;> (try split) <;>
          ((try simp only [fetchByte_cycles, fetchWord_cycles, pop8_cycles, pop16_cycles,
             updateNZ8_cycles, updateNZ16_cycles, setStatusRegister_cycles]) <;> omega))

theorem cyclesLe_execCLC {M : Type} (m m2 : Machine M)
    (h : execCLC m = some m2) : m.cycles ≤ m2.cycles := by
  unfold execCLC at h
  (try simp only [] at h)
  (try (repeat split at h))
  all_goals
    first
      | exact Option.noConfusion h
      | (have hc := push8_cycles _ _ _ _ h; omega)
      | (have hc := push16_cycles _ _ _ _ h; omega)
      | (injection h with h <;> subst h <;> (try split) <;>
          ((try simp only [fetchByte_cycles, fetchWord_cycles, pop8_cycles, pop16_cycles,
             updateNZ8_cycles, updateNZ16_cycles, setStatusRegister_cycles]) <;> omega))

theorem cyclesLe_execINCA {M : Type} (m m2 : Machine M)
    (h : execINCA m = some m2) : m.cycles ≤ m2.cycles := by
  unfold execINCA at h
  (try simp only [] at h)
  (try (repeat split at h))
  all_goals
    first
      | exact Option.noConfusion h
      | (have hc := push8_cycles _ _ _ _ h; omega)
      | (have hc := push16_cycles _ _ _ _ h; omega)
      | (injection h with h <;> subst h <;> (try split) <;>
          ((try simp only [fetchByte_cycles, fetchWord_cycles, pop8_cycles, pop16_cycles,
             updateNZ8_cycles, updateNZ16_cycles, setStatusRegister_cycles]) <;> omega))

theorem cyclesLe_execTCS {M : Type} (m m2 : Machine M)
    (h : execTCS m = some m2) : m.cycles ≤ m2.cycles := by
  unfold execTCS at h
  (try simp only [] at h)
  (try (repeat split at h))
  all_goals
    first
      | exact Option.noConfusion h
      | (have hc := push8_cycles _ _ _ _ h; omega)
      | (have hc := push16_cycles _ _ _ _ h; omega)
      | (injection h with h <;> subst h <;> (try split) <;>
          ((try simp only [fetchByte_cycles, fetchWord_cycles, pop8_cycles, pop16_cycles,
             updateNZ8_cycles, updateNZ16_cycles, setStatusRegister_cycles]) <;> omega))

theorem cyclesLe_execPLP {M : Type} (b : Bus M) (m m2 : Machine M)
    (h : execPLP b m = some m2) : m.cycles ≤ m2.cycles := by
  unfold execPLP at h
  (try simp only [] at h)
  (try (repeat split at h))
  all_goals
    first
      | exact Option.noConfusion h
      | (have hc := push8_cycles _ _ _ _ h; omega)
      | (have hc := push16_cycles _ _ _ _ h; omega)
      | (injection h with h <;> subst h <;> (try split) <;>
          ((try simp only [fetchByte_cycles, fetchWord_cycles, pop8_cycles, pop16_cycles,
             updateNZ8_cycles, updateNZ16_cycles, setStatusRegister_cycles]) <;> omega))

theorem cyclesLe_execANDimm {M : Type} (b : Bus M) (m m2 : Machine M)
    (h : execANDimm b m = some m2) : m.cycles ≤ m2.cycles := by
  unfold execANDimm at h
  (try simp only [] at h)
  (try (repeat split at h))
  all_goals
    first
      | exact Option.noConfusion h
      | (have hc := push8_cycles _ _ _ _ h; omega)
      | (have hc := push16_cycles _ _ _ _ h; omega)
      | (injection h with h <;> subst h <;> (try split) <;>
          ((try simp only [fetchByte_cycles, fetchWord_cycles, pop8_cycles, pop16_cycles,
             updateNZ8_cycles, updateNZ16_cycles, setStatusRegister_cycles]) <;> omega))

theorem cyclesLe_execROLA {M : Type} (m m2 : Machine M)
    (h : execROLA m = some m2) : m.cycles ≤ m2.cycles := by
  unfold execROLA at h
  (try simp only [] at h)
  (try (repeat split at h))
  all_goals
    first
      | exact Option.noConfusion h
      | (have hc := push8_cycles _ _ _ _ h; omega)
      | (have hc := push16_cycles _ _ _ _ h; omega)
      | (injection h with h <;> subst h <;> (try split) <;>
          ((try simp only [fetchByte_cycles, fetchWord_cycles, pop8_cycles, pop16_cycles,
             updateNZ8_cycles, updateNZ16_cycles, setStatusRegister_cycles]) <;> omega))

theorem cyclesLe_execPLD {M : Type} (b : Bus M) (m m2 : Machine M)
    (h : execPLD b m = some m2) : m.cycles ≤ m2.cycles := by
  unfold execPLD at h
  (try simp only [] at h)
  (try (repeat split at h))
  all_goals
    first
      | exact Option.noConfusion h
      | (have hc := push8_cycles _ _ _ _ h; omega)
      | (have hc := push16_cycles _ _ _ _ h; omega)
      | (injection h with h <;> subst h <;> (try split) <;>
          ((try simp only [fetchByte_cycles, fetchWord_cycles, pop8_cycles, pop16_cycles,
             updateNZ8_cycles, updateNZ16_cycles, setStatusRegister_cycles]) <;> omega))

theorem cyclesLe_execBMI {M : Type} (b : Bus M) (m m2 : Machine M)
    (h : execBMI b m = some m2) : m.cycles ≤ m2.cycles := by
  unfold execBMI at h
  (try simp only [] at h)
  (try (repeat split at h))
  all_goals
    first
      | exact Option.noConfusion h
      | (have hc := push8_cycles _ _ _ _ h; omega)
      | (have hc := push16_cycles _ _ _ _ h; omega)
      | (injection h with h <;> subst h <;> (try split) <;>
          ((try simp only [fetchByte_cycles, fetchWord_cycles, pop8_cycles, pop16_cycles,
             updateNZ8_cycles, updateNZ16_cycles, setStatusRegister_cycles]) <;> omega))

theorem cyclesLe_execSEC {M : Type} (m m2 : Machine M)
    (h : execSEC m = some m2) : m.cycles ≤ m2.cycles := by
  unfold execSEC at h
  (try simp only [] at h)
  (try (repeat split at h))
  all_goals
    first
      | exact Option.noConfusion h
      | (have hc := push8_cycles _ _ _ _ h; omega)
      | (have hc := push16_cycles _ _ _ _ h; omega)
      | (injection h with h <;> subst h <;> (try split) <;>
          ((try simp only [fetchByte_cycles, fetchWord_cycles, pop8_cycles, pop16_cycles,
             updateNZ8_cycles, updateNZ16_cycles, setStatusRegister_cycles]) <;> omega))

theorem cyclesLe_execRTI {M : Type} (b : Bus M) (m m2 : Machine M)
    (h : execRTI b m = some m2) : m.cycles ≤ m2.cycles := by
  unfold execRTI at h
  (try simp only [] at h)
  (try (repeat split at h))
  all_goals
    first
      | exact Option.noConfusion h
      | (have hc := push8_cycles _ _ _ _ h; omega)
      | (have hc := push16_cycles _ _ _ _ h; omega)
      | (injection h with h <;> subst h <;> (try split) <;>
          ((try simp only [fetchByte_cycles, fetchWord_cycles, pop8_cycles, pop16_cycles,
             updateNZ8_cycles, updateNZ16_cycles, setStatusRegister_cycles]) <;> omega))

theorem cyclesLe_execPHA {M : Type} (b : Bus M) (m m2 : Machine M)
    (h : execPHA b m = some m2) : m.cycles ≤ m2.cycles := by
  unfold execPHA at h
  (try simp only [] at h)
  (try (repeat split at h))
  all_goals
    first
      | exact Option.noConfusion h
      | (have hc := push8_cycles _ _ _ _ h; omega)
      | (have hc := push16_cycles _ _ _ _ h; omega)
      | (injection h with h <;> subst h <;> (try split) <;>
          ((try simp only [fetchByte_cycles, fetchWord_cycles, pop8_cycles, pop16_cycles,
             updateNZ8_cycles, updateNZ16_cycles, setStatusRegister_cycles]) <;> omega))

theorem cyclesLe_execLSRA {M : Type} (m m2 : Machine M)
    (h : execLSRA m = some m2) : m.cycles ≤ m2.cycles := by
  unfold execLSRA at h
  (try simp only [] at h)
  (try (repeat split at h))
  all_goals
    first
      | exact Option.noConfusion h
      | (have hc := push8_cycles _ _ _ _ h; omega)
      | (have hc := push16_cycles _ _ _ _ h; omega)
      | (injection h with h <;> subst h <;> (try split) <;>
          ((try simp only [fetchByte_cycles, fetchWord_cycles, pop8_cycles, pop16_cycles,
             updateNZ8_cycles, updateNZ16_cycles, setStatusRegister_cycles]) <;> omega))

theorem cyclesLe_execPHK {M : Type} (b : Bus M) (m m2 : Machine M)
    (h : execPHK b m = some m2) : m.cycles ≤ m2.cycles := by
  unfold execPHK at h
  (try simp only [] at h)
  (try (repeat split at h))
  all_goals
    first
      | exact Option.noConfusion h
      | (have hc := push8_cycles _ _ _ _ h; omega)
      | (have hc := push16_cycles _ _ _ _ h; omega)
      | (injection h with h <;> subst h <;> (try split) <;>
          ((try simp only [fetchByte_cycles, fetchWord_cycles, pop8_cycles, pop16_cycles,
             updateNZ8_cycles, updateNZ16_cycles, setStatusRegister_cycles]) <;> omega))

theorem cyclesLe_execJMPabs {M : Type} (b : Bus M) (m m2 : Machine M)
    (h : execJMPabs b m = some m2) : m.cycles ≤ m2.cycles := by
  unfold execJMPabs at h
  (try simp only [] at h)
  (try (repeat split at h))
  all_goals
    first
      | exact Option.noConfusion h
      | (have hc := push8_cycles _ _ _ _ h; omega)
      | (have hc := push16_cycles _ _ _ _ h; omega)
      | (injection h with h <;> subst h <;> (try split) <;>
          ((try simp only [fetchByte_cycles, fetchWord_cycles, pop8_cycles, pop16_cycles,
             updateNZ8_cycles, updateNZ16_cycles, setStatusRegister_cycles]) <;> omega))

theorem cyclesLe_execBVC {M : Type} (b : Bus M) (m m2 : Machine M)
    (h : execBVC b m = some m2) : m.cycles ≤ m2.cycles := by
  unfold execBVC at h
  (try simp only [] at h)
  (try (repeat split at h))
  all_goals
    first
      | exact Option.noConfusion h
      | (have hc := push8_cycles _ _ _ _ h; omega)
      | (have hc := push16_cycles _ _ _ _ h; omega)
      | (injection h with h <;> subst h <;> (try split) <;>
          ((try simp only [fetchByte_cycles, fetchWord_cycles, pop8_cycles, pop16_cycles,
             updateNZ8_cycles, updateNZ16_cycles, setStatusRegister_cycles]) <;> omega))

theorem cyclesLe_execCLI {M : Type} (m m2 : Machine M)
    (h : execCLI m = some m2) : m.cycles ≤ m2.cycles := by
  unfold execCLI at h
  (try simp only [] at h)
  (try (repeat split at h))
  all_goals
    first
      | exact Option.noConfusion h
      | (have hc := push8_cycles _ _ _ _ h; omega)
      | (have hc := push16_cycles _ _ _ _ h; omega)
      | (injection h with h <;> subst h <;> (try split) <;>
          ((try simp only [fetchByte_cycles, fetchWord_cycles, pop8_cycles, pop16_cycles,
             updateNZ8_cycles, updateNZ16_cycles, setStatusRegister_cycles]) <;> omega))

theorem cyclesLe_execPHY {M : Type} (b : Bus M) (m m2 : Machine M)
    (h : execPHY b m = some m2) : m.cycles ≤ m2.cycles := by
  unfold execPHY at h
  (try simp only [] at h)
  (try (repeat split at h))
  all_goals
    first
      | exact Option.noConfusion h
      | (have hc := push8_cycles _ _ _ _ h; omega)
      | (have hc := push16_cycles _ _ _ _ h; omega)
      | (injection h with h <;> subst h <;> (try split) <;>
          ((try simp only [fetchByte_cycles, fetchWord_cycles, pop8_cycles, pop16_cycles,
             updateNZ8_cycles, updateNZ16_cycles, setStatusRegister_cycles]) <;> omega))

theorem cyclesLe_execTCD {M : Type} (m m2 : Machine M)
    (h : execTCD m = some m2) : m.cycles ≤ m2.cycles := by
  unfold execTCD at h
  (try simp only [] at h)
  (try (repeat split at h))
  all_goals
    first
      | exact Option.noConfusion h
      | (have hc := push8_cycles _ _ _ _ h; omega)
      | (have hc := push16_cycles _ _ _ _ h; omega)
      | (injection h with h <;> subst h <;> (try split) <;>
          ((try simp only [fetchByte_cycles, fetchWord_cycles, pop8_cycles, pop16_cycles,
             updateNZ8_cycles, updateNZ16_cycles, setStatusRegister_cycles]) <;> omega))

theorem cyclesLe_execJMPlong {M : Type} (b : Bus M) (m m2 : Machine M)
    (h : execJMPlong b m = some m2) : m.cycles ≤ m2.cycles := by
  unfold execJMPlong at h
  (try simp only [] at h)
  (try (repeat split at h))
  all_goals
    first
      | exact Option.noConfusion h
      | (have hc := push8_cycles _ _ _ _ h; omega)
      | (have hc := push16_cycles _ _ _ _ h; omega)
      | (injection h with h <;> subst h <;> (try split) <;>
          ((try simp only [fetchByte_cycles, fetchWord_cycles, pop8_cycles, pop16_cycles,
             updateNZ8_cycles, updateNZ16_cycles, setStatusRegister_cycles]) <;> omega))

theorem cyclesLe_execRTS {M : Type} (b : Bus M) (m m2 : Machine M)
    (h : execRTS b m = some m2) : m.cycles ≤ m2.cycles := by
  unfold execRTS at h
  (try simp only [] at h)
  (try (repeat split at h))
  all_goals
    first
      | exact Option.noConfusion h
      | (have hc := push8_cycles _ _ _ _ h; omega)
      | (have hc := push16_cycles _ _ _ _ h; omega)
      | (injection h with h <;> subst h <;> (try split) <;>
          ((try simp only [fetchByte_cycles, fetchWord_cycles, pop8_cycles, pop16_cycles,
             updateNZ8_cycles, updateNZ16_cycles, setStatusRegister_cycles]) <;> omega))

theorem cyclesLe_execPLA {M : Type} (b : Bus M) (m m2 : Machine M)
    (h : execPLA b m = some m2) : m.cycles ≤ m2.cycles := by
  unfold execPLA at h
  (try simp only [] at h)
  (try (repeat split at h))
  all_goals
    first
      | exact Option.noConfusion h
      | (have hc := push8_cycles _ _ _ _ h; omega)
      | (have hc := push16_cycles _ _ _ _ h; omega)
      | (injection h with h <;> subst h <;> (try split) <;>
          ((try simp only [fetchByte_cycles, fetchWord_cycles, pop8_cycles, pop16_cycles,
             updateNZ8_cycles, updateNZ16_cycles, setStatusRegister_cycles]) <;> omega))

theorem cyclesLe_execADCimm {M : Type} (b : Bus M) (m m2 : Machine M)
    (h : execADCimm b m = some m2) : m.cycles ≤ m2.cycles := by
  unfold execADCimm at h
  (try simp only [] at h)
  (try (repeat split at h))
  all_goals
    first
      | exact Option.noConfusion h
      | (have hc := push8_cycles _ _ _ _ h; omega)
      | (have hc := push16_cycles _ _ _ _ h; omega)
      | (injection h with h <;> subst h <;> (try split) <;>
          ((try simp only [fetchByte_cycles, fetchWord_cycles, pop8_cycles, pop16_cycles,
             updateNZ8_cycles, updateNZ16_cycles, setStatusRegister_cycles]) <;> omega))

theorem cyclesLe_execRORA {M : Type} (m m2 : Machine M)
    (h : execRORA m = some m2) : m.cycles ≤ m2.cycles := by
  unfold execRORA at h
  (try simp only [] at h)
  (try (repeat split at h))
  all_goals
    first
      | exact Option.noConfusion h
      | (have hc := push8_cycles _ _ _ _ h; omega)
      | (have hc := push16_cycles _ _ _ _ h; omega)
      | (injection h with h <;> subst h <;> (try split) <;>
          ((try simp only [fetchByte_cycles, fetchWord_cycles, pop8_cycles, pop16_cycles,
             updateNZ8_cycles, updateNZ16_cycles, setStatusRegister_cycles]) <;> omega))

theorem cyclesLe_execRTL {M : Type} (b : Bus M) (m m2 : Machine M)
    (h : execRTL b m = some m2) : m.cycles ≤ m2.cycles := by
  unfold execRTL at h
  (try simp only [] at h)
  (try (repeat split at h))
  all_goals
    first
      | exact Option.noConfusion h
      | (have hc := push8_cycles _ _ _ _ h; omega)
      | (have hc := push16_cycles _ _ _ _ h; omega)
      | (injection h with h <;> subst h <;> (try split) <;>
          ((try simp only [fetchByte_cycles, fetchWord_cycles, pop8_cycles, pop16_cycles,
             updateNZ8_cycles, updateNZ16_cycles, setStatusRegister_cycles]) <;> omega))

theorem cyclesLe_execBVS {M : Type} (b : Bus M) (m m2 : Machine M)
    (h : execBVS b m = some m2) : m.cycles ≤ m2.cycles := by
  unfold execBVS at h
  (try simp only [] at h)
  (try (repeat split at h))
  all_goals
    first
      | exact Option.noConfusion h
      | (have hc := push8_cycles _ _ _ _ h; omega)
      | (have hc := push16_cycles _ _ _ _ h; omega)
      | (injection h with h <;> subst h <;> (try split) <;>
          ((try simp only [fetchByte_cycles, fetchWord_cycles, pop8_cycles, pop16_cycles,
             updateNZ8_cycles, updateNZ16_cycles, setStatusRegister_cycles]) <;> omega))

theorem cyclesLe_execSEI {M : Type} (m m2 : Machine M)
    (h : execSEI m = some m2) : m.cycles ≤ m2.cycles := by
  unfold execSEI at h
  (try simp only [] at h)
  (try (repeat split at h))
  all_goals
    first
      | exact Option.noConfusion h
      | (have hc := push8_cycles _ _ _ _ h; omega)
      | (have hc := push16_cycles _ _ _ _ h; omega)
      | (injection h with h <;> subst h <;> (try split) <;>
          ((try simp only [fetchByte_cycles, fetchWord_cycles, pop8_cycles, pop16_cycles,
             updateNZ8_cycles, updateNZ16_cycles, setStatusRegister_cycles]) <;> omega))

theorem cyclesLe_execPLY {M : Type} (b : Bus M) (m m2 : Machine M)
    (h : execPLY b m = some m2) : m.cycles ≤ m2.cycles := by
  unfold execPLY at h
  (try simp only [] at h)
  (try (repeat split at h))
  all_goals
    first
      | exact Option.noConfusion h
      | (have hc := push8_cycles _ _ _ _ h; omega)
      | (have hc := push16_cycles _ _ _ _ h; omega)
      | (injection h with h <;> subst h <;> (try split) <;>
          ((try simp only [fetchByte_cycles, fetchWord_cycles, pop8_cycles, pop16_cycles,
             updateNZ8_cycles, updateNZ16_cycles, setStatusRegister_cycles]) <;> omega))

theorem cyclesLe_execTDC {M : Type} (m m2 : Machine M)
    (h : execTDC m = some m2) : m.cycles ≤ m2.cycles := by
  unfold execTDC at h
  (try simp only [] at h)
  (try (repeat split at h))
  all_goals
    first
      | exact Option.noConfusion h
      | (have hc := push8_cycles _ _ _ _ h; omega)
      | (have hc := push16_cycles _ _ _ _ h; omega)
      | (injection h with h <;> subst h <;> (try split) <;>
          ((try simp only [fetchByte_cycles, fetchWord_cycles, pop8_cycles, pop16_cycles,
             updateNZ8_cycles, updateNZ16_cycles, setStatusRegister_cycles]) <;> omega))

theorem cyclesLe_execBRA {M : Type} (b : Bus M) (m m2 : Machine M)
    (h : execBRA b m = some m2) : m.cycles ≤ m2.cycles := by
  unfold execBRA at h
  (try simp only [] at h)
  (try (repeat split at h))
  all_goals
    first
      | exact Option.noConfusion h
      | (have hc := push8_cycles _ _ _ _ h; omega)
      | (have hc := push16_cycles _ _ _ _ h; omega)
      | (injection h with h <;> subst h <;> (try split) <;>
          ((try simp only [fetchByte_cycles, fetchWord_cycles, pop8_cycles, pop16_cycles,
             updateNZ8_cycles, updateNZ16_cycles, setStatusRegister_cycles]) <;> omega))

theorem cyclesLe_execDEY {M : Type} (m m2 : Machine M)
    (h : execDEY m = some m2) : m.cycles ≤ m2.cycles := by
  unfold execDEY at h
  (try simp only [] at h)
  (try (repeat split at h))
  all_goals
    first
      | exact Option.noConfusion h
      | (have hc := push8_cycles _ _ _ _ h; omega)
      | (have hc := push16_cycles _ _ _ _ h; omega)
      | (injection h with h <;> subst h <;> (try split) <;>
          ((try simp only [fetchByte_cycles, fetchWord_cycles, pop8_cycles, pop16_cycles,
             updateNZ8_cycles, updateNZ16_cycles, setStatusRegister_cycles]) <;> omega))

theorem cyclesLe_execTXA {M : Type} (m m2 : Machine M)
    (h : execTXA m = some m2) : m.cycles ≤ m2.cycles := by
  unfold execTXA at h
  (try simp only [] at h)
  (try (repeat split at h))
  all_goals
    first
      | exact Option.noConfusion h
      | (have hc := push8_cycles _ _ _ _ h; omega)
      | (have hc := push16_cycles _ _ _ _ h; omega)
      | (injection h with h <;> subst h <;> (try split) <;>
          ((try simp only [fetchByte_cycles, fetchWord_cycles, pop8_cycles, pop16_cycles,
             updateNZ8_cycles, updateNZ16_cycles, setStatusRegister_cycles]) <;> omega))

theorem cyclesLe_execPHB {M : Type} (b : Bus M) (m m2 : Machine M)
    (h : execPHB b m = some m2) : m.cycles ≤ m2.cycles := by
  unfold execPHB at h
  (try simp only [] at h)
  (try (repeat split at h))
  all_goals
    first
      | exact Option.noConfusion h
      | (have hc := push8_cycles _ _ _ _ h; omega)
      | (have hc := push16_cycles _ _ _ _ h; omega)
      | (injection h with h <;> subst h <;> (try split) <;>
          ((try simp only [fetchByte_cycles, fetchWord_cycles, pop8_cycles, pop16_cycles,
             updateNZ8_cycles, updateNZ16_cycles, setStatusRegister_cycles]) <;> omega))

theorem cyclesLe_execBCC {M : Type} (b : Bus M) (m m2 : Machine M)
    (h : execBCC b m = some m2) : m.cycles ≤ m2.cycles := by
  unfold execBCC at h
  (try simp only [] at h)
  (try (repeat split at h))
  all_goals
    first
      | exact Option.noConfusion h
      | (have hc := push8_cycles _ _ _ _ h; omega)
      | (have hc := push16_cycles _ _ _ _ h; omega)
      | (injection h with h <;> subst h <;> (try split) <;>
          ((try simp only [fetchByte_cycles, fetchWord_cycles, pop8_cycles, pop16_cycles,
             updateNZ8_cycles, updateNZ16_cycles, setStatusRegister_cycles]) <;> omega))

theorem cyclesLe_execTYA {M : Type} (m m2 : Machine M)
    (h : execTYA m = some m2) : m.cycles ≤ m2.cycles := by
  unfold execTYA at h
  (try simp only [] at h)
  (try (repeat split at h))
  all_goals
    first
      | exact Option.noConfusion h
      | (have hc := push8_cycles _ _ _ _ h; omega)
      | (have hc := push16_cycles _ _ _ _ h; omega)
      | (injection h with h <;> subst h <;> (try split) <;>
          ((try simp only [fetchByte_cycles, fetchWord_cycles, pop8_cycles, pop16_cycles,
             updateNZ8_cycles, updateNZ16_cycles, setStatusRegister_cycles]) <;> omega))

theorem cyclesLe_execTXS {M : Type} (m m2 : Machine M)
    (h : execTXS m = some m2) : m.cycles ≤ m2.cycles := by
  unfold execTXS at h
  (try simp only [] at h)
  (try (repeat split at h))
  all_goals
    first
      | exact Option.noConfusion h
      | (have hc := push8_cycles _ _ _ _ h; omega)
      | (have hc := push16_cycles _ _ _ _ h; omega)
      | (injection h with h <;> subst h <;> (try split) <;>
          ((try simp only [fetchByte_cycles, fetchWord_cycles, pop8_cycles, pop16_cycles,
             updateNZ8_cycles, updateNZ16_cycles, setStatusRegister_cycles]) <;> omega))

theorem cyclesLe_execTXY {M : Type} (m m2 : Machine M)
    (h : execTXY m = some m2) : m.cycles ≤ m2.cycles := by
  unfold execTXY at h
  (try simp only [] at h)
  (try (repeat split at h))
  all_goals
    first
      | exact Option.noConfusion h
      | (have hc := push8_cycles _ _ _ _ h; omega)
      | (have hc := push16_cycles _ _ _ _ h; omega)
      | (injection h with h <;> subst h <;> (try split) <;>
          ((try simp only [fetchByte_cycles, fetchWord_cycles, pop8_cycles, pop16_cycles,
             updateNZ8_cycles, updateNZ16_cycles, setStatusRegister_cycles]) <;> omega))

theorem cyclesLe_execLDYimm {M : Type} (b : Bus M) (m m2 : Machine M)
    (h : execLDYimm b m = some m2) : m.cycles ≤ m2.cycles := by
  unfold execLDYimm at h
  (try simp only [] at h)
  (try (repeat split at h))
  all_goals
    first
      | exact Option.noConfusion h
      | (have hc := push8_cycles _ _ _ _ h; omega)
      | (have hc := push16_cycles _ _ _ _ h; omega)
      | (injection h with h <;> subst h <;> (try split) <;>
          ((try simp only [fetchByte_cycles, fetchWord_cycles, pop8_cycles, pop16_cycles,
             updateNZ8_cycles, updateNZ16_cycles, setStatusRegister_cycles]) <;> omega))

theorem cyclesLe_execLDXimm {M : Type} (b : Bus M) (m m2 : Machine M)
    (h : execLDXimm b m = some m2) : m.cycles ≤ m2.cycles := by
  unfold execLDXimm at h
  (try simp only [] at h)
  (try (repeat split at h))
  all_goals
    first
      | exact Option.noConfusion h
      | (have hc := push8_cycles _ _ _ _ h; omega)
      | (have hc := push16_cycles _ _ _ _ h; omega)
      | (injection h with h <;> subst h <;> (try split) <;>
          ((try simp only [fetchByte_cycles, fetchWord_cycles, pop8_cycles, pop16_cycles,
             updateNZ8_cycles, updateNZ16_cycles, setStatusRegister_cycles]) <;> omega))

theorem cyclesLe_execLDAdp {M : Type} (b : Bus M) (m m2 : Machine M)
    (h : execLDAdp b m = some m2) : m.cycles ≤ m2.cycles := by
  unfold execLDAdp at h
  (try simp only [] at h)
  (try (repeat split at h))
  all_goals
    first
      | exact Option.noConfusion h
      | (have hc := push8_cycles _ _ _ _ h; omega)
      | (have hc := push16_cycles _ _ _ _ h; omega)
      | (injection h with h <;> subst h <;> (try split) <;>
          ((try simp only [fetchByte_cycles, fetchWord_cycles, pop8_cycles, pop16_cycles,
             updateNZ8_cycles, updateNZ16_cycles, setStatusRegister_cycles]) <;> omega))

theorem cyclesLe_execTAY {M : Type} (m m2 : Machine M)
    (h : execTAY m = some m2) : m.cycles ≤ m2.cycles := by
  unfold execTAY at h
  (try simp only [] at h)
  (try (repeat split at h))
  all_goals
    first
      | exact Option.noConfusion h
      | (have hc := push8_cycles _ _ _ _ h; omega)
      | (have hc := push16_cycles _ _ _ _ h; omega)
      | (injection h with h <;> subst h <;> (try split) <;>
          ((try simp only [fetchByte_cycles, fetchWord_cycles, pop8_cycles, pop16_cycles,
             updateNZ8_cycles, updateNZ16_cycles, setStatusRegister_cycles]) <;> omega))

theorem cyclesLe_execLDAimm {M : Type} (b : Bus M) (m m2 : Machine M)
    (h : execLDAimm b m = some m2) : m.cycles ≤ m2.cycles := by
  unfold execLDAimm at h
  (try simp only [] at h)
  (try (repeat split at h))
  all_goals
    first
      | exact Option.noConfusion h
      | (have hc := push8_cycles _ _ _ _ h; omega)
      | (have hc := push16_cycles _ _ _ _ h; omega)
      | (injection h with h <;> subst h <;> (try split) <;>
          ((try simp only [fetchByte_cycles, fetchWord_cycles, pop8_cycles, pop16_cycles,
             updateNZ8_cycles, updateNZ16_cycles, setStatusRegister_cycles]) <;> omega))

theorem cyclesLe_execTAX {M : Type} (m m2 : Machine M)
    (h : execTAX m = some m2) : m.cycles ≤ m2.cycles := by
  unfold execTAX at h
  (try simp only [] at h)
  (try (repeat split at h))
  all_goals
    first
      | exact Option.noConfusion h
      | (have hc := push8_cycles _ _ _ _ h; omega)
      | (have hc := push16_cycles _ _ _ _ h; omega)
      | (injection h with h <;> subst h <;> (try split) <;>
          ((try simp only [fetchByte_cycles, fetchWord_cycles, pop8_cycles, pop16_cycles,
             updateNZ8_cycles, updateNZ16_cycles, setStatusRegister_cycles]) <;> omega))

theorem cyclesLe_execPLB {M : Type} (b : Bus M) (m m2 : Machine M)
    (h : execPLB b m = some m2) : m.cycles ≤ m2.cycles := by
  unfold execPLB at h
  (try simp only [] at h)
  (try (repeat split at h))
  all_goals
    first
      | exact Option.noConfusion h
      | (have hc := push8_cycles _ _ _ _ h; omega)
      | (have hc := push16_cycles _ _ _ _ h; omega)
      | (injection h with h <;> subst h <;> (try split) <;>
          ((try simp only [fetchByte_cycles, fetchWord_cycles, pop8_cycles, pop16_cycles,
             updateNZ8_cycles, updateNZ16_cycles, setStatusRegister_cycles]) <;> omega))

theorem cyclesLe_execBCS {M : Type} (b : Bus M) (m m2 : Machine M)
    (h : execBCS b m = some m2) : m.cycles ≤ m2.cycles := by
  unfold execBCS at h
  (try simp only [] at h)
  (try (repeat split at h))
  all_goals
    first
      | exact Option.noConfusion h
      | (have hc := push8_cycles _ _ _ _ h; omega)
      | (have hc := push16_cycles _ _ _ _ h; omega)
      | (injection h with h <;> subst h <;> (try split) <;>
          ((try simp only [fetchByte_cycles, fetchWord_cycles, pop8_cycles, pop16_cycles,
             updateNZ8_cycles, updateNZ16_cycles, setStatusRegister_cycles]) <;> omega))

theorem cyclesLe_execCLV {M : Type} (m m2 : Machine M)
    (h : execCLV m = some m2) : m.cycles ≤ m2.cycles := by
  unfold execCLV at h
  (try simp only [] at h)
  (try (repeat split at h))
  all_goals
    first
      | exact Option.noConfusion h
      | (have hc := push8_cycles _ _ _ _ h; omega)
      | (have hc := push16_cycles _ _ _ _ h; omega)
      | (injection h with h <;> subst h <;> (try split) <;>
          ((try simp only [fetchByte_cycles, fetchWord_cycles, pop8_cycles, pop16_cycles,
             updateNZ8_cycles, updateNZ16_cycles, setStatusRegister_cycles]) <;> omega))

theorem cyclesLe_execTSX {M : Type} (m m2 : Machine M)
    (h : execTSX m = some m2) : m.cycles ≤ m2.cycles := by
  unfold execTSX at h
  (try simp only [] at h)
  (try (repeat split at h))
  all_goals
    first
      | exact Option.noConfusion h
      | (have hc := push8_cycles _ _ _ _ h; omega)
      | (have hc := push16_cycles _ _ _ _ h; omega)
      | (injection h with h <;> subst h <;> (try split) <;>
          ((try simp only [fetchByte_cycles, fetchWord_cycles, pop8_cycles, pop16_cycles,
             updateNZ8_cycles, updateNZ16_cycles, setStatusRegister_cycles]) <;> omega))

theorem cyclesLe_execTYX {M : Type} (m m2 : Machine M)
    (h : execTYX m = some m2) : m.cycles ≤ m2.cycles := by
  unfold execTYX at h
  (try simp only [] at h)
  (try (repeat split at h))
  all_goals
    first
      | exact Option.noConfusion h
      | (have hc := push8_cycles _ _ _ _ h; omega)
      | (have hc := push16_cycles _ _ _ _ h; omega)
      | (injection h with h <;> subst h <;> (try split) <;>
          ((try simp only [fetchByte_cycles, fetchWord_cycles, pop8_cycles, pop16_cycles,
             updateNZ8_cycles, updateNZ16_cycles, setStatusRegister_cycles]) <;> omega))

theorem cyclesLe_execREP {M : Type} (b : Bus M) (m m2 : Machine M)
    (h : execREP b m = some m2) : m.cycles ≤ m2.cycles := by
  unfold execREP at h
  (try simp only [] at h)
  (try (repeat split at h))
  all_goals
    first
      | exact Option.noConfusion h
      | (have hc := push8_cycles _ _ _ _ h; omega)
      | (have hc := push16_cycles _ _ _ _ h; omega)
      | (injection h with h <;> subst h <;> (try split) <;>
          ((try simp only [fetchByte_cycles, fetchWord_cycles, pop8_cycles, pop16_cycles,
             updateNZ8_cycles, updateNZ16_cycles, setStatusRegister_cycles]) <;> omega))

theorem cyclesLe_execINY {M : Type} (m m2 : Machine M)
    (h : execINY m = some m2) : m.cycles ≤ m2.cycles := by
  unfold execINY at h
  (try simp only [] at h)
  (try (repeat split at h))
  all_goals
    first
      | exact Option.noConfusion h
      | (have hc := push8_cycles _ _ _ _ h; omega)
      | (have hc := push16_cycles _ _ _ _ h; omega)
      | (injection h with h <;> subst h <;> (try split) <;>
          ((try simp only [fetchByte_cycles, fetchWord_cycles, pop8_cycles, pop16_cycles,
             updateNZ8_cycles, updateNZ16_cycles, setStatusRegister_cycles]) <;> omega))

theorem cyclesLe_execDEX {M : Type} (m m2 : Machine M)
    (h : execDEX m = some m2) : m.cycles ≤ m2.cycles := by
  unfold execDEX at h
  (try simp only [] at h)
  (try (repeat split at h))
  all_goals
    first
      | exact Option.noConfusion h
      | (have hc := push8_cycles _ _ _ _ h; omega)
      | (have hc := push16_cycles _ _ _ _ h; omega)
      | (injection h with h <;> subst h <;> (try split) <;>
          ((try simp only [fetchByte_cycles, fetchWord_cycles, pop8_cycles, pop16_cycles,
             updateNZ8_cycles, updateNZ16_cycles, setStatusRegister_cycles]) <;> omega))

theorem cyclesLe_execBNE {M : Type} (b : Bus M) (m m2 : Machine M)
    (h : execBNE b m = some m2) : m.cycles ≤ m2.cycles := by
  unfold execBNE at h
  (try simp only [] at h)
  (try (repeat split at h))
  all_goals
    first
      | exact Option.noConfusion h
      | (have hc := push8_cycles _ _ _ _ h; omega)
      | (have hc := push16_cycles _ _ _ _ h; omega)
      | (injection h with h <;> subst h <;> (try split) <;>
          ((try simp only [fetchByte_cycles, fetchWord_cycles, pop8_cycles, pop16_cycles,
             updateNZ8_cycles, updateNZ16_cycles, setStatusRegister_cycles]) <;> omega))

theorem cyclesLe_execCLD {M : Type} (m m2 : Machine M)
    (h : execCLD m = some m2) : m.cycles ≤ m2.cycles := by
  unfold execCLD at h
  (try simp only [] at h)
  (try (repeat split at h))
  all_goals
    first
      | exact Option.noConfusion h
      | (have hc := push8_cycles _ _ _ _ h; omega)
      | (have hc := push16_cycles _ _ _ _ h; omega)
      | (injection h with h <;> subst h <;> (try split) <;>
          ((try simp only [fetchByte_cycles, fetchWord_cycles, pop8_cycles, pop16_cycles,
             updateNZ8_cycles, updateNZ16_cycles, setStatusRegister_cycles]) <;> omega))

theorem cyclesLe_execPHX {M : Type} (b : Bus M) (m m2 : Machine M)
    (h : execPHX b m = some m2) : m.cycles ≤ m2.cycles := by
  unfold execPHX at h
  (try simp only [] at h)
  (try (repeat split at h))
  all_goals
    first
      | exact Option.noConfusion h
      | (have hc := push8_cycles _ _ _ _ h; omega)
      | (have hc := push16_cycles _ _ _ _ h; omega)
      | (injection h with h <;> subst h <;> (try split) <;>
          ((try simp only [fetchByte_cycles, fetchWord_cycles, pop8_cycles, pop16_cycles,
             updateNZ8_cycles, updateNZ16_cycles, setStatusRegister_cycles]) <;> omega))

theorem cyclesLe_execBEQ {M : Type} (b : Bus M) (m m2 : Machine M)
    (h : execBEQ b m = some m2) : m.cycles ≤ m2.cycles := by
  unfold execBEQ at h
  (try simp only [] at h)
  (try (repeat split at h))
  all_goals
    first
      | exact Option.noConfusion h
      | (have hc := push8_cycles _ _ _ _ h; omega)
      | (have hc := push16_cycles _ _ _ _ h; omega)
      | (injection h with h <;> subst h <;> (try split) <;>
          ((try simp only [fetchByte_cycles, fetchWord_cycles, pop8_cycles, pop16_cycles,
             updateNZ8_cycles, updateNZ16_cycles, setStatusRegister_cycles]) <;> omega))

theorem cyclesLe_execSED {M : Type} (m m2 : Machine M)
    (h : execSED m = some m2) : m.cycles ≤ m2.cycles := by
  unfold execSED at h
  (try simp only [] at h)
  (try (repeat split at h))
  all_goals
    first
      | exact Option.noConfusion h
      | (have hc := push8_cycles _ _ _ _ h; omega)
      | (have hc := push16_cycles _ _ _ _ h; omega)
      | (injection h with h <;> subst h <;> (try split) <;>
          ((try simp only [fetchByte_cycles, fetchWord_cycles, pop8_cycles, pop16_cycles,
             updateNZ8_cycles, updateNZ16_cycles, setStatusRegister_cycles]) <;> omega))

theorem cyclesLe_execINX {M : Type} (m m2 : Machine M)
    (h : execINX m = some m2) : m.cycles ≤ m2.cycles := by
  unfold execINX at h
  (try simp only [] at h)
  (try (repeat split at h))
  all_goals
    first
      | exact Option.noConfusion h
      | (have hc := push8_cycles _ _ _ _ h; omega)
      | (have hc := push16_cycles _ _ _ _ h; omega)
      | (injection h with h <;> subst h <;> (try split) <;>
          ((try simp only [fetchByte_cycles, fetchWord_cycles, pop8_cycles, pop16_cycles,
             updateNZ8_cycles, updateNZ16_cycles, setStatusRegister_cycles]) <;> omega))

theorem cyclesLe_execXBA {M : Type} (m m2 : Machine M)
    (h : execXBA m = some m2) : m.cycles ≤ m2.cycles := by
  unfold execXBA at h
  (try simp only [] at h)
  (try (repeat split at h))
  all_goals
    first
      | exact Option.noConfusion h
      | (have hc := push8_cycles _ _ _ _ h; omega)
      | (have hc := push16_cycles _ _ _ _ h; omega)
      | (injection h with h <;> subst h <;> (try split) <;>
          ((try simp only [fetchByte_cycles, fetchWord_cycles, pop8_cycles, pop16_cycles,
             updateNZ8_cycles, updateNZ16_cycles, setStatusRegister_cycles]) <;> omega))

theorem cyclesLe_execSEP {M : Type} (b : Bus M) (m m2 : Machine M)
    (h : execSEP b m = some m2) : m.cycles ≤ m2.cycles := by
  unfold execSEP at h
  (try simp only [] at h)
  (try (repeat split at h))
  all_goals
    first
      | exact Option.noConfusion h
      | (have hc := push8_cycles _ _ _ _ h; omega)
      | (have hc := push16_cycles _ _ _ _ h; omega)
      | (injection h with h <;> subst h <;> (try split) <;>
          ((try simp only [fetchByte_cycles, fetchWord_cycles, pop8_cycles, pop16_cycles,
             updateNZ8_cycles, updateNZ16_cycles, setStatusRegister_cycles]) <;> omega))

theorem cyclesLe_execPLX {M : Type} (b : Bus M) (m m2 : Machine M)
    (h : execPLX b m = some m2) : m.cycles ≤ m2.cycles := by
  unfold execPLX at h
  (try simp only [] at h)
  (try (repeat split at h))
  all_goals
    first
      | exact Option.noConfusion h
      | (have hc := push8_cycles _ _ _ _ h; omega)
      | (have hc := push16_cycles _ _ _ _ h; omega)
      | (injection h with h <;> subst h <;> (try split) <;>
          ((try simp only [fetchByte_cycles, fetchWord_cycles, pop8_cycles, pop16_cycles,
             updateNZ8_cycles, updateNZ16_cycles, setStatusRegister_cycles]) <;> omega))

theorem cyclesLe_execXCE {M : Type} (m m2 : Machine M)
    (h : execXCE m = some m2) : m.cycles ≤ m2.cycles := by
  unfold execXCE at h
  (try simp only [] at h)
  (try (repeat split at h))
  all_goals
    first
      | exact Option.noConfusion h
      | (have hc := push8_cycles _ _ _ _ h; omega)
      | (have hc := push16_cycles _ _ _ _ h; omega)
      | (injection h with h <;> subst h <;> (try split) <;>
          ((try simp only [fetchByte_cycles, fetchWord_cycles, pop8_cycles, pop16_cycles,
             updateNZ8_cycles, updateNZ16_cycles, setStatusRegister_cycles]) <;> omega))

theorem cyclesLe_execBRK {M : Type} (b : Bus M) (m m2 : Machine M)
    (h : execBRK b m = some m2) : m.cycles ≤ m2.cycles := by
  unfold execBRK at h
  cases hp1 : push16 b m (m.rPC + 1) with
  | none => rw [hp1] at h; exact Option.noConfusion h
  | some mp =>
    rw [hp1] at h
    simp only [] at h
    cases hp2 : push8 b mp (getStatusRegister mp) with
    | none => rw [hp2] at h; exact Option.noConfusion h
    | some mq =>
      rw [hp2] at h
      simp only [] at h
      have hc1 := push16_cycles _ _ _ _ hp1
      have hc2 := push8_cycles _ _ _ _ hp2
      injection h with h
      subst h
      simp only []
      omega

theorem cyclesLe_execJSR {M : Type} (b : Bus M) (m m2 : Machine M)
    (h : execJSR b m = some m2) : m.cycles ≤ m2.cycles := by
  unfold execJSR at h
  simp only [] at h
  cases hp : push16 b (fetchWord b m).2 (((fetchWord b m).2.rPC + 0xFFFF) % 0x10000) with
  | none => rw [hp] at h; exact Option.noConfusion h
  | some mq =>
    rw [hp] at h
    simp only [] at h
    have hc := push16_cycles _ _ _ _ hp
    have hf := fetchWord_cycles b m
    injection h with h
    subst h
    simp only []
    omega

theorem cyclesLe_execSTZdp {M : Type} (b : Bus M) (m m2 : Machine M)
    (h : execSTZdp b m = some m2) : m.cycles ≤ m2.cycles := by
  unfold execSTZdp at h
  simp only [] at h
  cases hw : b.write (fetchByte b m).2.mem (fetchByte b m).1 0 with
  | none => rw [hw] at h; exact Option.noConfusion h
  | some mm =>
    rw [hw] at h
    simp only [] at h
    injection h with h
    subst h
    simp only [fetchByte_cycles]
    omega

theorem cyclesLe_execSTAdp {M : Type} (b : Bus M) (m m2 : Machine M)
    (h : execSTAdp b m = some m2) : m.cycles ≤ m2.cycles := by
  unfold execSTAdp at h
  simp only [] at h
  cases hw : b.write (fetchByte b m).2.mem (fetchByte b m).1 ((fetchByte b m).2.rA &&& 0xFF) with
  | none => rw [hw] at h; exact Option.noConfusion h
  | some mm =>
    rw [hw] at h
    simp only [] at h
    injection h with h
    subst h
    simp only [fetchByte_cycles]
    omega

theorem cyclesLe_execSTAabs {M : Type} (b : Bus M) (m m2 : Machine M)
    (h : execSTAabs b m = some m2) : m.cycles ≤ m2.cycles := by
  unfold execSTAabs at h
  simp only [] at h
  split at h
  · cases hw : b.write (fetchWord b m).2.mem (fetchWord b m).1 ((fetchWord b m).2.rA &&& 0xFF) with
    | none => rw [hw] at h; exact Option.noConfusion h
    | some mm =>
      rw [hw] at h
      simp only [] at h
      injection h with h
      subst h
      simp only [fetchWord_cycles]
      omega
  · cases hw : b.write (fetchWord b m).2.mem (fetchWord b m).1 ((fetchWord b m).2.rA &&& 0xFF) with
    | none => rw [hw] at h; exact Option.noConfusion h
    | some mm =>
      rw [hw] at h
      simp only [] at h
      cases hw2 : b.write mm ((fetchWord b m).1 + 1) (((fetchWord b m).2.rA >>> 8) &&& 0xFF) with
      | none => rw [hw2] at h; exact Option.noConfusion h
      | some mm2 =>
        rw [hw2] at h
        simp only [] at h
        injection h with h
        subst h
        simp only [fetchWord_cycles]
        omega

theorem cyclesLe_execSTAlong {M : Type} (b : Bus M) (m m2 : Machine M)
    (h : execSTAlong b m = some m2) : m.cycles ≤ m2.cycles := by
  unfold execSTAlong at h
  simp only [] at h
  cases hw : b.write (fetchWord b (fetchByte b m).2).2.mem
      (((fetchByte b m).1 <<< 16) ||| (fetchWord b (fetchByte b m).2).1)
      ((fetchWord b (fetchByte b m).2).2.rA &&& 0xFF) with
  | none => rw [hw] at h; exact Option.noConfusion h
  | some mm =>
    rw [hw] at h
    simp only [] at h
    injection h with h
    subst h
    simp only [fetchWord_cycles, fetchByte_cycles]
    omega

theorem cyclesLe_execSTZabs {M : Type} (b : Bus M) (m m2 : Machine M)
    (h : execSTZabs b m = some m2) : m.cycles ≤ m2.cycles := by
  unfold execSTZabs at h
  simp only [] at h
  cases hw : b.write (fetchWord b m).2.mem (fetchWord b m).1 0 with
  | none => rw [hw] at h; exact Option.noConfusion h
  | some mm =>
    rw [hw] at h
    simp only [] at h
    injection h with h
    subst h
    simp only [fetchWord_cycles]
    omega

theorem cyclesLe_execSTAabsX {M : Type} (b : Bus M) (m m2 : Machine M)
    (h : execSTAabsX b m = some m2) : m.cycles ≤ m2.cycles := by
  unfold execSTAabsX at h
  simp only [] at h
  cases hw : b.write (fetchWord b m).2.mem (fetchWord b m).1 ((fetchWord b m).2.rA &&& 0xFF) with
  | none => rw [hw] at h; exact Option.noConfusion h
  | some mm =>
    rw [hw] at h
    simp only [] at h
    injection h with h
    subst h
    simp only [fetchWord_cycles]
    omega

/-! The opcode dispatch theorem, in blocks of sixteen opcodes. -/

set_option maxHeartbeats 2000000 in
theorem execCyclesBlock0 {M : Type} (b : Bus M) (op : Nat) (m m2 : Machine M)
    (hlo : 0 ≤ op) (hhi : op < 16)
    (h : executeInstruction b op m = some m2) : m.cycles ≤ m2.cycles := by
  rcases Nat.lt_or_ge op 8 with hsplit | hsplit
  ·
    rcases Nat.lt_or_ge op 4 with hsplit | hsplit
    ·
      rcases Nat.lt_or_ge op 2 with hsplit | hsplit
      ·
        rcases Nat.lt_or_ge op 1 with hsplit | hsplit
        ·
          have he : op = 0 := by omega
          subst he
          exact cyclesLe_execBRK b m m2 h
        ·
          have he : op = 1 := by omega
          subst he
          exact cyclesLe_execORAdp b m m2 h
      ·
        rcases Nat.lt_or_ge op 3 with hsplit | hsplit
        ·
          have he : op = 2 := by omega
          subst he
          exact cyclesLe_execSkipByte b m m2 h
        ·
          have he : op = 3 := by omega
          subst he
          exact cyclesLe_execORAdp b m m2 h
    ·
      rcases Nat.lt_or_ge op 6 with hsplit | hsplit
      ·
        rcases Nat.lt_or_ge op 5 with hsplit | hsplit
        ·
          have he : op = 4 := by omega
          subst he
          exact cyclesLe_execSkipByte b m m2 h
        ·
          have he : op = 5 := by omega
          subst he
          exact cyclesLe_execORAdp b m m2 h
      ·
        rcases Nat.lt_or_ge op 7 with hsplit | hsplit
        ·
          have he : op = 6 := by omega
          subst he
          exact cyclesLe_execSkipByte b m m2 h
        ·
          have he : op = 7 := by omega
          subst he
          exact cyclesLe_execORAdp b m m2 h
  ·
    rcases Nat.lt_or_ge op 12 with hsplit | hsplit
    ·
      rcases Nat.lt_or_ge op 10 with hsplit | hsplit
      ·
        rcases Nat.lt_or_ge op 9 with hsplit | hsplit
        ·
          have he : op = 8 := by omega
          subst he
          exact cyclesLe_execPHP b m m2 h
        ·
          have he : op = 9 := by omega
          subst he
          exact cyclesLe_execORAimm b m m2 h
      ·
        rcases Nat.lt_or_ge op 11 with hsplit | hsplit
        ·
          have he : op = 10 := by omega
          subst he
          exact cyclesLe_execASLA m m2 h
        ·
          have he : op = 11 := by omega
          subst he
          exact cyclesLe_execPHD b m m2 h
    ·
      rcases Nat.lt_or_ge op 14 with hsplit | hsplit
      ·
        rcases Nat.lt_or_ge op 13 with hsplit | hsplit
        ·
          have he : op = 12 := by omega
          subst he
          exact cyclesLe_execSkipWord b m m2 h
        ·
          have he : op = 13 := by omega
          subst he
          exact cyclesLe_execORAabs b m m2 h
      ·
        rcases Nat.lt_or_ge op 15 with hsplit | hsplit
        ·
          have he : op = 14 := by omega
          subst he
          exact cyclesLe_execSkipWord b m m2 h
        ·
          have he : op = 15 := by omega
          subst he
          exact cyclesLe_execSkipLong b m m2 h

set_option maxHeartbeats 2000000 in
theorem execCyclesBlock1 {M : Type} (b : Bus M) (op : Nat) (m m2 : Machine M)
    (hlo : 16 ≤ op) (hhi : op < 32)
    (h : executeInstruction b op m = some m2) : m.cycles ≤ m2.cycles := by
  rcases Nat.lt_or_ge op 24 with hsplit | hsplit
  ·
    rcases Nat.lt_or_ge op 20 with hsplit | hsplit
    ·
      rcases Nat.lt_or_ge op 18 with hsplit | hsplit
      ·
        rcases Nat.lt_or_ge op 17 with hsplit | hsplit
        ·
          have he : op = 16 := by omega
          subst he
          exact cyclesLe_execBPL b m m2 h
        ·
          have he : op = 17 := by omega
          subst he
          exact cyclesLe_execSkipByte b m m2 h
      ·
        rcases Nat.lt_or_ge op 19 with hsplit | hsplit
        ·
          have he : op = 18 := by omega
          subst he
          exact cyclesLe_execSkipByte b m m2 h
        ·
          have he : op = 19 := by omega
          subst he
          exact cyclesLe_execSkipByte b m m2 h
    ·
      rcases Nat.lt_or_ge op 22 with hsplit | hsplit
      ·
        rcases Nat.lt_or_ge op 21 with hsplit | hsplit
        ·
          have he : op = 20 := by omega
          subst he
          exact cyclesLe_execSkipByte b m m2 h
        ·
          have he : op = 21 := by omega
          subst he
          exact cyclesLe_execSkipByte b m m2 h
      ·
        rcases Nat.lt_or_ge op 23 with hsplit | hsplit
        ·
          have he : op = 22 := by omega
          subst he
          exact cyclesLe_execSkipByte b m m2 h
        ·
          have he : op = 23 := by omega
          subst he
          exact cyclesLe_execSkipByte b m m2 h
  ·
    rcases Nat.lt_or_ge op 28 with hsplit | hsplit
    ·
      rcases Nat.lt_or_ge op 26 with hsplit | hsplit
      ·
        rcases Nat.lt_or_ge op 25 with hsplit | hsplit
        ·
          have he : op = 24 := by omega
          subst he
          exact cyclesLe_execCLC m m2 h
        ·
          have he : op = 25 := by omega
          subst he
          exact cyclesLe_execSkipWord b m m2 h
      ·
        rcases Nat.lt_or_ge op 27 with hsplit | hsplit
        ·
          have he : op = 26 := by omega
          subst he
          exact cyclesLe_execINCA m m2 h
        ·
          have he : op = 27 := by omega
          subst he
          exact cyclesLe_execTCS m m2 h
    ·
      rcases Nat.lt_or_ge op 30 with hsplit | hsplit
      ·
        rcases Nat.lt_or_ge op 29 with hsplit | hsplit
        ·
          have he : op = 28 := by omega
          subst he
          exact cyclesLe_execSkipWord b m m2 h
        ·
          have he : op = 29 := by omega
          subst he
          exact cyclesLe_execSkipWord b m m2 h
      ·
        rcases Nat.lt_or_ge op 31 with hsplit | hsplit
        ·
          have he : op = 30 := by omega
          subst he
          exact cyclesLe_execSkipWord b m m2 h
        ·
          have he : op = 31 := by omega
          subst he
          exact cyclesLe_execSkipLong b m m2 h

set_option maxHeartbeats 2000000 in
theorem execCyclesBlock2 {M : Type} (b : Bus M) (op : Nat) (m m2 : Machine M)
    (hlo : 32 ≤ op) (hhi : op < 48)
    (h : executeInstruction b op m = some m2) : m.cycles ≤ m2.cycles := by
  rcases Nat.lt_or_ge op 40 with hsplit | hsplit
  ·
    rcases Nat.lt_or_ge op 36 with hsplit | hsplit
    ·
      rcases Nat.lt_or_ge op 34 with hsplit | hsplit
      ·
        rcases Nat.lt_or_ge op 33 with hsplit | hsplit
        ·
          have he : op = 32 := by omega
          subst he
          exact cyclesLe_execJSR b m m2 h
        ·
          have he : op = 33 := by omega
          subst he
          exact cyclesLe_execSkipByte b m m2 h
      ·
        rcases Nat.lt_or_ge op 35 with hsplit | hsplit
        ·
          have he : op = 34 := by omega
          subst he
          exact cyclesLe_execSkipLong b m m2 h
        ·
          have he : op = 35 := by omega
          subst he
          exact cyclesLe_execSkipByte b m m2 h
    ·
      rcases Nat.lt_or_ge op 38 with hsplit | hsplit
      ·
        rcases Nat.lt_or_ge op 37 with hsplit | hsplit
        ·
          have he : op = 36 := by omega
          subst he
          exact cyclesLe_execSkipByte b m m2 h
        ·
          have he : op = 37 := by omega
          subst he
          exact cyclesLe_execSkipByte b m m2 h
      ·
        rcases Nat.lt_or_ge op 39 with hsplit | hsplit
        ·
          have he : op = 38 := by omega
          subst he
          exact cyclesLe_execSkipByte b m m2 h
        ·
          have he : op = 39 := by omega
          subst he
          exact cyclesLe_execSkipByte b m m2 h
  ·
    rcases Nat.lt_or_ge op 44 with hsplit | hsplit
    ·
      rcases Nat.lt_or_ge op 42 with hsplit | hsplit
      ·
        rcases Nat.lt_or_ge op 41 with hsplit | hsplit
        ·
          have he : op = 40 := by omega
          subst he
          exact cyclesLe_execPLP b m m2 h
        ·
          have he : op = 41 := by omega
          subst he
          exact cyclesLe_execANDimm b m m2 h
      ·
        rcases Nat.lt_or_ge op 43 with hsplit | hsplit
        ·
          have he : op = 42 := by omega
          subst he
          exact cyclesLe_execROLA m m2 h
        ·
          have he : op = 43 := by omega
          subst he
          exact cyclesLe_execPLD b m m2 h
    ·
      rcases Nat.lt_or_ge op 46 with hsplit | hsplit
      ·
        rcases Nat.lt_or_ge op 45 with hsplit | hsplit
        ·
          have he : op = 44 := by omega
          subst he
          exact cyclesLe_execSkipWord b m m2 h
        ·
          have he : op = 45 := by omega
          subst he
          exact cyclesLe_execSkipWord b m m2 h
      ·
        rcases Nat.lt_or_ge op 47 with hsplit | hsplit
        ·
          have he : op = 46 := by omega
          subst he
          exact cyclesLe_execSkipWord b m m2 h
        ·
          have he : op = 47 := by omega
          subst he
          exact cyclesLe_execSkipLong b m m2 h

set_option maxHeartbeats 2000000 in
theorem execCyclesBlock3 {M : Type} (b : Bus M) (op : Nat) (m m2 : Machine M)
    (hlo : 48 ≤ op) (hhi : op < 64)
    (h : executeInstruction b op m = some m2) : m.cycles ≤ m2.cycles := by
  rcases Nat.lt_or_ge op 56 with hsplit | hsplit
  ·
    rcases Nat.lt_or_ge op 52 with hsplit | hsplit
    ·
      rcases Nat.lt_or_ge op 50 with hsplit | hsplit
      ·
        rcases Nat.lt_or_ge op 49 with hsplit | hsplit
        ·
          have he : op = 48 := by omega
          subst he
          exact cyclesLe_execBMI b m m2 h
        ·
          have he : op = 49 := by omega
          subst he
          injection h with h
          subst h
          omega
      ·
        rcases Nat.lt_or_ge op 51 with hsplit | hsplit
        ·
          have he : op = 50 := by omega
          subst he
          injection h with h
          subst h
          omega
        ·
          have he : op = 51 := by omega
          subst he
          injection h with h
          subst h
          omega
    ·
      rcases Nat.lt_or_ge op 54 with hsplit | hsplit
      ·
        rcases Nat.lt_or_ge op 53 with hsplit | hsplit
        ·
          have he : op = 52 := by omega
          subst he
          injection h with h
          subst h
          omega
        ·
          have he : op = 53 := by omega
          subst he
          injection h with h
          subst h
          omega
      ·
        rcases Nat.lt_or_ge op 55 with hsplit | hsplit
        ·
          have he : op = 54 := by omega
          subst he
          injection h with h
          subst h
          omega
        ·
          have he : op = 55 := by omega
          subst he
          injection h with h
          subst h
          omega
  ·
    rcases Nat.lt_or_ge op 60 with hsplit | hsplit
    ·
      rcases Nat.lt_or_ge op 58 with hsplit | hsplit
      ·
        rcases Nat.lt_or_ge op 57 with hsplit | hsplit
        ·
          have he : op = 56 := by omega
          subst he
          exact cyclesLe_execSEC m m2 h
        ·
          have he : op = 57 := by omega
          subst he
          injection h with h
          subst h
          omega
      ·
        rcases Nat.lt_or_ge op 59 with hsplit | hsplit
        ·
          have he : op = 58 := by omega
          subst he
          injection h with h
          subst h
          omega
        ·
          have he : op = 59 := by omega
          subst he
          injection h with h
          subst h
          omega
    ·
      rcases Nat.lt_or_ge op 62 with hsplit | hsplit
      ·
        rcases Nat.lt_or_ge op 61 with hsplit | hsplit
        ·
          have he : op = 60 := by omega
          subst he
          injection h with h
          subst h
          omega
        ·
          have he : op = 61 := by omega
          subst he
          injection h with h
          subst h
          omega
      ·
        rcases Nat.lt_or_ge op 63 with hsplit | hsplit
        ·
          have he : op = 62 := by omega
          subst he
          injection h with h
          subst h
          omega
        ·
          have he : op = 63 := by omega
          subst he
          injection h with h
          subst h
          omega

set_option maxHeartbeats 2000000 in
theorem execCyclesBlock4 {M : Type} (b : Bus M) (op : Nat) (m m2 : Machine M)
    (hlo : 64 ≤ op) (hhi : op < 80)
    (h : executeInstruction b op m = some m2) : m.cycles ≤ m2.cycles := by
  rcases Nat.lt_or_ge op 72 with hsplit | hsplit
  ·
    rcases Nat.lt_or_ge op 68 with hsplit | hsplit
    ·
      rcases Nat.lt_or_ge op 66 with hsplit | hsplit
      ·
        rcases Nat.lt_or_ge op 65 with hsplit | hsplit
        ·
          have he : op = 64 := by omega
          subst he
          exact cyclesLe_execRTI b m m2 h
        ·
          have he : op = 65 := by omega
          subst he
          exact cyclesLe_execSkipByte b m m2 h
      ·
        rcases Nat.lt_or_ge op 67 with hsplit | hsplit
        ·
          have he : op = 66 := by omega
          subst he
          exact cyclesLe_execSkipByte b m m2 h
        ·
          have he : op = 67 := by omega
          subst he
          exact cyclesLe_execSkipByte b m m2 h
    ·
      rcases Nat.lt_or_ge op 70 with hsplit | hsplit
      ·
        rcases Nat.lt_or_ge op 69 with hsplit | hsplit
        ·
          have he : op = 68 := by omega
          subst he
          exact cyclesLe_execSkipTwoBytes b m m2 h
        ·
          have he : op = 69 := by omega
          subst he
          exact cyclesLe_execSkipByte b m m2 h
      ·
        rcases Nat.lt_or_ge op 71 with hsplit | hsplit
        ·
          have he : op = 70 := by omega
          subst he
          exact cyclesLe_execSkipByte b m m2 h
        ·
          have he : op = 71 := by omega
          subst he
          exact cyclesLe_execSkipByte b m m2 h
  ·
    rcases Nat.lt_or_ge op 76 with hsplit | hsplit
    ·
      rcases Nat.lt_or_ge op 74 with hsplit | hsplit
      ·
        rcases Nat.lt_or_ge op 73 with hsplit | hsplit
        ·
          have he : op = 72 := by omega
          subst he
          exact cyclesLe_execPHA b m m2 h
        ·
          have he : op = 73 := by omega
          subst he
          exact cyclesLe_execSkipImmM b m m2 h
      ·
        rcases Nat.lt_or_ge op 75 with hsplit | hsplit
        ·
          have he : op = 74 := by omega
          subst he
          exact cyclesLe_execLSRA m m2 h
        ·
          have he : op = 75 := by omega
          subst he
          exact cyclesLe_execPHK b m m2 h
    ·
      rcases Nat.lt_or_ge op 78 with hsplit | hsplit
      ·
        rcases Nat.lt_or_ge op 77 with hsplit | hsplit
        ·
          have he : op = 76 := by omega
          subst he
          exact cyclesLe_execJMPabs b m m2 h
        ·
          have he : op = 77 := by omega
          subst he
          exact cyclesLe_execSkipWord b m m2 h
      ·
        rcases Nat.lt_or_ge op 79 with hsplit | hsplit
        ·
          have he : op = 78 := by omega
          subst he
          exact cyclesLe_execSkipWord b m m2 h
        ·
          have he : op = 79 := by omega
          subst he
          exact cyclesLe_execSkipLong b m m2 h

set_option maxHeartbeats 2000000 in
theorem execCyclesBlock5 {M : Type} (b : Bus M) (op : Nat) (m m2 : Machine M)
    (hlo : 80 ≤ op) (hhi : op < 96)
    (h : executeInstruction b op m = some m2) : m.cycles ≤ m2.cycles := by
  rcases Nat.lt_or_ge op 88 with hsplit | hsplit
  ·
    rcases Nat.lt_or_ge op 84 with hsplit | hsplit
    ·
      rcases Nat.lt_or_ge op 82 with hsplit | hsplit
      ·
        rcases Nat.lt_or_ge op 81 with hsplit | hsplit
        ·
          have he : op = 80 := by omega
          subst he
          exact cyclesLe_execBVC b m m2 h
        ·
          have he : op = 81 := by omega
          subst he
          injection h with h
          subst h
          omega
      ·
        rcases Nat.lt_or_ge op 83 with hsplit | hsplit
        ·
          have he : op = 82 := by omega
          subst he
          injection h with h
          subst h
          omega
        ·
          have he : op = 83 := by omega
          subst he
          injection h with h
          subst h
          omega
    ·
      rcases Nat.lt_or_ge op 86 with hsplit | hsplit
      ·
        rcases Nat.lt_or_ge op 85 with hsplit | hsplit
        ·
          have he : op = 84 := by omega
          subst he
          injection h with h
          subst h
          omega
        ·
          have he : op = 85 := by omega
          subst he
          injection h with h
          subst h
          omega
      ·
        rcases Nat.lt_or_ge op 87 with hsplit | hsplit
        ·
          have he : op = 86 := by omega
          subst he
          injection h with h
          subst h
          omega
        ·
          have he : op = 87 := by omega
          subst he
          injection h with h
          subst h
          omega
  ·
    rcases Nat.lt_or_ge op 92 with hsplit | hsplit
    ·
      rcases Nat.lt_or_ge op 90 with hsplit | hsplit
      ·
        rcases Nat.lt_or_ge op 89 with hsplit | hsplit
        ·
          have he : op = 88 := by omega
          subst he
          exact cyclesLe_execCLI m m2 h
        ·
          have he : op = 89 := by omega
          subst he
          injection h with h
          subst h
          omega
      ·
        rcases Nat.lt_or_ge op 91 with hsplit | hsplit
        ·
          have he : op = 90 := by omega
          subst he
          exact cyclesLe_execPHY b m m2 h
        ·
          have he : op = 91 := by omega
          subst he
          exact cyclesLe_execTCD m m2 h
    ·
      rcases Nat.lt_or_ge op 94 with hsplit | hsplit
      ·
        rcases Nat.lt_or_ge op 93 with hsplit | hsplit
        ·
          have he : op = 92 := by omega
          subst he
          exact cyclesLe_execJMPlong b m m2 h
        ·
          have he : op = 93 := by omega
          subst he
          exact cyclesLe_execSkipWord b m m2 h
      ·
        rcases Nat.lt_or_ge op 95 with hsplit | hsplit
        ·
          have he : op = 94 := by omega
          subst he
          exact cyclesLe_execSkipWord b m m2 h
        ·
          have he : op = 95 := by omega
          subst he
          exact cyclesLe_execSkipLong b m m2 h

set_option maxHeartbeats 2000000 in
theorem execCyclesBlock6 {M : Type} (b : Bus M) (op : Nat) (m m2 : Machine M)
    (hlo : 96 ≤ op) (hhi : op < 112)
    (h : executeInstruction b op m = some m2) : m.cycles ≤ m2.cycles := by
  rcases Nat.lt_or_ge op 104 with hsplit | hsplit
  ·
    rcases Nat.lt_or_ge op 100 with hsplit | hsplit
    ·
      rcases Nat.lt_or_ge op 98 with hsplit | hsplit
      ·
        rcases Nat.lt_or_ge op 97 with hsplit | hsplit
        ·
          have he : op = 96 := by omega
          subst he
          exact cyclesLe_execRTS b m m2 h
        ·
          have he : op = 97 := by omega
          subst he
          exact cyclesLe_execSkipByte b m m2 h
      ·
        rcases Nat.lt_or_ge op 99 with hsplit | hsplit
        ·
          have he : op = 98 := by omega
          subst he
          exact cyclesLe_execSkipWord b m m2 h
        ·
          have he : op = 99 := by omega
          subst he
          exact cyclesLe_execSkipByte b m m2 h
    ·
      rcases Nat.lt_or_ge op 102 with hsplit | hsplit
      ·
        rcases Nat.lt_or_ge op 101 with hsplit | hsplit
        ·
          have he : op = 100 := by omega
          subst he
          exact cyclesLe_execSTZdp b m m2 h
        ·
          have he : op = 101 := by omega
          subst he
          exact cyclesLe_execSkipByte b m m2 h
      ·
        rcases Nat.lt_or_ge op 103 with hsplit | hsplit
        ·
          have he : op = 102 := by omega
          subst he
          exact cyclesLe_execSkipByte b m m2 h
        ·
          have he : op = 103 := by omega
          subst he
          exact cyclesLe_execSkipByte b m m2 h
  ·
    rcases Nat.lt_or_ge op 108 with hsplit | hsplit
    ·
      rcases Nat.lt_or_ge op 106 with hsplit | hsplit
      ·
        rcases Nat.lt_or_ge op 105 with hsplit | hsplit
        ·
          have he : op = 104 := by omega
          subst he
          exact cyclesLe_execPLA b m m2 h
        ·
          have he : op = 105 := by omega
          subst he
          exact cyclesLe_execADCimm b m m2 h
      ·
        rcases Nat.lt_or_ge op 107 with hsplit | hsplit
        ·
          have he : op = 106 := by omega
          subst he
          exact cyclesLe_execRORA m m2 h
        ·
          have he : op = 107 := by omega
          subst he
          exact cyclesLe_execRTL b m m2 h
    ·
      rcases Nat.lt_or_ge op 110 with hsplit | hsplit
      ·
        rcases Nat.lt_or_ge op 109 with hsplit | hsplit
        ·
          have he : op = 108 := by omega
          subst he
          exact cyclesLe_execSkipWord b m m2 h
        ·
          have he : op = 109 := by omega
          subst he
          exact cyclesLe_execSkipWord b m m2 h
      ·
        rcases Nat.lt_or_ge op 111 with hsplit | hsplit
        ·
          have he : op = 110 := by omega
          subst he
          exact cyclesLe_execSkipWord b m m2 h
        ·
          have he : op = 111 := by omega
          subst he
          exact cyclesLe_execSkipLong b m m2 h

set_option maxHeartbeats 2000000 in
theorem execCyclesBlock7 {M : Type} (b : Bus M) (op : Nat) (m m2 : Machine M)
    (hlo : 112 ≤ op) (hhi : op < 128)
    (h : executeInstruction b op m = some m2) : m.cycles ≤ m2.cycles := by
  rcases Nat.lt_or_ge op 120 with hsplit | hsplit
  ·
    rcases Nat.lt_or_ge op 116 with hsplit | hsplit
    ·
      rcases Nat.lt_or_ge op 114 with hsplit | hsplit
      ·
        rcases Nat.lt_or_ge op 113 with hsplit | hsplit
        ·
          have he : op = 112 := by omega
          subst he
          exact cyclesLe_execBVS b m m2 h
        ·
          have he : op = 113 := by omega
          subst he
          injection h with h
          subst h
          omega
      ·
        rcases Nat.lt_or_ge op 115 with hsplit | hsplit
        ·
          have he : op = 114 := by omega
          subst he
          injection h with h
          subst h
          omega
        ·
          have he : op = 115 := by omega
          subst he
          injection h with h
          subst h
          omega
    ·
      rcases Nat.lt_or_ge op 118 with hsplit | hsplit
      ·
        rcases Nat.lt_or_ge op 117 with hsplit | hsplit
        ·
          have he : op = 116 := by omega
          subst he
          injection h with h
          subst h
          omega
        ·
          have he : op = 117 := by omega
          subst he
          injection h with h
          subst h
          omega
      ·
        rcases Nat.lt_or_ge op 119 with hsplit | hsplit
        ·
          have he : op = 118 := by omega
          subst he
          injection h with h
          subst h
          omega
        ·
          have he : op = 119 := by omega
          subst he
          injection h with h
          subst h
          omega
  ·
    rcases Nat.lt_or_ge op 124 with hsplit | hsplit
    ·
      rcases Nat.lt_or_ge op 122 with hsplit | hsplit
      ·
        rcases Nat.lt_or_ge op 121 with hsplit | hsplit
        ·
          have he : op = 120 := by omega
          subst he
          exact cyclesLe_execSEI m m2 h
        ·
          have he : op = 121 := by omega
          subst he
          injection h with h
          subst h
          omega
      ·
        rcases Nat.lt_or_ge op 123 with hsplit | hsplit
        ·
          have he : op = 122 := by omega
          subst he
          exact cyclesLe_execPLY b m m2 h
        ·
          have he : op = 123 := by omega
          subst he
          exact cyclesLe_execTDC m m2 h
    ·
      rcases Nat.lt_or_ge op 126 with hsplit | hsplit
      ·
        rcases Nat.lt_or_ge op 125 with hsplit | hsplit
        ·
          have he : op = 124 := by omega
          subst he
          exact cyclesLe_execSkipWord b m m2 h
        ·
          have he : op = 125 := by omega
          subst he
          exact cyclesLe_execSkipWord b m m2 h
      ·
        rcases Nat.lt_or_ge op 127 with hsplit | hsplit
        ·
          have he : op = 126 := by omega
          subst he
          exact cyclesLe_execSkipWord b m m2 h
        ·
          have he : op = 127 := by omega
          subst he
          exact cyclesLe_execSkipLong b m m2 h

set_option maxHeartbeats 2000000 in
theorem execCyclesBlock8 {M : Type} (b : Bus M) (op : Nat) (m m2 : Machine M)
    (hlo : 128 ≤ op) (hhi : op < 144)
    (h : executeInstruction b op m = some m2) : m.cycles ≤ m2.cycles := by
  rcases Nat.lt_or_ge op 136 with hsplit | hsplit
  ·
    rcases Nat.lt_or_ge op 132 with hsplit | hsplit
    ·
      rcases Nat.lt_or_ge op 130 with hsplit | hsplit
      ·
        rcases Nat.lt_or_ge op 129 with hsplit | hsplit
        ·
          have he : op = 128 := by omega
          subst he
          exact cyclesLe_execBRA b m m2 h
        ·
          have he : op = 129 := by omega
          subst he
          exact cyclesLe_execSkipByte b m m2 h
      ·
        rcases Nat.lt_or_ge op 131 with hsplit | hsplit
        ·
          have he : op = 130 := by omega
          subst he
          exact cyclesLe_execSkipWord b m m2 h
        ·
          have he : op = 131 := by omega
          subst he
          exact cyclesLe_execSkipByte b m m2 h
    ·
      rcases Nat.lt_or_ge op 134 with hsplit | hsplit
      ·
        rcases Nat.lt_or_ge op 133 with hsplit | hsplit
        ·
          have he : op = 132 := by omega
          subst he
          exact cyclesLe_execSkipByte b m m2 h
        ·
          have he : op = 133 := by omega
          subst he
          exact cyclesLe_execSTAdp b m m2 h
      ·
        rcases Nat.lt_or_ge op 135 with hsplit | hsplit
        ·
          have he : op = 134 := by omega
          subst he
          exact cyclesLe_execSkipByte b m m2 h
        ·
          have he : op = 135 := by omega
          subst he
          exact cyclesLe_execSkipByte b m m2 h
  ·
    rcases Nat.lt_or_ge op 140 with hsplit | hsplit
    ·
      rcases Nat.lt_or_ge op 138 with hsplit | hsplit
      ·
        rcases Nat.lt_or_ge op 137 with hsplit | hsplit
        ·
          have he : op = 136 := by omega
          subst he
          exact cyclesLe_execDEY m m2 h
        ·
          have he : op = 137 := by omega
          subst he
          exact cyclesLe_execSkipImmM b m m2 h
      ·
        rcases Nat.lt_or_ge op 139 with hsplit | hsplit
        ·
          have he : op = 138 := by omega
          subst he
          exact cyclesLe_execTXA m m2 h
        ·
          have he : op = 139 := by omega
          subst he
          exact cyclesLe_execPHB b m m2 h
    ·
      rcases Nat.lt_or_ge op 142 with hsplit | hsplit
      ·
        rcases Nat.lt_or_ge op 141 with hsplit | hsplit
        ·
          have he : op = 140 := by omega
          subst he
          exact cyclesLe_execSkipWord b m m2 h
        ·
          have he : op = 141 := by omega
          subst he
          exact cyclesLe_execSTAabs b m m2 h
      ·
        rcases Nat.lt_or_ge op 143 with hsplit | hsplit
        ·
          have he : op = 142 := by omega
          subst he
          exact cyclesLe_execSkipWord b m m2 h
        ·
          have he : op = 143 := by omega
          subst he
          exact cyclesLe_execSTAlong b m m2 h

set_option maxHeartbeats 2000000 in
theorem execCyclesBlock9 {M : Type} (b : Bus M) (op : Nat) (m m2 : Machine M)
    (hlo : 144 ≤ op) (hhi : op < 160)
    (h : executeInstruction b op m = some m2) : m.cycles ≤ m2.cycles := by
  rcases Nat.lt_or_ge op 152 with hsplit | hsplit
  ·
    rcases Nat.lt_or_ge op 148 with hsplit | hsplit
    ·
      rcases Nat.lt_or_ge op 146 with hsplit | hsplit
      ·
        rcases Nat.lt_or_ge op 145 with hsplit | hsplit
        ·
          have he : op = 144 := by omega
          subst he
          exact cyclesLe_execBCC b m m2 h
        ·
          have he : op = 145 := by omega
          subst he
          exact cyclesLe_execSkipByte b m m2 h
      ·
        rcases Nat.lt_or_ge op 147 with hsplit | hsplit
        ·
          have he : op = 146 := by omega
          subst he
          exact cyclesLe_execSkipByte b m m2 h
        ·
          have he : op = 147 := by omega
          subst he
          exact cyclesLe_execSkipByte b m m2 h
    ·
      rcases Nat.lt_or_ge op 150 with hsplit | hsplit
      ·
        rcases Nat.lt_or_ge op 149 with hsplit | hsplit
        ·
          have he : op = 148 := by omega
          subst he
          exact cyclesLe_execSkipByte b m m2 h
        ·
          have he : op = 149 := by omega
          subst he
          exact cyclesLe_execSkipByte b m m2 h
      ·
        rcases Nat.lt_or_ge op 151 with hsplit | hsplit
        ·
          have he : op = 150 := by omega
          subst he
          exact cyclesLe_execSkipByte b m m2 h
        ·
          have he : op = 151 := by omega
          subst he
          exact cyclesLe_execSkipByte b m m2 h
  ·
    rcases Nat.lt_or_ge op 156 with hsplit | hsplit
    ·
      rcases Nat.lt_or_ge op 154 with hsplit | hsplit
      ·
        rcases Nat.lt_or_ge op 153 with hsplit | hsplit
        ·
          have he : op = 152 := by omega
          subst he
          exact cyclesLe_execTYA m m2 h
        ·
          have he : op = 153 := by omega
          subst he
          exact cyclesLe_execSkipWord b m m2 h
      ·
        rcases Nat.lt_or_ge op 155 with hsplit | hsplit
        ·
          have he : op = 154 := by omega
          subst he
          exact cyclesLe_execTXS m m2 h
        ·
          have he : op = 155 := by omega
          subst he
          exact cyclesLe_execTXY m m2 h
    ·
      rcases Nat.lt_or_ge op 158 with hsplit | hsplit
      ·
        rcases Nat.lt_or_ge op 157 with hsplit | hsplit
        ·
          have he : op = 156 := by omega
          subst he
          exact cyclesLe_execSTZabs b m m2 h
        ·
          have he : op = 157 := by omega
          subst he
          exact cyclesLe_execSTAabsX b m m2 h
      ·
        rcases Nat.lt_or_ge op 159 with hsplit | hsplit
        ·
          have he : op = 158 := by omega
          subst he
          exact cyclesLe_execSkipWord b m m2 h
        ·
          have he : op = 159 := by omega
          subst he
          exact cyclesLe_execSkipLong b m m2 h

set_option maxHeartbeats 2000000 in
theorem execCyclesBlock10 {M : Type} (b : Bus M) (op : Nat) (m m2 : Machine M)
    (hlo : 160 ≤ op) (hhi : op < 176)
    (h : executeInstruction b op m = some m2) : m.cycles ≤ m2.cycles := by
  rcases Nat.lt_or_ge op 168 with hsplit | hsplit
  ·
    rcases Nat.lt_or_ge op 164 with hsplit | hsplit
    ·
      rcases Nat.lt_or_ge op 162 with hsplit | hsplit
      ·
        rcases Nat.lt_or_ge op 161 with hsplit | hsplit
        ·
          have he : op = 160 := by omega
          subst he
          exact cyclesLe_execLDYimm b m m2 h
        ·
          have he : op = 161 := by omega
          subst he
          exact cyclesLe_execSkipByte b m m2 h
      ·
        rcases Nat.lt_or_ge op 163 with hsplit | hsplit
        ·
          have he : op = 162 := by omega
          subst he
          exact cyclesLe_execLDXimm b m m2 h
        ·
          have he : op = 163 := by omega
          subst he
          exact cyclesLe_execSkipByte b m m2 h
    ·
      rcases Nat.lt_or_ge op 166 with hsplit | hsplit
      ·
        rcases Nat.lt_or_ge op 165 with hsplit | hsplit
        ·
          have he : op = 164 := by omega
          subst he
          exact cyclesLe_execSkipByte b m m2 h
        ·
          have he : op = 165 := by omega
          subst he
          exact cyclesLe_execLDAdp b m m2 h
      ·
        rcases Nat.lt_or_ge op 167 with hsplit | hsplit
        ·
          have he : op = 166 := by omega
          subst he
          exact cyclesLe_execSkipByte b m m2 h
        ·
          have he : op = 167 := by omega
          subst he
          exact cyclesLe_execSkipByte b m m2 h
  ·
    rcases Nat.lt_or_ge op 172 with hsplit | hsplit
    ·
      rcases Nat.lt_or_ge op 170 with hsplit | hsplit
      ·
        rcases Nat.lt_or_ge op 169 with hsplit | hsplit
        ·
          have he : op = 168 := by omega
          subst he
          exact cyclesLe_execTAY m m2 h
        ·
          have he : op = 169 := by omega
          subst he
          exact cyclesLe_execLDAimm b m m2 h
      ·
        rcases Nat.lt_or_ge op 171 with hsplit | hsplit
        ·
          have he : op = 170 := by omega
          subst he
          exact cyclesLe_execTAX m m2 h
        ·
          have he : op = 171 := by omega
          subst he
          exact cyclesLe_execPLB b m m2 h
    ·
      rcases Nat.lt_or_ge op 174 with hsplit | hsplit
      ·
        rcases Nat.lt_or_ge op 173 with hsplit | hsplit
        ·
          have he : op = 172 := by omega
          subst he
          exact cyclesLe_execSkipWord b m m2 h
        ·
          have he : op = 173 := by omega
          subst he
          exact cyclesLe_execSkipWord b m m2 h
      ·
        rcases Nat.lt_or_ge op 175 with hsplit | hsplit
        ·
          have he : op = 174 := by omega
          subst he
          exact cyclesLe_execSkipWord b m m2 h
        ·
          have he : op = 175 := by omega
          subst he
          exact cyclesLe_execSkipLong b m m2 h

set_option maxHeartbeats 2000000 in
theorem execCyclesBlock11 {M : Type} (b : Bus M) (op : Nat) (m m2 : Machine M)
    (hlo : 176 ≤ op) (hhi : op < 192)
    (h : executeInstruction b op m = some m2) : m.cycles ≤ m2.cycles := by
  rcases Nat.lt_or_ge op 184 with hsplit | hsplit
  ·
    rcases Nat.lt_or_ge op 180 with hsplit | hsplit
    ·
      rcases Nat.lt_or_ge op 178 with hsplit | hsplit
      ·
        rcases Nat.lt_or_ge op 177 with hsplit | hsplit
        ·
          have he : op = 176 := by omega
          subst he
          exact cyclesLe_execBCS b m m2 h
        ·
          have he : op = 177 := by omega
          subst he
          exact cyclesLe_execSkipByte b m m2 h
      ·
        rcases Nat.lt_or_ge op 179 with hsplit | hsplit
        ·
          have he : op = 178 := by omega
          subst he
          exact cyclesLe_execSkipByte b m m2 h
        ·
          have he : op = 179 := by omega
          subst he
          exact cyclesLe_execSkipByte b m m2 h
    ·
      rcases Nat.lt_or_ge op 182 with hsplit | hsplit
      ·
        rcases Nat.lt_or_ge op 181 with hsplit | hsplit
        ·
          have he : op = 180 := by omega
          subst he
          exact cyclesLe_execSkipByte b m m2 h
        ·
          have he : op = 181 := by omega
          subst he
          exact cyclesLe_execSkipByte b m m2 h
      ·
        rcases Nat.lt_or_ge op 183 with hsplit | hsplit
        ·
          have he : op = 182 := by omega
          subst he
          exact cyclesLe_execSkipByte b m m2 h
        ·
          have he : op = 183 := by omega
          subst he
          exact cyclesLe_execSkipByte b m m2 h
  ·
    rcases Nat.lt_or_ge op 188 with hsplit | hsplit
    ·
      rcases Nat.lt_or_ge op 186 with hsplit | hsplit
      ·
        rcases Nat.lt_or_ge op 185 with hsplit | hsplit
        ·
          have he : op = 184 := by omega
          subst he
          exact cyclesLe_execCLV m m2 h
        ·
          have he : op = 185 := by omega
          subst he
          exact cyclesLe_execSkipWord b m m2 h
      ·
        rcases Nat.lt_or_ge op 187 with hsplit | hsplit
        ·
          have he : op = 186 := by omega
          subst he
          exact cyclesLe_execTSX m m2 h
        ·
          have he : op = 187 := by omega
          subst he
          exact cyclesLe_execTYX m m2 h
    ·
      rcases Nat.lt_or_ge op 190 with hsplit | hsplit
      ·
        rcases Nat.lt_or_ge op 189 with hsplit | hsplit
        ·
          have he : op = 188 := by omega
          subst he
          exact cyclesLe_execSkipWord b m m2 h
        ·
          have he : op = 189 := by omega
          subst he
          exact cyclesLe_execSkipWord b m m2 h
      ·
        rcases Nat.lt_or_ge op 191 with hsplit | hsplit
        ·
          have he : op = 190 := by omega
          subst he
          exact cyclesLe_execSkipWord b m m2 h
        ·
          have he : op = 191 := by omega
          subst he
          exact cyclesLe_execSkipLong b m m2 h

set_option maxHeartbeats 2000000 in
theorem execCyclesBlock12 {M : Type} (b : Bus M) (op : Nat) (m m2 : Machine M)
    (hlo : 192 ≤ op) (hhi : op < 208)
    (h : executeInstruction b op m = some m2) : m.cycles ≤ m2.cycles := by
  rcases Nat.lt_or_ge op 200 with hsplit | hsplit
  ·
    rcases Nat.lt_or_ge op 196 with hsplit | hsplit
    ·
      rcases Nat.lt_or_ge op 194 with hsplit | hsplit
      ·
        rcases Nat.lt_or_ge op 193 with hsplit | hsplit
        ·
          have he : op = 192 := by omega
          subst he
          exact cyclesLe_execSkipImmX b m m2 h
        ·
          have he : op = 193 := by omega
          subst he
          exact cyclesLe_execSkipByte b m m2 h
      ·
        rcases Nat.lt_or_ge op 195 with hsplit | hsplit
        ·
          have he : op = 194 := by omega
          subst he
          exact cyclesLe_execREP b m m2 h
        ·
          have he : op = 195 := by omega
          subst he
          exact cyclesLe_execSkipByte b m m2 h
    ·
      rcases Nat.lt_or_ge op 198 with hsplit | hsplit
      ·
        rcases Nat.lt_or_ge op 197 with hsplit | hsplit
        ·
          have he : op = 196 := by omega
          subst he
          exact cyclesLe_execSkipByte b m m2 h
        ·
          have he : op = 197 := by omega
          subst he
          exact cyclesLe_execSkipByte b m m2 h
      ·
        rcases Nat.lt_or_ge op 199 with hsplit | hsplit
        ·
          have he : op = 198 := by omega
          subst he
          exact cyclesLe_execSkipByte b m m2 h
        ·
          have he : op = 199 := by omega
          subst he
          exact cyclesLe_execSkipByte b m m2 h
  ·
    rcases Nat.lt_or_ge op 204 with hsplit | hsplit
    ·
      rcases Nat.lt_or_ge op 202 with hsplit | hsplit
      ·
        rcases Nat.lt_or_ge op 201 with hsplit | hsplit
        ·
          have he : op = 200 := by omega
          subst he
          exact cyclesLe_execINY m m2 h
        ·
          have he : op = 201 := by omega
          subst he
          exact cyclesLe_execSkipImmM b m m2 h
      ·
        rcases Nat.lt_or_ge op 203 with hsplit | hsplit
        ·
          have he : op = 202 := by omega
          subst he
          exact cyclesLe_execDEX m m2 h
        ·
          have he : op = 203 := by omega
          subst he
          injection h with h
          subst h
          omega
    ·
      rcases Nat.lt_or_ge op 206 with hsplit | hsplit
      ·
        rcases Nat.lt_or_ge op 205 with hsplit | hsplit
        ·
          have he : op = 204 := by omega
          subst he
          exact cyclesLe_execSkipWord b m m2 h
        ·
          have he : op = 205 := by omega
          subst he
          exact cyclesLe_execSkipWord b m m2 h
      ·
        rcases Nat.lt_or_ge op 207 with hsplit | hsplit
        ·
          have he : op = 206 := by omega
          subst he
          exact cyclesLe_execSkipWord b m m2 h
        ·
          have he : op = 207 := by omega
          subst he
          exact cyclesLe_execSkipLong b m m2 h

set_option maxHeartbeats 2000000 in
theorem execCyclesBlock13 {M : Type} (b : Bus M) (op : Nat) (m m2 : Machine M)
    (hlo : 208 ≤ op) (hhi : op < 224)
    (h : executeInstruction b op m = some m2) : m.cycles ≤ m2.cycles := by
  rcases Nat.lt_or_ge op 216 with hsplit | hsplit
  ·
    rcases Nat.lt_or_ge op 212 with hsplit | hsplit
    ·
      rcases Nat.lt_or_ge op 210 with hsplit | hsplit
      ·
        rcases Nat.lt_or_ge op 209 with hsplit | hsplit
        ·
          have he : op = 208 := by omega
          subst he
          exact cyclesLe_execBNE b m m2 h
        ·
          have he : op = 209 := by omega
          subst he
          exact cyclesLe_execSkipByte b m m2 h
      ·
        rcases Nat.lt_or_ge op 211 with hsplit | hsplit
        ·
          have he : op = 210 := by omega
          subst he
          exact cyclesLe_execSkipByte b m m2 h
        ·
          have he : op = 211 := by omega
          subst he
          exact cyclesLe_execSkipByte b m m2 h
    ·
      rcases Nat.lt_or_ge op 214 with hsplit | hsplit
      ·
        rcases Nat.lt_or_ge op 213 with hsplit | hsplit
        ·
          have he : op = 212 := by omega
          subst he
          exact cyclesLe_execSkipByte b m m2 h
        ·
          have he : op = 213 := by omega
          subst he
          exact cyclesLe_execSkipByte b m m2 h
      ·
        rcases Nat.lt_or_ge op 215 with hsplit | hsplit
        ·
          have he : op = 214 := by omega
          subst he
          exact cyclesLe_execSkipByte b m m2 h
        ·
          have he : op = 215 := by omega
          subst he
          exact cyclesLe_execSkipByte b m m2 h
  ·
    rcases Nat.lt_or_ge op 220 with hsplit | hsplit
    ·
      rcases Nat.lt_or_ge op 218 with hsplit | hsplit
      ·
        rcases Nat.lt_or_ge op 217 with hsplit | hsplit
        ·
          have he : op = 216 := by omega
          subst he
          exact cyclesLe_execCLD m m2 h
        ·
          have he : op = 217 := by omega
          subst he
          exact cyclesLe_execSkipWord b m m2 h
      ·
        rcases Nat.lt_or_ge op 219 with hsplit | hsplit
        ·
          have he : op = 218 := by omega
          subst he
          exact cyclesLe_execPHX b m m2 h
        ·
          have he : op = 219 := by omega
          subst he
          injection h with h
          subst h
          omega
    ·
      rcases Nat.lt_or_ge op 222 with hsplit | hsplit
      ·
        rcases Nat.lt_or_ge op 221 with hsplit | hsplit
        ·
          have he : op = 220 := by omega
          subst he
          exact cyclesLe_execSkipWord b m m2 h
        ·
          have he : op = 221 := by omega
          subst he
          exact cyclesLe_execSkipWord b m m2 h
      ·
        rcases Nat.lt_or_ge op 223 with hsplit | hsplit
        ·
          have he : op = 222 := by omega
          subst he
          exact cyclesLe_execSkipWord b m m2 h
        ·
          have he : op = 223 := by omega
          subst he
          exact cyclesLe_execSkipLong b m m2 h

set_option maxHeartbeats 2000000 in
theorem execCyclesBlock14 {M : Type} (b : Bus M) (op : Nat) (m m2 : Machine M)
    (hlo : 224 ≤ op) (hhi : op < 240)
    (h : executeInstruction b op m = some m2) : m.cycles ≤ m2.cycles := by
  rcases Nat.lt_or_ge op 232 with hsplit | hsplit
  ·
    rcases Nat.lt_or_ge op 228 with hsplit | hsplit
    ·
      rcases Nat.lt_or_ge op 226 with hsplit | hsplit
      ·
        rcases Nat.lt_or_ge op 225 with hsplit | hsplit
        ·
          have he : op = 224 := by omega
          subst he
          exact cyclesLe_execSkipImmX b m m2 h
        ·
          have he : op = 225 := by omega
          subst he
          exact cyclesLe_execSkipByte b m m2 h
      ·
        rcases Nat.lt_or_ge op 227 with hsplit | hsplit
        ·
          have he : op = 226 := by omega
          subst he
          exact cyclesLe_execSEP b m m2 h
        ·
          have he : op = 227 := by omega
          subst he
          exact cyclesLe_execSkipByte b m m2 h
    ·
      rcases Nat.lt_or_ge op 230 with hsplit | hsplit
      ·
        rcases Nat.lt_or_ge op 229 with hsplit | hsplit
        ·
          have he : op = 228 := by omega
          subst he
          exact cyclesLe_execSkipByte b m m2 h
        ·
          have he : op = 229 := by omega
          subst he
          exact cyclesLe_execSkipByte b m m2 h
      ·
        rcases Nat.lt_or_ge op 231 with hsplit | hsplit
        ·
          have he : op = 230 := by omega
          subst he
          exact cyclesLe_execSkipByte b m m2 h
        ·
          have he : op = 231 := by omega
          subst he
          exact cyclesLe_execSkipByte b m m2 h
  ·
    rcases Nat.lt_or_ge op 236 with hsplit | hsplit
    ·
      rcases Nat.lt_or_ge op 234 with hsplit | hsplit
      ·
        rcases Nat.lt_or_ge op 233 with hsplit | hsplit
        ·
          have he : op = 232 := by omega
          subst he
          exact cyclesLe_execINX m m2 h
        ·
          have he : op = 233 := by omega
          subst he
          exact cyclesLe_execSkipImmM b m m2 h
      ·
        rcases Nat.lt_or_ge op 235 with hsplit | hsplit
        ·
          have he : op = 234 := by omega
          subst he
          injection h with h
          subst h
          omega
        ·
          have he : op = 235 := by omega
          subst he
          exact cyclesLe_execXBA m m2 h
    ·
      rcases Nat.lt_or_ge op 238 with hsplit | hsplit
      ·
        rcases Nat.lt_or_ge op 237 with hsplit | hsplit
        ·
          have he : op = 236 := by omega
          subst he
          exact cyclesLe_execSkipWord b m m2 h
        ·
          have he : op = 237 := by omega
          subst he
          exact cyclesLe_execSkipWord b m m2 h
      ·
        rcases Nat.lt_or_ge op 239 with hsplit | hsplit
        ·
          have he : op = 238 := by omega
          subst he
          exact cyclesLe_execSkipWord b m m2 h
        ·
          have he : op = 239 := by omega
          subst he
          exact cyclesLe_execSkipLong b m m2 h

set_option maxHeartbeats 2000000 in
theorem execCyclesBlock15 {M : Type} (b : Bus M) (op : Nat) (m m2 : Machine M)
    (hlo : 240 ≤ op) (hhi : op < 256)
    (h : executeInstruction b op m = some m2) : m.cycles ≤ m2.cycles := by
  rcases Nat.lt_or_ge op 248 with hsplit | hsplit
  ·
    rcases Nat.lt_or_ge op 244 with hsplit | hsplit
    ·
      rcases Nat.lt_or_ge op 242 with hsplit | hsplit
      ·
        rcases Nat.lt_or_ge op 241 with hsplit | hsplit
        ·
          have he : op = 240 := by omega
          subst he
          exact cyclesLe_execBEQ b m m2 h
        ·
          have he : op = 241 := by omega
          subst he
          exact cyclesLe_execSkipByte b m m2 h
      ·
        rcases Nat.lt_or_ge op 243 with hsplit | hsplit
        ·
          have he : op = 242 := by omega
          subst he
          exact cyclesLe_execSkipByte b m m2 h
        ·
          have he : op = 243 := by omega
          subst he
          exact cyclesLe_execSkipByte b m m2 h
    ·
      rcases Nat.lt_or_ge op 246 with hsplit | hsplit
      ·
        rcases Nat.lt_or_ge op 245 with hsplit | hsplit
        ·
          have he : op = 244 := by omega
          subst he
          exact cyclesLe_execSkipWord b m m2 h
        ·
          have he : op = 245 := by omega
          subst he
          exact cyclesLe_execSkipByte b m m2 h
      ·
        rcases Nat.lt_or_ge op 247 with hsplit | hsplit
        ·
          have he : op = 246 := by omega
          subst he
          exact cyclesLe_execSkipByte b m m2 h
        ·
          have he : op = 247 := by omega
          subst he
          exact cyclesLe_execSkipByte b m m2 h
  ·
    rcases Nat.lt_or_ge op 252 with hsplit | hsplit
    ·
      rcases Nat.lt_or_ge op 250 with hsplit | hsplit
      ·
        rcases Nat.lt_or_ge op 249 with hsplit | hsplit
        ·
          have he : op = 248 := by omega
          subst he
          exact cyclesLe_execSED m m2 h
        ·
          have he : op = 249 := by omega
          subst he
          exact cyclesLe_execSkipWord b m m2 h
      ·
        rcases Nat.lt_or_ge op 251 with hsplit | hsplit
        ·
          have he : op = 250 := by omega
          subst he
          exact cyclesLe_execPLX b m m2 h
        ·
          have he : op = 251 := by omega
          subst he
          exact cyclesLe_execXCE m m2 h
    ·
      rcases Nat.lt_or_ge op 254 with hsplit | hsplit
      ·
        rcases Nat.lt_or_ge op 253 with hsplit | hsplit
        ·
          have he : op = 252 := by omega
          subst he
          exact cyclesLe_execSkipWord b m m2 h
        ·
          have he : op = 253 := by omega
          subst he
          exact cyclesLe_execSkipWord b m m2 h
      ·
        rcases Nat.lt_or_ge op 255 with hsplit | hsplit
        ·
          have he : op = 254 := by omega
          subst he
          exact cyclesLe_execSkipWord b m m2 h
        ·
          have he : op = 255 := by omega
          subst he
          exact cyclesLe_execSkipLong b m m2 h

/-- No opcode handler decreases the cycle counter (bus reads deliver
bytes, so fetched opcodes are below 256). -/
theorem executeInstruction_cycles_le {M : Type} (b : Bus M) (op : Nat) (m m2 : Machine M)
    (hop : op < 256)
    (h : executeInstruction b op m = some m2) : m.cycles ≤ m2.cycles := by
  rcases Nat.lt_or_ge op 128 with hsplit | hsplit
  ·
    rcases Nat.lt_or_ge op 64 with hsplit | hsplit
    ·
      rcases Nat.lt_or_ge op 32 with hsplit | hsplit
      ·
        rcases Nat.lt_or_ge op 16 with hsplit | hsplit
        ·
          exact execCyclesBlock0 b op m m2 (by omega) (by omega) h
        ·
          exact execCyclesBlock1 b op m m2 (by omega) (by omega) h
      ·
        rcases Nat.lt_or_ge op 48 with hsplit | hsplit
        ·
          exact execCyclesBlock2 b op m m2 (by omega) (by omega) h
        ·
          exact execCyclesBlock3 b op m m2 (by omega) (by omega) h
    ·
      rcases Nat.lt_or_ge op 96 with hsplit | hsplit
      ·
        rcases Nat.lt_or_ge op 80 with hsplit | hsplit
        ·
          exact execCyclesBlock4 b op m m2 (by omega) (by omega) h
        ·
          exact execCyclesBlock5 b op m m2 (by omega) (by omega) h
      ·
        rcases Nat.lt_or_ge op 112 with hsplit | hsplit
        ·
          exact execCyclesBlock6 b op m m2 (by omega) (by omega) h
        ·
          exact execCyclesBlock7 b op m m2 (by omega) (by omega) h
  ·
    rcases Nat.lt_or_ge op 192 with hsplit | hsplit
    ·
      rcases Nat.lt_or_ge op 160 with hsplit | hsplit
      ·
        rcases Nat.lt_or_ge op 144 with hsplit | hsplit
        ·
          exact execCyclesBlock8 b op m m2 (by omega) (by omega) h
        ·
          exact execCyclesBlock9 b op m m2 (by omega) (by omega) h
      ·
        rcases Nat.lt_or_ge op 176 with hsplit | hsplit
        ·
          exact execCyclesBlock10 b op m m2 (by omega) (by omega) h
        ·
          exact execCyclesBlock11 b op m m2 (by omega) (by omega) h
    ·
      rcases Nat.lt_or_ge op 224 with hsplit | hsplit
      ·
        rcases Nat.lt_or_ge op 208 with hsplit | hsplit
        ·
          exact execCyclesBlock12 b op m m2 (by omega) (by omega) h
        ·
          exact execCyclesBlock13 b op m m2 (by omega) (by omega) h
      ·
        rcases Nat.lt_or_ge op 240 with hsplit | hsplit
        ·
          exact execCyclesBlock14 b op m m2 (by omega) (by omega) h
        ·
          exact execCyclesBlock15 b op m m2 (by omega) (by omega) h
/-- When the bus delivers byte-sized reads (as the SNES memory does),
every successful `step()` returns at least one cycle: the opcode fetch
itself bills one, and no handler decreases the counter. -/
theorem step_cycles_pos {M : Type} (b : Bus M)
    (hb : ∀ (mm : M) (a : Nat), (b.read mm a).1 < 256)
    (m : Machine M) (p : Nat × Machine M)
    (h : step b m = some p) : 1 ≤ p.1 := by
  unfold step at h
  simp only [] at h
  cases he : executeInstruction b (fetchByte b m).1 (fetchByte b m).2 with
  | none => rw [he] at h; exact Option.noConfusion h
  | some m2 =>
    rw [he] at h
    simp only [] at h
    have hop : (fetchByte b m).1 < 256 := hb m.mem ((m.rPB <<< 16) ||| m.rPC)
    have hc := executeInstruction_cycles_le b (fetchByte b m).1 (fetchByte b m).2 m2 hop he
    have hf := fetchByte_cycles b m
    injection h with h
    subst h
    simp only []
    omega

/-- The scheduler's per-scanline CPU loop (`SNES.runScanline`): run
`step()` until 227 cycles accumulate; a CPU exception forfeits the rest of
the budget (`cyclesRun = 227`).  Total because each successful step
consumes at least one cycle. -/
def cpuLoop {M : Type} (b : Bus M)
    (hb : ∀ (mm : M) (a : Nat), (b.read mm a).1 < 256)
    (m : Machine M) (cyclesRun : Nat) : Nat :=
  if hlt : cyclesRun < 227 then
    match hs : step b m with
    | some p => cpuLoop b hb p.2 (cyclesRun + p.1)
    | none => 227
  else cyclesRun
termination_by 227 - cyclesRun
decreasing_by
  have := step_cycles_pos b hb m _ hs
  omega

/-- The loop always ends with the full 227-cycle budget consumed. -/
theorem cpuLoop_ge {M : Type} (b : Bus M)
    (hb : ∀ (mm : M) (a : Nat), (b.read mm a).1 < 256)
    (m : Machine M) (c : Nat) : 227 ≤ cpuLoop b hb m c := by
  have H : ∀ (k c : Nat) (m : Machine M), 227 - c ≤ k → 227 ≤ cpuLoop b hb m c := by
    intro k
    induction k with
    | zero =>
      intro c m hk
      unfold cpuLoop
      split
      · omega
      · omega
    | succ k ih =>
      intro c m hk
      unfold cpuLoop
      split
      · split
        · rename_i p hs
          apply ih
          have := step_cycles_pos b hb m _ hs
          omega
        · omega
      · omega
  exact H 227 c m (by omega)

/-! ## Pointwise lemmas for function-modelled arrays -/

theorem setFn_same {α : Type} (f : Nat → α) (i : Nat) (v : α) : setFn f i v i = v := by
  simp [setFn]

theorem setFn_other {α : Type} (f : Nat → α) (i j : Nat) (v : α) (h : j ≠ i) :
    setFn f i v j = f j := by
  simp [setFn, h]

theorem u8Store_at (arr : Nat → Nat) (len i v : Nat) (h : i < len) :
    u8Store arr len i v i = v % 256 := by
  unfold u8Store
  rw [if_pos h]
  exact setFn_same arr i (v % 256)

theorem u8Store_elsewhere (arr : Nat → Nat) (len i v j : Nat) (h : j ≠ i) :
    u8Store arr len i v j = arr j := by
  unfold u8Store
  split
  · exact setFn_other arr i j (v % 256) h
  · rfl

/-! ## C10 -/

/-- C10: for every color index, the byte address `getColor` computes,
`(index * 2) & 0x1FF`, is even and at most 0x1FE, so both bytes it reads
(`addr` and `addr + 1`) lie inside the 512-byte CGRAM; `getColor` itself
is a total function of the state by construction. -/
theorem C10_getColor_addr_in_bounds (index : Nat) :
    PPU.getColorAddr index % 2 = 0 ∧ PPU.getColorAddr index + 1 < 512 := by
  unfold PPU.getColorAddr
  have h := Nat.and_pow_two_sub_one_eq_mod (index * 2) 9
  norm_num at h
  rw [h]
  omega

/-! ## C2 -/

/-- The latch and shift index of controller 1 after `n` reads of a freshly
latched `Input`: the latch stays the snapshot of the live state and the
index advances modulo 16. -/
theorem readTimes_latched (st : Input) (n : Nat) :
    (st.latchControllers.readTimes n).controller1Latch = st.controller1State ∧
    (st.latchControllers.readTimes n).controller1Index = n % 16 := by
  induction n with
  | zero => exact ⟨rfl, rfl⟩
  | succ n ih =>
    have hl : ∀ (x : Input), (x.readController 1).2.controller1Latch = x.controller1Latch :=
      fun x => rfl
    have hi : ∀ (x : Input),
        (x.readController 1).2.controller1Index = (x.controller1Index + 1) % 16 :=
      fun x => rfl
    constructor
    · show ((st.latchControllers.readTimes n).readController 1).2.controller1Latch = _
      rw [hl]
      exact ih.1
    · show ((st.latchControllers.readTimes n).readController 1).2.controller1Index = _
      rw [hi, ih.2]
      omega

/-- C2 (amended): after a latch write, the `(n+1)`-th read of the
controller port returns bit `15 - n % 16` of the latched mask: the first
16 reads deliver the mask most-significant first, and reads past the 16th
wrap around (the shift index advances modulo 16), replaying the same 16
bits until the next latch — they do not return 1. -/
theorem C2_reads_wrap_mod16 (st : Input) (n : Nat) :
    (st.latchControllers).nthRead n =
      (st.controller1State >>> (15 - n % 16)) &&& 1 := by
  have h := readTimes_latched st n
  show ((st.latchControllers.readTimes n).controller1Latch >>>
      (15 - (st.latchControllers.readTimes n).controller1Index)) &&& 1 = _
  rw [h.1, h.2]

/-- C2 counterexample: hold B (live mask 0x7FFF), latch, and read the port
17 times.  The 17th read (index 16) returns bit 15 of the latch again,
namely 0, not 1 as the claim states for every read past the 16th. -/
theorem C2_counterexample :
    ¬ (((Input.init.pressButton 1 0x8000).latchControllers).nthRead 16 = 1) := by
  decide

/-! ## C8 -/

/-- C8: the OAM write path evaluated at the last OAM byte address.  Set
the OAM address to 0x21F via $2102/$2103, then write a byte through
$2104: the byte lands at 0x21F, but the next address is
`(0x21F + 1) & 0x21F = 0x200`, while `(0x21F + 1) % 0x220 = 0`.  The
`& 0x21F` mask is not a reduction modulo 0x220 (0x220 is not a power of
two), so the claimed address update does not hold. -/
theorem C8_oam_increment_eval :
    (((PPU.init.writeRegister 0x2102 0x1F).writeRegister 0x2103 0x01).writeRegister
        0x2104 0xAB).oam 0x21F = 0xAB ∧
    (((PPU.init.writeRegister 0x2102 0x1F).writeRegister 0x2103 0x01).writeRegister
        0x2104 0xAB).oamAddress = 0x200 ∧
    (0x21F + 1) % 0x220 = 0 := by
  refine ⟨by decide, by decide, by decide⟩

/-! ## C7 -/

/-- C7: writing the word index through $2121 and then a byte pair through
$2122 leaves the little-endian CGRAM word at the pre-write index equal to
`low ||| (high <<< 8)`, restores the low/high toggle, and advances the
8-bit word index by one (`(v + 1) & 0xFF`; the index register wraps at
0xFF as the spec's boundary-behavior section documents). -/
theorem C7_cgram_word_write (ppu : PPU) (v low high : Nat)
    (hlow : low < 256) (hhigh : high < 256) :
    (((ppu.writeRegister 0x2121 v).writeRegister 0x2122 low).writeRegister
        0x2122 high).cgram ((v <<< 1) &&& 0x1FF) |||
      ((((ppu.writeRegister 0x2121 v).writeRegister 0x2122 low).writeRegister
        0x2122 high).cgram (((v <<< 1) &&& 0x1FF) + 1) <<< 8) =
      low ||| (high <<< 8) ∧
    (((ppu.writeRegister 0x2121 v).writeRegister 0x2122 low).writeRegister
        0x2122 high).cgramAddress = (v + 1) &&& 0xFF ∧
    (((ppu.writeRegister 0x2121 v).writeRegister 0x2122 low).writeRegister
        0x2122 high).cgramFirstWrite = true := by
  have haddr : ((v <<< 1) &&& 0x1FF) + 1 < 512 := by
    have h := Nat.and_pow_two_sub_one_eq_mod (v <<< 1) 9
    norm_num at h
    rw [h, Nat.shiftLeft_eq]
    norm_num
    omega
  have hp3 : ((ppu.writeRegister 0x2121 v).writeRegister 0x2122 low).writeRegister
      0x2122 high = { ppu with
        cgram := u8Store (u8Store ppu.cgram 512 ((v <<< 1) &&& 0x1FF) low) 512
          (((v <<< 1) &&& 0x1FF) + 1) high
        cgramAddress := (v + 1) &&& 0xFF
        cgramFirstWrite := true } := rfl
  rw [hp3]
  refine ⟨?_, rfl, rfl⟩
  show (u8Store (u8Store ppu.cgram 512 ((v <<< 1) &&& 0x1FF) low) 512
      (((v <<< 1) &&& 0x1FF) + 1) high) ((v <<< 1) &&& 0x1FF) |||
    ((u8Store (u8Store ppu.cgram 512 ((v <<< 1) &&& 0x1FF) low) 512
      (((v <<< 1) &&& 0x1FF) + 1) high) (((v <<< 1) &&& 0x1FF) + 1) <<< 8) =
    low ||| (high <<< 8)
  rw [u8Store_elsewhere _ _ _ _ _ (by omega)]
  rw [u8Store_at _ _ _ _ (by omega)]
  rw [u8Store_at _ _ _ _ haddr]
  rw [Nat.mod_eq_of_lt hlow, Nat.mod_eq_of_lt hhigh]

/-! ## C3 -/

/-- Byte-merge fact for the VRAM low-byte write: the low byte of the
merged word is the written byte. -/
theorem low_byte_of_merge (w low : Nat) (hlow : low < 256) :
    ((w &&& 0xFF00) ||| low) &&& 0xFF = low := by
  rw [Nat.and_comm ((w &&& 0xFF00) ||| low) 0xFF, Nat.and_or_distrib_left,
    Nat.and_comm 0xFF (w &&& 0xFF00), Nat.and_comm 0xFF low, Nat.and_assoc,
    show (0xFF00 : Nat) &&& 0xFF = 0 from by decide, Nat.and_zero, Nat.zero_or]
  have h2 := Nat.and_pow_two_sub_one_eq_mod low 8
  norm_num at h2
  rw [h2]
  exact Nat.mod_eq_of_lt hlow

/-- The low-byte merge stays below 2^16. -/
theorem merge_lt (w low : Nat) (hlow : low < 256) :
    ((w &&& 0xFF00) ||| low) < 65536 := by
  have h1 : w &&& 0xFF00 < 2 ^ 16 := by
    have h := @Nat.and_le_right w 0xFF00
    norm_num
    omega
  have h2 : low < 2 ^ 16 := by norm_num; omega
  have h3 := Nat.or_lt_two_pow h1 h2
  norm_num at h3
  exact h3

/-- `vramWrite 0` when VMAIN selects increment-on-high: only the word's
low byte is replaced and the address does not move. -/
theorem vramWrite_low_incHigh (q : PPU) (value : Nat) (h : q.vmain &&& 0x80 = 0x80) :
    q.vramWrite 0 value = { q with
      vram := setFn q.vram (q.vramAddress &&& 0x7FFF)
        (((q.vram (q.vramAddress &&& 0x7FFF) &&& 0xFF00) ||| value) % 65536) } := by
  unfold PPU.vramWrite
  simp only [h]
  norm_num
  intro habs
  exact absurd habs (by decide)

/-- `vramWrite 1` when VMAIN selects increment-on-high: the word's high
byte is replaced and the address advances by the configured step. -/
theorem vramWrite_high_incHigh (q : PPU) (value : Nat) (h : q.vmain &&& 0x80 = 0x80) :
    q.vramWrite 1 value = { q with
      vram := setFn q.vram (q.vramAddress &&& 0x7FFF)
        (((q.vram (q.vramAddress &&& 0x7FFF) &&& 0x00FF) ||| (value <<< 8)) % 65536)
      vramAddress := (q.vramAddress + vramSteps.getD (q.vmain &&& 0x03) 0) &&& 0xFFFF } := by
  unfold PPU.vramWrite
  simp only [h]
  norm_num
  intro habs
  exact absurd (by decide) habs

/-- The full 16-bit merge of a low byte and a shifted high byte stays
below 2^16. -/
theorem merge2_lt (low high : Nat) (hlow : low < 256) (hhigh : high < 256) :
    (low ||| (high <<< 8)) < 65536 := by
  have h1 : low < 2 ^ 16 := by norm_num; omega
  have h2 : high <<< 8 < 2 ^ 16 := by
    rw [Nat.shiftLeft_eq]
    norm_num
    omega
  have h3 := Nat.or_lt_two_pow h1 h2
  norm_num at h3
  exact h3

/-- C3: with VMAIN bit 7 set (increment on high-byte write), writing byte
`low` to $2118 and then byte `high` to $2119 leaves the 16-bit VRAM word
at the pre-write address `vramAddress & 0x7FFF` equal to
`low ||| (high <<< 8)`, and the word address advances exactly once, by the
step `{1, 32, 128, 128}` selected by VMAIN bits 0-1. -/
theorem C3_vram_word_write (ppu : PPU) (low high : Nat)
    (hlow : low < 256) (hhigh : high < 256) (hv : ppu.vmain &&& 0x80 = 0x80) :
    ((ppu.writeRegister 0x2118 low).writeRegister 0x2119 high).vram
        (ppu.vramAddress &&& 0x7FFF) = low ||| (high <<< 8) ∧
    ((ppu.writeRegister 0x2118 low).writeRegister 0x2119 high).vramAddress =
        (ppu.vramAddress + vramSteps.getD (ppu.vmain &&& 0x03) 0) &&& 0xFFFF := by
  have e : (ppu.writeRegister 0x2118 low).writeRegister 0x2119 high
      = (ppu.vramWrite 0 low).vramWrite 1 high := rfl
  have hfull : (ppu.vramWrite 0 low).vramWrite 1 high = { ppu with
      vram := setFn
        (setFn ppu.vram (ppu.vramAddress &&& 0x7FFF)
          (((ppu.vram (ppu.vramAddress &&& 0x7FFF) &&& 0xFF00) ||| low) % 65536))
        (ppu.vramAddress &&& 0x7FFF)
        (((setFn ppu.vram (ppu.vramAddress &&& 0x7FFF)
            (((ppu.vram (ppu.vramAddress &&& 0x7FFF) &&& 0xFF00) ||| low) % 65536)
            (ppu.vramAddress &&& 0x7FFF) &&& 0x00FF) ||| (high <<< 8)) % 65536)
      vramAddress :=
        (ppu.vramAddress + vramSteps.getD (ppu.vmain &&& 0x03) 0) &&& 0xFFFF } := by
    rw [vramWrite_low_incHigh ppu low hv]
    exact vramWrite_high_incHigh _ high hv
  rw [e, hfull]
  refine ⟨?_, rfl⟩
  show setFn
      (setFn ppu.vram (ppu.vramAddress &&& 0x7FFF)
        (((ppu.vram (ppu.vramAddress &&& 0x7FFF) &&& 0xFF00) ||| low) % 65536))
      (ppu.vramAddress &&& 0x7FFF)
      (((setFn ppu.vram (ppu.vramAddress &&& 0x7FFF)
          (((ppu.vram (ppu.vramAddress &&& 0x7FFF) &&& 0xFF00) ||| low) % 65536)
          (ppu.vramAddress &&& 0x7FFF) &&& 0x00FF) ||| (high <<< 8)) % 65536)
      (ppu.vramAddress &&& 0x7FFF) = low ||| (high <<< 8)
  rw [setFn_same, setFn_same]
  rw [Nat.mod_eq_of_lt (merge_lt (ppu.vram (ppu.vramAddress &&& 0x7FFF)) low hlow)]
  rw [low_byte_of_merge (ppu.vram (ppu.vramAddress &&& 0x7FFF)) low hlow]
  exact Nat.mod_eq_of_lt (merge2_lt low high hlow hhigh)

/-- C3 at a concrete state: VMAIN := 0x80 via $2115 on the reset PPU, then
the word 0x1234 written through $2118/$2119. -/
theorem C3_vram_word_write_witness :
    (((PPU.init.writeRegister 0x2115 0x80).writeRegister 0x2118 0x34).writeRegister
        0x2119 0x12).vram
        ((PPU.init.writeRegister 0x2115 0x80).vramAddress &&& 0x7FFF) =
      0x34 ||| (0x12 <<< 8) ∧
    (((PPU.init.writeRegister 0x2115 0x80).writeRegister 0x2118 0x34).writeRegister
        0x2119 0x12).vramAddress =
      ((PPU.init.writeRegister 0x2115 0x80).vramAddress +
        vramSteps.getD ((PPU.init.writeRegister 0x2115 0x80).vmain &&& 0x03) 0) &&&
        0xFFFF :=
  C3_vram_word_write (PPU.init.writeRegister 0x2115 0x80) 0x34 0x12 (by decide)
    (by decide) (by decide)

/-! ## C4 -/

/-- Concrete ROM image for C4: byte 0 is 0x12, all other bytes 0xEA (so
neither header checksum validates and a 32 KiB image detects as LoROM). -/
def c4romData : Nat → Nat := fun i => if i = 0 then 0x12 else 0xEA

/-- 32 KiB LoROM test memory. -/
def c4mem : Memory := Memory.init.loadROM c4romData 0x8000

/-- The stored ROM byte function after `loadROM` (no copier header strip). -/
def c4romFn : Nat → Nat := fun i => c4romData i % 256

/-- C4 counterexample: address 0x40:6000 routes to ROM (bank not WRAM,
offset ≥ 0x6000) but no LoROM mapping case covers offset < 0x8000; the
read returns ROM byte 0 (here 0x12), not 0xFF. -/
theorem C4_counterexample : ¬ ((c4mem.read 0x406000).1 = 0xFF) := by
  decide

/-- C4 (amended): with a ROM loaded in LoROM mode, a read whose bank is
not WRAM (0x7E/0x7F) and whose offset lies in [0x6000, 0x8000) falls
through every LoROM mapping case, leaving the effective address at its
initial value 0: the read returns ROM byte `0 % romSize`, not 0xFF.  Only
a missing ROM produces 0xFF. -/
theorem C4_unmapped_lorom_read (m : Memory) (r : Nat → Nat) (address : Nat)
    (hrom : m.rom = some r) (htype : m.romType = ROMType.loROM)
    (hbank1 : (address >>> 16) &&& 0xFF ≠ 0x7E)
    (hbank2 : (address >>> 16) &&& 0xFF ≠ 0x7F)
    (hoff1 : 0x6000 ≤ address &&& 0xFFFF)
    (hoff2 : address &&& 0xFFFF < 0x8000) :
    (m.read address).1 = r 0 := by
  have hb : ¬((address >>> 16) &&& 0xFF = 0x7E ∨ (address >>> 16) &&& 0xFF = 0x7F) := by
    intro h
    cases h with
    | inl h => exact hbank1 h
    | inr h => exact hbank2 h
  unfold Memory.read
  simp only []
  rw [if_neg hb, if_neg (show ¬(address &&& 0xFFFF < 0x2000) by omega),
    if_neg (show ¬(0x2000 ≤ address &&& 0xFFFF ∧ address &&& 0xFFFF < 0x6000) by omega)]
  show m.readROM ((address >>> 16) &&& 0xFF) (address &&& 0xFFFF) = r 0
  unfold Memory.readROM
  rw [hrom]
  simp only []
  rw [htype]
  simp only []
  rw [if_neg (show ¬(((address >>> 16) &&& 0xFF) ≤ 0x7D ∧ address &&& 0xFFFF ≥ 0x8000) by
      omega),
    if_neg (show ¬((address >>> 16) &&& 0xFF ≥ 0x80 ∧ (address >>> 16) &&& 0xFF ≤ 0xFD ∧
      address &&& 0xFFFF ≥ 0x8000) by omega),
    if_neg (show ¬((address >>> 16) &&& 0xFF ≥ 0xFE ∧ address &&& 0xFFFF ≥ 0x8000) by
      omega)]
  rw [Nat.zero_mod]

/-- C4 amended theorem at the concrete LoROM image and address 0x40:6000. -/
theorem C4_unmapped_lorom_read_witness : (c4mem.read 0x406000).1 = c4romFn 0 :=
  C4_unmapped_lorom_read c4mem c4romFn 0x406000 (by rfl) (by rfl) (by decide)
    (by decide) (by decide) (by decide)

/-! ## C6 -/

set_option maxHeartbeats 1000000 in
/-- `Memory.read` never touches the DMA register file. -/
theorem read_dmaChannels (m : Memory) (a : Nat) :
    (m.read a).2.dmaChannels = m.dmaChannels := by
  unfold Memory.read
  simp only []
  split
  · rfl
  · split
    · rfl
    · split
      · unfold Memory.readIo
        simp only []
        repeat' split
        all_goals rfl
      · rfl

/-- The DMA copy loop never touches the DMA register file. -/
theorem dmaLoop_dmaChannels (bAddr srcAddr : Nat) :
    ∀ (count i : Nat) (m : Memory),
      (m.dmaLoop bAddr srcAddr i count).dmaChannels = m.dmaChannels := by
  intro count
  induction count with
  | zero => intro i m; rfl
  | succ n ih =>
    intro i m
    have e : m.dmaLoop bAddr srcAddr i (n + 1) =
        Memory.dmaLoop
          { (m.read (srcAddr + i)).2 with
            ppu := (m.read (srcAddr + i)).2.ppu.writeRegister (0x2100 + bAddr)
              (m.read (srcAddr + i)).1 }
          bAddr srcAddr (i + 1) n := rfl
    rw [e, ih]
    show (m.read (srcAddr + i)).2.dmaChannels = m.dmaChannels
    exact read_dmaChannels m (srcAddr + i)

/-- One channel of `executeDMA` with direction CPU→PPU (params bit 7
clear) succeeds and its only effect on the DMA register file is zeroing
the fired channel's size. -/
theorem executeDMA_spec (m : Memory) (c : Nat)
    (h : (m.dmaChannels c).params &&& 0x80 = 0) :
    ∃ m2, m.executeDMA c = some m2 ∧
      m2.dmaChannels = setFn m.dmaChannels c { m.dmaChannels c with size := 0 } := by
  have hd : ((m.dmaChannels c).params &&& 0x80 != 0) = false := by
    rw [h]
    decide
  unfold Memory.executeDMA
  simp only []
  rw [hd]
  rw [if_neg (by decide : ¬(false = true))]
  refine ⟨_, rfl, ?_⟩
  show setFn
      ((m.dmaLoop (m.dmaChannels c).bAddress
        (((m.dmaChannels c).aBank <<< 16) ||| (m.dmaChannels c).aAddress) 0
        (m.dmaSizeEff c)).dmaChannels) c
      { (m.dmaLoop (m.dmaChannels c).bAddress
          (((m.dmaChannels c).aBank <<< 16) ||| (m.dmaChannels c).aAddress) 0
          (m.dmaSizeEff c)).dmaChannels c with size := 0 } =
    setFn m.dmaChannels c { m.dmaChannels c with size := 0 }
  rw [dmaLoop_dmaChannels]

/-- The $420B per-bit firing step (the `foldl` body in `handleDMA`). -/
def dmaFire (v : Nat) (om : Option Memory) (i : Nat) : Option Memory :=
  om.bind fun mm => if v &&& (1 <<< i) != 0 then mm.executeDMA i else some mm

/-- Folding the firing step over a channel list: if every fired channel
has direction CPU→PPU, the fold succeeds, fired channels end with size 0,
and unfired channels are untouched. -/
theorem dmaFire_foldl (v : Nat) :
    ∀ (L : List Nat) (m : Memory),
      (∀ i ∈ L, (v &&& (1 <<< i) != 0) = true →
        (m.dmaChannels i).params &&& 0x80 = 0) →
      ∃ mf, L.foldl (dmaFire v) (some m) = some mf ∧
        ∀ j, mf.dmaChannels j =
          if j ∈ L ∧ (v &&& (1 <<< j) != 0) = true
          then { m.dmaChannels j with size := 0 } else m.dmaChannels j := by
  intro L
  induction L with
  | nil =>
    intro m _
    exact ⟨m, rfl, fun j => by simp⟩
  | cons a L ih =>
    intro m hdir
    rw [List.foldl_cons]
    by_cases hfa : (v &&& (1 <<< a) != 0) = true
    · have hda := hdir a (List.mem_cons_self a L) hfa
      obtain ⟨m2, he2, hc2⟩ := executeDMA_spec m a hda
      have hstep : dmaFire v (some m) a = some m2 := by
        unfold dmaFire
        show (if (v &&& (1 <<< a) != 0) = true then m.executeDMA a else some m) = some m2
        rw [if_pos hfa]
        exact he2
      rw [hstep]
      have hdir2 : ∀ i ∈ L, (v &&& (1 <<< i) != 0) = true →
          (m2.dmaChannels i).params &&& 0x80 = 0 := by
        intro i hi hf
        rw [hc2]
        by_cases hia : i = a
        · subst hia
          rw [setFn_same]
          exact hda
        · rw [setFn_other _ _ _ _ hia]
          exact hdir i (List.mem_cons_of_mem a hi) hf
      obtain ⟨mf, hf, hcf⟩ := ih m2 hdir2
      refine ⟨mf, hf, fun j => ?_⟩
      rw [hcf j, hc2]
      by_cases hja : j = a
      · subst hja
        rw [setFn_same]
        by_cases hjL : j ∈ L
        · rw [if_pos ⟨hjL, hfa⟩, if_pos ⟨List.mem_cons_self j L, hfa⟩]
        · rw [if_neg (fun h => hjL h.1), if_pos ⟨List.mem_cons_self j L, hfa⟩]
      · rw [setFn_other _ _ _ _ hja]
        by_cases hjL : j ∈ L ∧ (v &&& (1 <<< j) != 0) = true
        · rw [if_pos hjL, if_pos ⟨List.mem_cons_of_mem a hjL.1, hjL.2⟩]
        · have hne : ¬(j ∈ a :: L ∧ (v &&& (1 <<< j) != 0) = true) := by
            intro h
            exact hjL ⟨(List.mem_cons.mp h.1).resolve_left hja, h.2⟩
          rw [if_neg hjL, if_neg hne]
    · have hstep : dmaFire v (some m) a = some m := by
        unfold dmaFire
        show (if (v &&& (1 <<< a) != 0) = true then m.executeDMA a else some m) = some m
        rw [if_neg hfa]
      rw [hstep]
      obtain ⟨mf, hf, hcf⟩ := ih m (fun i hi => hdir i (List.mem_cons_of_mem a hi))
      refine ⟨mf, hf, fun j => ?_⟩
      rw [hcf j]
      by_cases hjL : j ∈ L ∧ (v &&& (1 <<< j) != 0) = true
      · rw [if_pos hjL, if_pos ⟨List.mem_cons_of_mem a hjL.1, hjL.2⟩]
      · have hne : ¬(j ∈ a :: L ∧ (v &&& (1 <<< j) != 0) = true) := by
          intro h
          rcases List.mem_cons.mp h.1 with hja | hjl
          · rw [hja] at h
            exact hfa h.2
          · exact hjL ⟨hjl, h.2⟩
        rw [if_neg hjL, if_neg hne]

/-- C6: writing `v` to $420B fires exactly the channels whose bit is set
in `v`, by folding over channels 0..7 in ascending order.  Provided every
fired channel is configured CPU→PPU (params bit 7 clear, the only
direction the code can execute), the write succeeds, every fired
channel's size register ends at 0, unfired channels are untouched, and a
channel whose size register is 0 transfers `dmaSizeEff = 0x10000` bytes. -/
theorem C6_dma_enable (m : Memory) (v : Nat)
    (hdir : ∀ i, i < 8 → (v &&& (1 <<< i) != 0) = true →
      (m.dmaChannels i).params &&& 0x80 = 0) :
    ∃ mf, m.write 0x420B v = some mf ∧
      (∀ i, i < 8 → (v &&& (1 <<< i) != 0) = true →
        mf.dmaChannels i = { m.dmaChannels i with size := 0 }) ∧
      (∀ i, i < 8 → (v &&& (1 <<< i) != 0) = false →
        mf.dmaChannels i = m.dmaChannels i) ∧
      (∀ i, (m.dmaChannels i).size = 0 → m.dmaSizeEff i = 0x10000) := by
  have e2 : m.write 0x420B v = (List.range 8).foldl (dmaFire v)
      (some { m with ioRegisters := u8Store m.ioRegisters 0x4380 (0x420B - 0x2000) v }) :=
    rfl
  obtain ⟨mf, hf, hc⟩ := dmaFire_foldl v (List.range 8)
    { m with ioRegisters := u8Store m.ioRegisters 0x4380 (0x420B - 0x2000) v }
    (fun i hi hfi => hdir i (List.mem_range.mp hi) hfi)
  refine ⟨mf, by rw [e2]; exact hf, ?_, ?_, ?_⟩
  · intro i hi hfi
    rw [hc i, if_pos ⟨List.mem_range.mpr hi, hfi⟩]
  · intro i hi hfi
    have hne : ¬(i ∈ List.range 8 ∧ (v &&& (1 <<< i) != 0) = true) := by
      intro h
      have h2 := h.2
      rw [hfi] at h2
      exact absurd h2 (by decide)
    rw [hc i, if_neg hne]
  · intro i hsz
    unfold Memory.dmaSizeEff
    rw [if_pos hsz]

/-- C6 at a concrete state: channel 0 set up for a 3-byte CPU→PPU
transfer (B-bus port $2118, A-bus 0x7E:0000) and fired with v = 1. -/
def c6mem : Memory :=
  { Memory.init with
    dmaChannels := setFn (fun _ => DMAChannel.init) 0
      { DMAChannel.init with size := 3, bAddress := 0x18, aBank := 0x7E } }

/-- C6 witness: the enable write at the concrete state fires channel 0,
zeroes its size, and leaves the other channels untouched. -/
theorem C6_dma_enable_witness :
    ∃ mf, c6mem.write 0x420B 1 = some mf ∧
      (∀ i, i < 8 → (1 &&& (1 <<< i) != 0) = true →
        mf.dmaChannels i = { c6mem.dmaChannels i with size := 0 }) ∧
      (∀ i, i < 8 → (1 &&& (1 <<< i) != 0) = false →
        mf.dmaChannels i = c6mem.dmaChannels i) ∧
      (∀ i, (c6mem.dmaChannels i).size = 0 → c6mem.dmaSizeEff i = 0x10000) :=
  C6_dma_enable c6mem 1 (by decide)

/-! ## C1 and C5: concrete machine runs on the real memory bus -/

/-- The SNES bus the scheduler wires into the CPU (`new CPU65816(memory)`). -/
def memBus : Bus Memory := { read := Memory.read, write := Memory.write }

/-- C1 ROM: `LDA #$34; XBA; TCS`, a valid LoROM header checksum at
$7FC0 (complement 0xAAAA / checksum 0x5555) and reset vector $8000. -/
def c1romData : Nat → Nat := fun i =>
  if i = 0 then 0xA9
  else if i = 1 then 0x34
  else if i = 2 then 0xEB
  else if i = 3 then 0x1B
  else if i = 0x7FEC then 0xAA
  else if i = 0x7FED then 0xAA
  else if i = 0x7FEE then 0x55
  else if i = 0x7FEF then 0x55
  else if i = 0x7FFC then 0x00
  else if i = 0x7FFD then 0x80
  else 0xEA

def c1mem : Memory := Memory.init.loadROM c1romData 0x8000

def c1machine : Machine Memory := cpuReset memBus (initMachine c1mem)

/-- Three instructions from reset: LDA #$34, XBA, TCS. -/
def c1run : Option (Nat × Machine Memory) :=
  (step memBus c1machine).bind fun p1 =>
    (step memBus p1.2).bind fun p2 => step memBus p2.2

set_option maxHeartbeats 2000000 in
/-- C1: the invariant fails.  From reset (E = 1, SP = 0x01FF), the
reachable sequence LDA #$34; XBA; TCS executes through `step()` and ends
with E still 1 but SP = 0x3400: TCS copies all 16 bits of A into SP with
no emulation-mode clamp of the high byte to 0x01. -/
theorem C1_tcs_breaks_emulation_sp :
    (c1run.map fun p => (p.2.fE, p.2.rSP)) = some (true, 0x3400) := by
  rfl

/-- C5 ROM: `CLC; XCE; REP #$10; LDX #$1234; SEP #$10`, same header and
reset vector as the C1 image. -/
def c5romData : Nat → Nat := fun i =>
  if i = 0 then 0x18
  else if i = 1 then 0xFB
  else if i = 2 then 0xC2
  else if i = 3 then 0x10
  else if i = 4 then 0xA2
  else if i = 5 then 0x34
  else if i = 6 then 0x12
  else if i = 7 then 0xE2
  else if i = 8 then 0x10
  else if i = 0x7FEC then 0xAA
  else if i = 0x7FED then 0xAA
  else if i = 0x7FEE then 0x55
  else if i = 0x7FEF then 0x55
  else if i = 0x7FFC then 0x00
  else if i = 0x7FFD then 0x80
  else 0xEA

def c5mem : Memory := Memory.init.loadROM c5romData 0x8000

def c5machine : Machine Memory := cpuReset memBus (initMachine c5mem)

/-- Five instructions from reset. -/
def c5run : Option (Nat × Machine Memory) :=
  (step memBus c5machine).bind fun p1 =>
    (step memBus p1.2).bind fun p2 =>
      (step memBus p2.2).bind fun p3 =>
        (step memBus p3.2).bind fun p4 => step memBus p4.2

set_option maxHeartbeats 2000000 in
/-- C5: the invariant fails.  After CLC; XCE (enter native mode),
REP #$10 (16-bit index), LDX #$1234, the reachable SEP #$10 sets flag
X = 1 but leaves rX = 0x1234: `setStatusRegister` touches only flags and
never zeroes the X/Y high bytes. -/
theorem C5_sep_keeps_index_high_bytes :
    (c5run.map fun p => (p.2.fX, p.2.rX)) = some (true, 0x1234) := by
  rfl

/-! ## C9 -/

/-- A trivially byte-valued bus (always reads NOP) used to exercise the
scheduler loop at a concrete state. -/
def nopBus : Bus Unit := { read := fun u _ => (0xEA, u), write := fun u _ _ => some u }

/-- The NOP bus delivers byte-sized reads. -/
theorem nopBus_reads_lt : ∀ (mm : Unit) (a : Nat), (nopBus.read mm a).1 < 256 :=
  fun _ _ => by
    show (0xEA : Nat) < 256
    decide

/-- C9: on any byte-valued bus, every successful `step()` bills at least
one cycle (the opcode fetch), and the scheduler's per-scanline loop
(`runScanline`: run `step()` until 227 cycles accumulate) terminates with
the full budget consumed. -/
theorem C9_step_min_cycle_loop_terminates {M : Type} (b : Bus M)
    (hb : ∀ (mm : M) (a : Nat), (b.read mm a).1 < 256)
    (m : Machine M) (p : Nat × Machine M) (h : step b m = some p) :
    1 ≤ p.1 ∧ 227 ≤ cpuLoop b hb m 0 :=
  ⟨step_cycles_pos b hb m p h, cpuLoop_ge b hb m 0⟩

/-- C9 at a concrete input: one NOP step from the initial machine bills
exactly one cycle and the scanline loop consumes its budget. -/
theorem C9_step_min_cycle_loop_terminates_witness :
    1 ≤ (1 : Nat) ∧ 227 ≤ cpuLoop nopBus nopBus_reads_lt (initMachine Unit.unit) 0 :=
  C9_step_min_cycle_loop_terminates nopBus nopBus_reads_lt (initMachine Unit.unit)
    (1, { initMachine Unit.unit with rPC := 1, cycles := 1 }) (by rfl)

/-- C7 at a concrete state: word index 5 via $2121, then bytes 0x34/0x12
through $2122 on the reset PPU. -/
theorem C7_cgram_word_write_witness :
    (((PPU.init.writeRegister 0x2121 5).writeRegister 0x2122 0x34).writeRegister
        0x2122 0x12).cgram ((5 <<< 1) &&& 0x1FF) |||
      ((((PPU.init.writeRegister 0x2121 5).writeRegister 0x2122 0x34).writeRegister
        0x2122 0x12).cgram (((5 <<< 1) &&& 0x1FF) + 1) <<< 8) =
      0x34 ||| (0x12 <<< 8) ∧
    (((PPU.init.writeRegister 0x2121 5).writeRegister 0x2122 0x34).writeRegister
        0x2122 0x12).cgramAddress = (5 + 1) &&& 0xFF ∧
    (((PPU.init.writeRegister 0x2121 5).writeRegister 0x2122 0x34).writeRegister
        0x2122 0x12).cgramFirstWrite = true :=
  C7_cgram_word_write PPU.init 5 0x34 0x12 (by decide) (by decide)
